import Mathlib

/-!
# packer-plugin-ionoscloud: the builder steps

A shallow embedding of `builder/ionoscloud` (`builder.go`, `step_create_ssh_key.go`,
`step_create_server.go`, `step_take_snapshot.go`).

* Go pointers are `Option`s; dereferencing `none`, a failed single-value type assertion and an
  index out of range end the computation with `Result.panic`.
* The state bag, the `Config` behind the `*Config` pointer and the transcript of every UI message,
  log line and remote call form the `World` that a step transforms.
* What lies outside the repository (the IONOS SDK client, the communicator, the `ssh` and `pem`
  packages, the file system, the multistep runner) is a record of functions. Remote answers may
  depend on everything that happened before: each such function receives the transcript so far.
-/

namespace Ionoscloud

/-! ## Go values -/

/-- A Go `error` value, identified by its message. -/
structure GoError where
  msg : String
deriving DecidableEq

/-- The `errors.New` constructor. -/
def errorsNew (msg : String) : GoError := ⟨msg⟩

/-- A `context.Context`: the background context, or one handed in by the caller, which may already
be done. -/
inductive Context where
  | Background
  | Caller (name : String) (done : Bool)
deriving DecidableEq

/-- A Go `float32`, carried as its bit pattern (the steps only pass it on). -/
structure Float32 where
  bits : Nat
deriving DecidableEq

/-- The outcome of running Go code: a value, or a run-time panic. -/
inductive Result (α : Type) where
  | ok (a : α)
  | panic (reason : String)
deriving DecidableEq

instance : Monad Result where
  pure a := Result.ok a
  bind r f :=
    match r with
    | Result.ok a => f a
    | Result.panic m => Result.panic m

/-- Pointer dereference `*p`. -/
def deref {α : Type} : Option α → Result α
  | some a => Result.ok a
  | none => Result.panic "invalid memory address or nil pointer dereference"

/-- Slice indexing `xs[i]`. -/
def index {α : Type} (xs : List α) (i : Nat) : Result α :=
  match xs.get? i with
  | some a => Result.ok a
  | none => Result.panic "index out of range"

/-- The short-circuit conjunction `a && b`: `b` is evaluated only when `a` is true. -/
def Result.and (a b : Result Bool) : Result Bool :=
  match a with
  | Result.ok true => b
  | Result.ok false => Result.ok false
  | Result.panic m => Result.panic m

/-! ## Strings -/

/-- The `strings.HasPrefix` test on the runes of two strings. -/
def hasPrefixRunes : List Char → List Char → Bool
  | _, [] => true
  | [], _ :: _ => false
  | c :: s, d :: p => c == d && hasPrefixRunes s p

/-- Substring test on runes. -/
def containsRunes : List Char → List Char → Bool
  | [], sub => sub.isEmpty
  | c :: s, sub => hasPrefixRunes (c :: s) sub || containsRunes s sub

/-- The `strings.Contains` function. -/
def stringsContains (s substr : String) : Bool := containsRunes s.data substr.data

/-- The `strings.ToLower` function: `unicode.ToLower` (here `lower`) applied to every rune. -/
def stringsToLower (lower : Char → Char) (s : String) : String := String.mk (s.data.map lower)

/-! ## SDK payloads (`github.com/ionos-cloud/sdk-go/v6`) -/

structure APIResponse where
  StatusCode : Int
  Message : String
  /-- The response headers, keyed by canonical name. -/
  Header : List (String × List String)
deriving DecidableEq

/-- The `http.Header.Get` lookup of the `location` header (canonical key `Location`): the first
value, or the empty string. -/
def APIResponse.HeaderGetLocation (resp : APIResponse) : String :=
  match resp.Header.lookup "Location" with
  | some (v :: _) => v
  | _ => ""

structure ImageProperties where
  Name : Option String
  ImageType : Option String
  Location : Option String
  Public : Option Bool
deriving DecidableEq

structure Image where
  Id : Option String
  Properties : Option ImageProperties
deriving DecidableEq

structure Images where
  Items : Option (List Image)
deriving DecidableEq

structure DatacenterProperties where
  Name : Option String
  Description : Option String
  Location : Option String
deriving DecidableEq

structure Datacenter where
  Id : Option String
  Properties : Option DatacenterProperties
deriving DecidableEq

structure LanPropertiesPost where
  Name : Option String
  Public : Option Bool
deriving DecidableEq

structure LanPost where
  Id : Option String
  Properties : Option LanPropertiesPost
deriving DecidableEq

structure VolumeProperties where
  Name : Option String
  Type_ : Option String
  Size : Option Float32
  Image : Option String
  ImagePassword : Option String
  SshKeys : Option (List String)
  LicenceType : Option String
deriving DecidableEq

structure Volume where
  Id : Option String
  Properties : Option VolumeProperties
deriving DecidableEq

structure AttachedVolumes where
  Items : Option (List Volume)
deriving DecidableEq

structure NicProperties where
  Name : Option String
  Ips : Option (List String)
  Dhcp : Option Bool
  Lan : Option Int
deriving DecidableEq

structure Nic where
  Id : Option String
  Properties : Option NicProperties
deriving DecidableEq

structure Nics where
  Items : Option (List Nic)
deriving DecidableEq

structure ResourceReference where
  Id : Option String
deriving DecidableEq

structure ServerProperties where
  Name : Option String
  Cores : Option Int
  Ram : Option Int
  BootVolume : Option ResourceReference
deriving DecidableEq

structure ServerEntities where
  Volumes : Option AttachedVolumes
  Nics : Option Nics
deriving DecidableEq

structure Server where
  Id : Option String
  Properties : Option ServerProperties
  Entities : Option ServerEntities
deriving DecidableEq

structure Snapshot where
  Id : Option String
deriving DecidableEq

/-- The `packersdk.RemoteCmd` fields the steps set. -/
structure RemoteCmd where
  Command : String
deriving DecidableEq

/-! ## Configuration (`config.go`) -/

/-- The fields of `communicator.Config` the steps read or write. A `[]byte` is an optional
string, `none` being the nil slice. -/
structure CommConfig where
  SSHPassword : String
  SSHPrivateKeyFile : String
  SSHPrivateKey : Option String
  SSHPublicKey : Option String
deriving DecidableEq

structure Config where
  PackerDebug : Bool
  Comm : CommConfig
  IonosUsername : String
  IonosPassword : String
  IonosApiUrl : String
  Region : String
  Image : String
  SnapshotName : String
  DiskSize : Float32
  DiskType : String
  Cores : Int
  Ram : Int
  Retries : Int
deriving DecidableEq

/-! ## The state bag, the transcript and the world -/

/-- A `packersdk.Ui` handle. -/
structure Ui where
  id : Nat
deriving DecidableEq

/-- A `packersdk.Hook` handle. -/
structure Hook where
  id : Nat
deriving DecidableEq

/-- A `packersdk.Communicator` object. -/
structure Communicator where
  id : Nat
deriving DecidableEq

/-- The dynamically typed values (`interface{}`) that are put into the state bag. -/
inductive Value where
  | nil
  | str (s : String)
  | error (e : GoError)
  | bool (b : Bool)
  | ui (u : Ui)
  | hook (h : Hook)
  | config
  | communicator (c : Communicator)
  | other (tag : String)
deriving DecidableEq

/-- The `multistep.ActionContinue` and `multistep.ActionHalt` verdicts. -/
inductive StepAction where
  | ActionContinue
  | ActionHalt
deriving DecidableEq

/-- Everything a step does that is visible outside it, in order of occurrence. -/
inductive Event where
  | Say (msg : String)
  | Error (msg : String)
  | Log (msg : String)
  | ImagesGet (ctx : Context)
  | DatacentersPost (ctx : Context) (dc : Datacenter)
  | DatacentersDelete (ctx : Context) (datacenterID : String)
  | WaitForDeletion (ctx : Context) (resourceID : String)
  | LansPost (ctx : Context) (dcId : String) (lan : LanPost)
  | ServersPost (ctx : Context) (dcId : String) (server : Server)
  | ServersFindById (ctx : Context) (dcId : String) (serverId : String)
  | VolumesFindById (ctx : Context) (dcId : String) (volumeId : String)
  | CreateSnapshotPost (ctx : Context) (dcId : String) (volumeId : String)
  | WaitForRequest (ctx : Context) (path : String)
  | WaitForState (ctx : Context) (resourceID : String)
  | ReadSSHPrivateKeyFile (path : String)
  | CommStart (comm : Communicator) (ctx : Context) (cmd : RemoteCmd)
deriving DecidableEq

/-- Whether an event is a call to the provider or to the guest. -/
def Event.isRemote : Event → Bool
  | Event.Say _ => false
  | Event.Error _ => false
  | Event.Log _ => false
  | Event.ReadSSHPrivateKeyFile _ => false
  | _ => true

/-- A `multistep.BasicStateBag`: a map from keys to values. -/
abbrev StateBag := List (String × Value)

/-- The value under a key and whether the key is present. -/
def StateBag.GetOk (b : StateBag) (k : String) : Option Value := b.lookup k

/-- The value under a key, `nil` when the key is absent. -/
def StateBag.Get (b : StateBag) (k : String) : Value := (b.lookup k).getD Value.nil

/-- Sets the value under a key. -/
def StateBag.Put (b : StateBag) (k : String) (v : Value) : StateBag :=
  (k, v) :: b.filter (fun e => e.1 != k)

structure World where
  /-- The state bag shared by the steps. -/
  bag : StateBag
  /-- The `Config` that the `*Config` stored under `config` points to. -/
  config : Config
  /-- The transcript so far. -/
  trace : List Event
deriving DecidableEq

/-- A Go function with side effects: it ends with a value or a panic, in a new world. -/
def M (α : Type) : Type := World → Result α × World

/-- Runs a computation from a world. -/
def M.run {α : Type} (m : M α) (w : World) : Result α × World := m w

instance : Monad M where
  pure a := fun w => (Result.ok a, w)
  bind m f := fun w =>
    match m w with
    | (Result.ok a, w1) => f a w1
    | (Result.panic r, w1) => (Result.panic r, w1)

/-- A pure Go expression inside an effectful function. -/
def liftR {α : Type} (r : Result α) : M α := fun w => (r, w)

/-- An observable action: it is appended to the transcript, and its answer may depend on the
transcript before it. -/
def perform {α : Type} (e : Event) (answer : List Event → α) : M α :=
  fun w => (Result.ok (answer w.trace), { w with trace := w.trace ++ [e] })

/-- The state bag `Get` method. -/
def stateGet (k : String) : M Value := fun w => (Result.ok (w.bag.Get k), w)

/-- The state bag `GetOk` method. -/
def stateGetOk (k : String) : M (Option Value) := fun w => (Result.ok (w.bag.GetOk k), w)

/-- The state bag `Put` method. -/
def statePut (k : String) (v : Value) : M Unit :=
  fun w => (Result.ok (), { w with bag := w.bag.Put k v })

/-- Reads the configuration through the `*Config` pointer. -/
def readConfig : M Config := fun w => (Result.ok w.config, w)

/-- Writes the configuration through the `*Config` pointer. -/
def writeConfig (c : Config) : M Unit := fun w => (Result.ok (), { w with config := c })

/-- The type assertion `v.(packersdk.Ui)`. -/
def Value.assertUi : Value → Result Ui
  | Value.ui u => Result.ok u
  | _ => Result.panic "interface conversion: not a packersdk.Ui"

/-- The type assertion `v.(*Config)`. -/
def Value.assertConfig : Value → Result Unit
  | Value.config => Result.ok ()
  | _ => Result.panic "interface conversion: not a *Config"

/-- The type assertion `v.(string)`. -/
def Value.assertString : Value → Result String
  | Value.str s => Result.ok s
  | _ => Result.panic "interface conversion: not a string"

/-- The type assertion `v.(error)`. -/
def Value.assertError : Value → Result GoError
  | Value.error e => Result.ok e
  | _ => Result.panic "interface conversion: not an error"

/-- The two-valued type assertion `c, _ := v.(packersdk.Communicator)`. -/
def Value.asCommunicator : Value → Option Communicator
  | Value.communicator c => some c
  | _ => none

/-- The `Say` method of the UI. -/
def Ui.Say (_ui : Ui) (msg : String) : M Unit := perform (Event.Say msg) (fun _ => ())

/-- The `Error` method of the UI. -/
def Ui.Error (_ui : Ui) (msg : String) : M Unit := perform (Event.Error msg) (fun _ => ())

/-- The `log.Printf` function. -/
def logPrintf (msg : String) : M Unit := perform (Event.Log msg) (fun _ => ())

/-! ## The world outside the repository -/

/-- The `ionoscloud.APIClient`. Every call gets the transcript before it, so that the provider may
answer the same request differently at different times. -/
structure APIClient where
  ImagesGet : List Event → Context → Images × Option APIResponse × Option GoError
  DatacentersPost : List Event → Context → Datacenter →
    Datacenter × Option APIResponse × Option GoError
  DatacentersDelete : List Event → Context → String → Option APIResponse × Option GoError
  LansPost : List Event → Context → String → LanPost →
    LanPost × Option APIResponse × Option GoError
  ServersPost : List Event → Context → String → Server →
    Server × Option APIResponse × Option GoError
  ServersFindById : List Event → Context → String → String →
    Server × Option APIResponse × Option GoError
  VolumesFindById : List Event → Context → String → String →
    Volume × Option APIResponse × Option GoError
  CreateSnapshotPost : List Event → Context → String → String →
    Snapshot × Option APIResponse × Option GoError
  WaitForRequest : List Event → Context → String → Option APIResponse × Option GoError
  WaitForState : List Event → Context → String → Bool × Option GoError
  WaitForDeletion : List Event → Context → String → Bool × Option GoError

/-- A parsed private key (`interface{}` from `ssh.ParseRawPrivateKey`). -/
structure RawKey where
  repr : String
deriving DecidableEq

/-- An `ssh.PublicKey`. -/
structure PublicKey where
  repr : String
deriving DecidableEq

/-- A `pem.Block`. -/
structure PemBlock where
  repr : String
deriving DecidableEq

/-- The library functions and collaborators the steps call. -/
structure Externals where
  /-- The `unicode.ToLower` rune mapping. -/
  unicodeToLower : Char → Char
  /-- The `ReadSSHPrivateKeyFile` method of `communicator.Config`. -/
  ReadSSHPrivateKeyFile : List Event → CommConfig → Except GoError String
  /-- The `ssh.ParseRawPrivateKey` function. -/
  ParseRawPrivateKey : String → Except GoError RawKey
  /-- The `ssh.NewSignerFromKey` function followed by `PublicKey()`. -/
  NewSignerFromKey : RawKey → Except GoError PublicKey
  /-- The `ssh.MarshalPrivateKey` function; its error is dropped by the caller. -/
  MarshalPrivateKey : RawKey → String → Option PemBlock
  /-- The `pem.EncodeToMemory` function. -/
  EncodeToMemory : PemBlock → Option String
  /-- The `ssh.MarshalAuthorizedKey` function. -/
  MarshalAuthorizedKey : PublicKey → String
  /-- The `Start` method of a communicator followed by `cmd.Wait()`: the start error and the exit
  status of the command. -/
  CommStart : Communicator → List Event → Context → RemoteCmd → Option GoError × Int

/-! ## `step_create_server.go` -/

structure stepCreateServer where
  client : APIClient

def newStepCreateServer (client : APIClient) : stepCreateServer := { client := client }

/-- The loop of `getImageId` over `items[i:]`. -/
def stepCreateServer.getImageId.loop (X : Externals) (imageName : String) (c : Config) :
    List Image → Result (Except GoError String)
  | [] => Result.ok (Except.ok "")
  | item :: rest => do
    let props ← deref item.Properties
    let name ← deref props.Name
    let imgName := if name ≠ "" then name else ""
    let diskType := if c.DiskType = "SSD" then "HDD" else c.DiskType
    let cond ←
      Result.and (Result.ok (imgName != "" &&
          stringsContains (stringsToLower X.unicodeToLower imgName)
            (stringsToLower X.unicodeToLower imageName)))
        (Result.and (do let t ← deref props.ImageType; pure (t == diskType))
          (Result.and (do let l ← deref props.Location; pure (l == c.Region))
            (deref props.Public)))
    if cond then do
      let id ← deref item.Id
      pure (Except.ok id)
    else
      stepCreateServer.getImageId.loop X imageName c rest

def stepCreateServer.getImageId (X : Externals) (s : stepCreateServer) (imageName : String)
    (c : Config) : M (Except GoError String) := do
  let (images, resp, err) ←
    perform (Event.ImagesGet Context.Background)
      (fun h => s.client.ImagesGet h Context.Background)
  match err with
  | some e => return Except.error e
  | none =>
    let resp ← liftR (deref resp)
    if resp.StatusCode > 299 then
      return Except.error (errorsNew "error occurred while getting images")
    let items ← liftR (deref images.Items)
    liftR (stepCreateServer.getImageId.loop X imageName c items)

/-- The `fmt.Errorf` constructor, applied to the formatted message. -/
def fmtErrorf (msg : String) : GoError := ⟨msg⟩

/-- The loop of `strconv.ParseUint` in base 10 with 64 bits: a rune that is not a digit is a
syntax error, a value above `2^64 - 1` a range error. -/
def parseUintLoop (s0 : String) : List Char → Nat → Except GoError Nat
  | [], n => Except.ok n
  | ch :: rest, n =>
    if '0' ≤ ch ∧ ch ≤ '9' then
      let n1 := n * 10 + (ch.toNat - 48)
      if n1 > 2 ^ 64 - 1 then
        Except.error ⟨"strconv.Atoi: parsing \"" ++ s0 ++ "\": value out of range"⟩
      else parseUintLoop s0 rest n1
    else Except.error ⟨"strconv.Atoi: parsing \"" ++ s0 ++ "\": invalid syntax"⟩

/-- The `strconv.Atoi` function where `int` has 64 bits: an optional sign and then one or more
decimal digits, denoting a value from `-2^63` to `2^63 - 1`. -/
def strconvAtoi (s : String) : Except GoError Int :=
  let signed : Bool × List Char :=
    match s.data with
    | '-' :: t => (true, t)
    | '+' :: t => (false, t)
    | t => (false, t)
  if signed.2 = [] then
    Except.error ⟨"strconv.Atoi: parsing \"" ++ s ++ "\": invalid syntax"⟩
  else
    match parseUintLoop s signed.2 0 with
    | Except.error e => Except.error e
    | Except.ok n =>
      if signed.1 then
        if n > 2 ^ 63 then
          Except.error ⟨"strconv.Atoi: parsing \"" ++ s ++ "\": value out of range"⟩
        else Except.ok (- (n : Int))
      else
        if n ≥ 2 ^ 63 then
          Except.error ⟨"strconv.Atoi: parsing \"" ++ s ++ "\": value out of range"⟩
        else Except.ok (n : Int)

/-- The conversion `int32(n)`: the low 32 bits, read as a signed number. -/
def toInt32 (n : Int) : Int := (n + 2 ^ 31) % 2 ^ 32 - 2 ^ 31

/-- Returns the location header value, which is the path used to poll the request for
readiness. -/
def getRequestPath (resp : Option APIResponse) : String :=
  match resp with
  | some r => r.HeaderGetLocation
  | none => ""

def stepCreateServer.createDatacenter (s : stepCreateServer) (ctx : Context)
    (name description location : String) :
    M (Datacenter × Option APIResponse × Option GoError) :=
  let dc : Datacenter :=
    { Id := none,
      Properties := some
        { Name := some name, Description := some description, Location := some location } }
  perform (Event.DatacentersPost ctx dc) (fun h => s.client.DatacentersPost h ctx dc)

/-- Polls until the request is done, or until the context timeout expires. -/
def stepCreateServer.waitForRequestToBeDone (s : stepCreateServer) (ctx : Context)
    (path : String) : M (Option GoError) := do
  let (_, err) ←
    perform (Event.WaitForRequest ctx path) (fun h => s.client.WaitForRequest h ctx path)
  match err with
  | some e =>
    return some (fmtErrorf ("error waiting for status for " ++ path ++ " : (" ++ e.msg ++ ")"))
  | none =>
    logPrintf ("resource created for path " ++ path)
    return none

/-- Creates the datacenter and waits until provisioning is successful. -/
def stepCreateServer.createDcAndWaitUntilDone (s : stepCreateServer) (ctx : Context)
    (name loc : String) : M (Except GoError Datacenter) := do
  let description := "this is the packer datacenter"
  let (dc, apiResponse, err) ← s.createDatacenter ctx name description loc
  match err with
  | some e => return Except.error (fmtErrorf ("error creating data center (" ++ e.msg ++ ")"))
  | none =>
    let requestPath := getRequestPath apiResponse
    if requestPath = "" then
      return Except.error (fmtErrorf "error getting location from header for datacenter")
    let err ← s.waitForRequestToBeDone ctx requestPath
    match err with
    | some e =>
      return Except.error
        (fmtErrorf ("error while waiting for datacenter creation to finish (" ++ e.msg ++ ")"))
    | none => return Except.ok dc

def stepCreateServer.createServer (s : stepCreateServer) (ctx : Context) (datacenterId : String)
    (server : Server) : M (Server × Option APIResponse × Option GoError) :=
  perform (Event.ServersPost ctx datacenterId server)
    (fun h => s.client.ServersPost h ctx datacenterId server)

/-- Creates the server and waits until provisioning is successful. -/
def stepCreateServer.createServerAndWaitUntilDone (s : stepCreateServer) (ctx : Context)
    (dcId : String) (server : Server) : M (Except GoError Server) := do
  let (server, apiResponse, err) ← s.createServer ctx dcId server
  match err with
  | some e => return Except.error (fmtErrorf ("error creating server (" ++ e.msg ++ ")"))
  | none =>
    let requestPath := getRequestPath apiResponse
    if requestPath = "" then
      return Except.error (fmtErrorf "error getting server path")
    let err ← s.waitForRequestToBeDone ctx requestPath
    match err with
    | some e =>
      return Except.error
        (fmtErrorf ("error while waiting for server creation to finish (" ++ e.msg ++ ")"))
    | none => return Except.ok server

/-- Creates the LAN and waits until provisioning is successful. -/
def stepCreateServer.createLanAndWaitUntilDone (s : stepCreateServer) (ctx : Context)
    (dcId : String) (lanPost : LanPost) : M (Except GoError LanPost) := do
  let (lan, apiResponse, err) ←
    perform (Event.LansPost ctx dcId lanPost) (fun h => s.client.LansPost h ctx dcId lanPost)
  match err with
  | some e => return Except.error (fmtErrorf ("error creating LAN (" ++ e.msg ++ ")"))
  | none =>
    let requestPath := getRequestPath apiResponse
    if requestPath = "" then
      return Except.error (fmtErrorf "error getting LAN path")
    let err ← s.waitForRequestToBeDone ctx requestPath
    match err with
    | some e =>
      return Except.error
        (fmtErrorf ("error while waiting for LAN creation to finish (" ++ e.msg ++ ")"))
    | none => return Except.ok lan

/-- Finds a server by id. -/
def stepCreateServer.findServerById (s : stepCreateServer) (ctx : Context)
    (dcId serverID : String) : M (Except GoError Server) := do
  let (server, _, err) ←
    perform (Event.ServersFindById ctx dcId serverID)
      (fun h => s.client.ServersFindById h ctx dcId serverID)
  match err with
  | some e => return Except.error (fmtErrorf ("error attaching NIC (" ++ e.msg ++ ")"))
  | none => return Except.ok server

/-- The server request of `Run`. The NIC in the request holds the same `*NicProperties` pointer
as the local `nic`, so the request is read with the NIC properties as they are when it is sent. -/
def stepCreateServer.serverReq (c : Config) (props : VolumeProperties)
    (nicProperties : NicProperties) : Server :=
  { Id := none,
    Properties := some
      { Name := some c.SnapshotName, Ram := some c.Ram, Cores := some c.Cores,
        BootVolume := none },
    Entities := some
      { Volumes := some { Items := some [{ Id := none, Properties := some props }] },
        Nics := some { Items := some [{ Id := none, Properties := some nicProperties }] } } }

/-- The second half of `Run`, from the LAN request to the end: what `Run` does once the
identifier `dcId` of the new datacenter is stored in the state bag. -/
def stepCreateServer.Run.afterDatacenter (s : stepCreateServer) (ctx : Context) (ui : Ui)
    (c : Config) (props : VolumeProperties) (nicProperties : NicProperties) (dcId : String) :
    M StepAction := do
  let lanPost : LanPost :=
    { Id := none, Properties := some { Public := some true, Name := some c.SnapshotName } }
  ui.Say "Creating LAN..."
  -- create lan
  match ← s.createLanAndWaitUntilDone ctx dcId lanPost with
  | Except.error err =>
    ui.Error ("Error occurred while creating a server " ++ err.msg)
    return StepAction.ActionHalt
  | Except.ok lan =>
    -- string to int
    match strconvAtoi (← liftR (deref lan.Id)) with
    | Except.error err =>
      ui.Error ("Error occurred while creating a server " ++ err.msg)
      return StepAction.ActionHalt
    | Except.ok lanId =>
      let nicProperties : NicProperties := { nicProperties with Lan := some (toInt32 lanId) }
      ui.Say "Creating Server..."
      -- create server
      match ← s.createServerAndWaitUntilDone ctx dcId
          (stepCreateServer.serverReq c props nicProperties) with
      | Except.error err =>
        ui.Error ("Error occurred while creating a server " ++ err.msg)
        return StepAction.ActionHalt
      | Except.ok server =>
        let volumes ← liftR (do
          let entities ← deref server.Entities
          let attached ← deref entities.Volumes
          deref attached.Items)
        let volumeId ← liftR (do
          let volume ← index volumes 0
          deref volume.Id)
        statePut "volume_id" (Value.str volumeId)
        match ← s.findServerById ctx dcId (← liftR (deref server.Id)) with
        | Except.error err =>
          ui.Error ("Error occurred while finding the server " ++ err.msg)
          return StepAction.ActionHalt
        | Except.ok server =>
          statePut "instance_id" (Value.str (← liftR (deref server.Id)))
          let nics ← liftR (do
            let entities ← deref server.Entities
            let nics ← deref entities.Nics
            deref nics.Items)
          let ips ← liftR (do
            let nic ← index nics 0
            let nicProps ← deref nic.Properties
            deref nicProps.Ips)
          statePut "server_ip" (Value.str (← liftR (index ips 0)))
          ui.Say "Server Created..."
          return StepAction.ActionContinue

/-- The properties of the boot volume that `Run` assembles for the image `img`. -/
def stepCreateServer.Run.props (c : Config) (img : String) : VolumeProperties :=
  let props : VolumeProperties :=
    { Type_ := some c.DiskType, Size := some c.DiskSize, Name := some c.SnapshotName,
      Image := some img, ImagePassword := none, SshKeys := none, LicenceType := none }
  let props : VolumeProperties :=
    if c.Comm.SSHPassword ≠ "" then { props with ImagePassword := some c.Comm.SSHPassword }
    else props
  match c.Comm.SSHPublicKey with
  | some key => { props with SshKeys := some [key] }
  | none => props

/-- The properties of the network interface that `Run` assembles before the LAN exists. -/
def stepCreateServer.Run.nicProperties (c : Config) : NicProperties :=
  { Name := some c.SnapshotName, Dhcp := some true, Ips := none, Lan := none }

/-- The `Run` method of the server step. The volume and NIC properties it assembles are
`Run.props` and `Run.nicProperties`, and its text is split in two where the datacenter identifier
is stored: the rest is `Run.afterDatacenter`. -/
def stepCreateServer.Run (X : Externals) (s : stepCreateServer) (ctx : Context) :
    M StepAction := do
  let ui ← liftR (Value.assertUi (← stateGet "ui"))
  liftR (Value.assertConfig (← stateGet "config"))
  let c ← readConfig
  ui.Say "Creating Virtual Data Center..."
  match ← s.getImageId X c.Image c with
  | Except.error err =>
    ui.Error ("Error occurred while getting image " ++ err.msg)
    return StepAction.ActionHalt
  | Except.ok img =>
    let props := stepCreateServer.Run.props c img
    let nicProperties := stepCreateServer.Run.nicProperties c
    -- create datacenter
    match ← s.createDcAndWaitUntilDone ctx c.SnapshotName c.Region with
    | Except.error err =>
      ui.Error ("Error occurred while creating a datacenter " ++ err.msg)
      return StepAction.ActionHalt
    | Except.ok dc =>
      let dcId ← liftR (deref dc.Id)
      statePut "datacenter_id" (Value.str dcId)
      stepCreateServer.Run.afterDatacenter s ctx ui c props nicProperties dcId

/-- Submits the delete request and waits for the deletion. `WaitForDeletion` polls the
datacenter with `processRequestDatacenterDelete` until it is gone. -/
def stepCreateServer.deleteDatacenter (_s : stepCreateServer) (apiClient : APIClient)
    (datacenterID : String) : M (Bool × Option GoError) := do
  let (_, err) ←
    perform (Event.DatacentersDelete Context.Background datacenterID)
      (fun h => apiClient.DatacentersDelete h Context.Background datacenterID)
  match err with
  | some e =>
    return (false, some (fmtErrorf
      ("error occurred when executing the api get resource operation: " ++ e.msg)))
  | none =>
    perform (Event.WaitForDeletion Context.Background datacenterID)
      (fun h => apiClient.WaitForDeletion h Context.Background datacenterID)

def stepCreateServer.Cleanup (s : stepCreateServer) : M Unit := do
  let ui ← liftR (Value.assertUi (← stateGet "ui"))
  ui.Say "Removing Virtual Data Center..."
  match ← stateGetOk "datacenter_id" with
  | some dcId =>
    let (deleted, err) ← s.deleteDatacenter s.client (← liftR (Value.assertString dcId))
    match err with
    | some e =>
      ui.Error ("Error deleting Virtual Data Center. Please destroy it manually: " ++ e.msg)
    | none => pure ()
    if deleted then
      ui.Say "Virtual Data Center deleted..."
  | none => pure ()

/-! ## `step_take_snapshot.go` -/

structure stepTakeSnapshot where
  client : APIClient

def newStepTakeSnapshot (client : APIClient) : stepTakeSnapshot := { client := client }

/-- Waits for the snapshot to become available. `WaitForState` polls the snapshot with
`processRequestSnapshot`. -/
def stepTakeSnapshot.waitTillSnapshotAvailable (s : stepTakeSnapshot) (id : String) (ui : Ui) :
    M (Option GoError) := do
  let (available, err) ←
    perform (Event.WaitForState Context.Background id)
      (fun h => s.client.WaitForState h Context.Background id)
  match err with
  | some e => return some e
  | none =>
    if available then
      ui.Say "snapshot available"
      return none
    else
      return some (errorsNew "snapshot not available")

def stepTakeSnapshot.syncFs (X : Externals) (_s : stepTakeSnapshot) (ctx : Context)
    (comm : Communicator) : M (Option GoError) := do
  let cmd : RemoteCmd := { Command := "sync" }
  let (err, exitStatus) ←
    perform (Event.CommStart comm ctx cmd) (fun h => X.CommStart comm h ctx cmd)
  match err with
  | some e => return some e
  | none =>
    if exitStatus ≠ 0 then
      return some (fmtErrorf ("sync command exited with code " ++ toString exitStatus))
    return none

def stepTakeSnapshot.getOs (s : stepTakeSnapshot) (ctx : Context) (dcId serverId : String) :
    M (Except GoError String) := do
  let (server, resp, err) ←
    perform (Event.ServersFindById ctx dcId serverId)
      (fun h => s.client.ServersFindById h ctx dcId serverId)
  match err with
  | some e => return Except.error e
  | none =>
    let resp ← liftR (deref resp)
    if resp.StatusCode ≠ 200 then
      return Except.error (errorsNew resp.Message)
    let properties ← liftR (deref server.Properties)
    match properties.BootVolume with
    | none => return Except.error (errorsNew "no boot volume found on server")
    | some bootVolume =>
      let volumeId ← liftR (deref bootVolume.Id)
      let (volume, resp, err) ←
        perform (Event.VolumesFindById ctx dcId volumeId)
          (fun h => s.client.VolumesFindById h ctx dcId volumeId)
      match err with
      | some e => return Except.error e
      | none =>
        let resp ← liftR (deref resp)
        if resp.StatusCode ≠ 200 then
          return Except.error (errorsNew resp.Message)
        let volumeProperties ← liftR (deref volume.Properties)
        let licenceType ← liftR (deref volumeProperties.LicenceType)
        return Except.ok licenceType

/-- Polls until the request is done, or until the context timeout expires. -/
def stepTakeSnapshot.waitForRequestToBeDone (s : stepTakeSnapshot) (ctx : Context)
    (path : String) : M (Option GoError) := do
  let (_, err) ←
    perform (Event.WaitForRequest ctx path) (fun h => s.client.WaitForRequest h ctx path)
  match err with
  | some e =>
    return some (fmtErrorf ("error waiting for status for " ++ path ++ " : (" ++ e.msg ++ ")"))
  | none =>
    logPrintf ("resource created for path " ++ path)
    return none

def stepTakeSnapshot.createSnapshot (s : stepTakeSnapshot) (ctx : Context)
    (dcId volumeId : String) : M (Except GoError Snapshot) := do
  let (snapshot, apiResponse, err) ←
    perform (Event.CreateSnapshotPost ctx dcId volumeId)
      (fun h => s.client.CreateSnapshotPost h ctx dcId volumeId)
  match err with
  | some e => return Except.error (fmtErrorf ("error creating snapshot (" ++ e.msg ++ ")"))
  | none =>
    let requestPath := getRequestPath apiResponse
    if requestPath = "" then
      return Except.error (fmtErrorf "error getting location from header for datacenter")
    let err ← s.waitForRequestToBeDone ctx requestPath
    match err with
    | some e =>
      return Except.error
        (fmtErrorf ("error while waiting for datacenter creation to finish (" ++ e.msg ++ ")"))
    | none => return Except.ok snapshot

/-- The second half of `Run`, from the create-snapshot request to the end: what `Run` does
once the file system of the guest is synced, or needs no sync. -/
def stepTakeSnapshot.Run.afterSync (s : stepTakeSnapshot) (ctx : Context) (ui : Ui) (c : Config)
    (dcId volumeId : String) : M StepAction := do
  ui.Say ("Creating a snapshot for " ++ dcId ++ "/volumes/" ++ volumeId)
  match ← s.createSnapshot ctx dcId volumeId with
  | Except.error err =>
    ui.Error ("An error occurred while creating a snapshot: " ++ err.msg)
    return StepAction.ActionHalt
  | Except.ok snapshot =>
    statePut "snapshotname" (Value.str c.SnapshotName)
    ui.Say "Waiting until snapshot available snapshot"
    match ← s.waitTillSnapshotAvailable (← liftR (deref snapshot.Id)) ui with
    | some err =>
      ui.Error ("An error occurred while waiting for the snapshot to be created: " ++ err.msg)
      return StepAction.ActionHalt
    | none => return StepAction.ActionContinue

/-- The `Run` method of the snapshot step. Its text is split in two after the `switch` on the
guest OS: the rest is `Run.afterSync`. -/
def stepTakeSnapshot.Run (X : Externals) (s : stepTakeSnapshot) (ctx : Context) :
    M StepAction := do
  let ui ← liftR (Value.assertUi (← stateGet "ui"))
  liftR (Value.assertConfig (← stateGet "config"))
  let c ← readConfig
  ui.Say "Creating IONOS snapshot..."
  let dcId ← liftR (Value.assertString (← stateGet "datacenter_id"))
  let volumeId ← liftR (Value.assertString (← stateGet "volume_id"))
  let serverId ← liftR (Value.assertString (← stateGet "instance_id"))
  match Value.asCommunicator (← stateGet "communicator") with
  | none =>
    ui.Error "no communicator found"
    return StepAction.ActionHalt
  | some comm =>
    -- sync fs changes from the provisioning step
    match ← s.getOs ctx dcId serverId with
    | Except.error err =>
      ui.Error ("an error occurred while getting the server os: " ++ err.msg)
      return StepAction.ActionHalt
    | Except.ok os =>
      ui.Say ("Server OS is " ++ os)
      if stringsToLower X.unicodeToLower os = "linux" then
        ui.Say "syncing file system changes"
        match ← s.syncFs X ctx comm with
        | some err =>
          ui.Error ("error syncing fs changes: " ++ err.msg)
          return StepAction.ActionHalt
        | none => pure ()
      stepTakeSnapshot.Run.afterSync s ctx ui c dcId volumeId

def stepTakeSnapshot.Cleanup (_s : stepTakeSnapshot) : M Unit := pure ()

/-! ## `step_create_ssh_key.go` -/

structure StepCreateSSHKey where
  Debug : Bool
  DebugKeyPath : String

/-- Attempts to parse the given private key and returns the PEM block and public key. The error
of `ssh.MarshalPrivateKey` is dropped, so the block may be nil. -/
def parsePrivateKey (X : Externals) (pem : String) :
    Except GoError (Option PemBlock × PublicKey) :=
  match X.ParseRawPrivateKey pem with
  | Except.error err => Except.error ⟨"failed to parse private key" ++ ": " ++ err.msg⟩
  | Except.ok key =>
    match X.NewSignerFromKey key with
    | Except.error err => Except.error ⟨"failed to create signer" ++ ": " ++ err.msg⟩
    | Except.ok pub =>
      let block := X.MarshalPrivateKey key ""
      Except.ok (block, pub)

def StepCreateSSHKey.Run (X : Externals) (_s : StepCreateSSHKey) (_ctx : Context) :
    M StepAction := do
  let ui ← liftR (Value.assertUi (← stateGet "ui"))
  liftR (Value.assertConfig (← stateGet "config"))
  ui.Say "Creating ssh key..."
  let c ← readConfig
  if c.Comm.SSHPrivateKeyFile ≠ "" then
    match ← perform (Event.ReadSSHPrivateKeyFile c.Comm.SSHPrivateKeyFile)
        (fun h => X.ReadSSHPrivateKeyFile h c.Comm) with
    | Except.error err =>
      statePut "error" (Value.error err)
      ui.Error err.msg
      return StepAction.ActionHalt
    | Except.ok pemBytes =>
      match parsePrivateKey X pemBytes with
      | Except.error err =>
        statePut "error" (Value.str err.msg)
        ui.Error err.msg
        return StepAction.ActionHalt
      | Except.ok (priv, pub) =>
        let block ← liftR (deref priv)
        writeConfig { c with Comm := { c.Comm with SSHPrivateKey := X.EncodeToMemory block } }
        let c ← readConfig
        writeConfig
          { c with Comm := { c.Comm with SSHPublicKey := some (X.MarshalAuthorizedKey pub) } }
  return StepAction.ActionContinue

def StepCreateSSHKey.Cleanup (_s : StepCreateSSHKey) : M Unit := pure ()

/-! ## `builder.go` -/

/-- A `multistep.Step`. -/
structure Step where
  Run : Context → M StepAction
  Cleanup : M Unit

/-- The packer SDK pieces that `Builder.Run` assembles. -/
structure PackerSdk where
  /-- The `ionoscloud.NewAPIClient` constructor, from user name and password. -/
  NewAPIClient : String → String → APIClient
  /-- The `communicator.StepConnect` step. -/
  StepConnect : Step
  /-- The `commonsteps.StepProvision` step. -/
  StepProvision : Step
  /-- The `commonsteps.StepCleanupTempKeys` step. -/
  StepCleanupTempKeys : Step
  /-- The runner made by `commonsteps.NewRunner` from the steps, the debug flag and the UI; its
  `Run` method. -/
  NewRunner : List Step → Bool → Ui → Context → M Unit

structure Artifact where
  snapshotData : String
  StateData : List (String × Value)
deriving DecidableEq

structure Builder where
  config : Config

def Builder.newAPIClient (K : PackerSdk) (_b : Builder) : M (APIClient × Option GoError) := do
  liftR (Value.assertConfig (← stateGet "config"))
  let c ← readConfig
  return (K.NewAPIClient c.IonosUsername c.IonosPassword, none)

/-- The steps of the build, in order. -/
def Builder.steps (X : Externals) (K : PackerSdk) (b : Builder) (client : APIClient) :
    List Step :=
  [ let s : StepCreateSSHKey :=
      { Debug := b.config.PackerDebug, DebugKeyPath := "ionos_" ++ b.config.SnapshotName }
    { Run := s.Run X, Cleanup := s.Cleanup },
    { Run := (newStepCreateServer client).Run X, Cleanup := (newStepCreateServer client).Cleanup },
    K.StepConnect,
    K.StepProvision,
    K.StepCleanupTempKeys,
    { Run := (newStepTakeSnapshot client).Run X, Cleanup := (newStepTakeSnapshot client).Cleanup } ]

/-- The body of `Builder.Run`, on the fresh state bag. -/
def Builder.Run.body (X : Externals) (K : PackerSdk) (b : Builder) (ctx : Context) (ui : Ui)
    (hook : Hook) : M (Option Artifact × Option GoError) := do
  statePut "config" Value.config
  statePut "hook" (Value.hook hook)
  statePut "ui" (Value.ui ui)
  let (client, err) ← b.newAPIClient K
  match err with
  | some e => return (none, some e)
  | none =>
    let steps := b.steps X K client
    liftR (Value.assertConfig (← stateGet "config"))
    K.NewRunner steps b.config.PackerDebug ui ctx
    match ← stateGetOk "error" with
    | some rawErr =>
      let e ← liftR (Value.assertError rawErr)
      return (none, some e)
    | none =>
      let config ← readConfig
      let artifact : Artifact :=
        { snapshotData := config.SnapshotName,
          StateData := [("generated_data", ← stateGet "generated_data")] }
      return (some artifact, none)

/-- The `Run` method of the builder: a new state bag, the configuration of the builder behind the
`config` pointer, and an empty transcript. -/
def Builder.Run (X : Externals) (K : PackerSdk) (b : Builder) (ctx : Context) (ui : Ui)
    (hook : Hook) : Result (Option Artifact × Option GoError) × World :=
  (Builder.Run.body X K b ctx ui hook).run { bag := [], config := b.config, trace := [] }

/-- The `multistep.BasicRunner` of the packer SDK under a context that is not cancelled: the
steps run in order up to the first halt, which is recorded under `halted`; every step that ran is
then cleaned up, the last one first. -/
def BasicRunner.Run : List Step → Context → M Unit
  | [], _ => pure ()
  | step :: rest, ctx => do
    let action ← step.Run ctx
    if action = StepAction.ActionHalt then
      statePut "halted" (Value.bool true)
    else
      BasicRunner.Run rest ctx
    step.Cleanup

/-! ## Notions used to state the properties -/

/-- The events that a computation adds to the transcript of the world it starts from. -/
def M.events {α : Type} (m : M α) (w : World) : List Event :=
  (m.run w).2.trace.drop w.trace.length

/-- Whether an event is a delete-datacenter call. -/
def Event.isDatacentersDelete : Event → Bool
  | Event.DatacentersDelete _ _ => true
  | _ => false

/-- Whether an event starts a command on the communicator. -/
def Event.isCommStart : Event → Bool
  | Event.CommStart _ _ _ => true
  | _ => false

/-- Whether an event is a create-snapshot request. -/
def Event.isCreateSnapshotPost : Event → Bool
  | Event.CreateSnapshotPost _ _ _ => true
  | _ => false

/-- The disk type that the image filter compares image types with. -/
def filterDiskType (c : Config) : String := if c.DiskType = "SSD" then "HDD" else c.DiskType

/-- An image as the selection rule describes it: all the fields the rule speaks about exist. -/
def Image.Populated (img : Image) : Prop :=
  img.Id ≠ none ∧ ∃ props, img.Properties = some props ∧ props.Name ≠ none ∧
    props.ImageType ≠ none ∧ props.Location ≠ none ∧ props.Public ≠ none

/-- The selection rule: the name is non-empty and contains the wanted name when both are
lower-cased, the image type is the filter disk type, the location is the configured region and the
image is public. -/
def Image.Matches (X : Externals) (imageName : String) (c : Config) (img : Image) : Prop :=
  ∃ props name, img.Properties = some props ∧ props.Name = some name ∧ name ≠ "" ∧
    stringsContains (stringsToLower X.unicodeToLower name)
      (stringsToLower X.unicodeToLower imageName) = true ∧
    props.ImageType = some (filterDiskType c) ∧ props.Location = some c.Region ∧
    props.Public = some true

/-- The two-phase protocol of a create-and-wait operation `op` started in the world `w`, whose
submit call is the event `submit` and is answered with `answer`. When the submit call succeeds but
the answer carries no tracking handle, `op` returns an error after the one submit call and nothing
else. When `op` returns a resource, it is the resource of the answer, the handle of the answer is
not empty, and after the one submit call the poller was called once, with that handle, and
succeeded. -/
def TwoPhase {α : Type}
    (poll : List Event → Context → String → Option APIResponse × Option GoError) (ctx : Context)
    (op : M (Except GoError α)) (w : World) (submit : Event)
    (answer : α × Option APIResponse × Option GoError) : Prop :=
  (answer.2.2 = none → getRequestPath answer.2.1 = "" →
    ∃ e, op.run w = (Result.ok (Except.error e), { w with trace := w.trace ++ [submit] })) ∧
  (∀ a w1, op.run w = (Result.ok (Except.ok a), w1) →
    a = answer.1 ∧ answer.2.2 = none ∧ getRequestPath answer.2.1 ≠ "" ∧
    (poll (w.trace ++ [submit]) ctx (getRequestPath answer.2.1)).2 = none ∧
    w1 = { w with trace := w.trace ++
      [submit, Event.WaitForRequest ctx (getRequestPath answer.2.1),
        Event.Log ("resource created for path " ++ getRequestPath answer.2.1)] })

/-- A property of worlds that a computation never destroys, however it ends. -/
structure M.Keeps {α : Type} (I : World → Prop) (m : M α) : Prop where
  keep : ∀ w, I w → I (m.run w).2

/-! ## Concrete collaborators for the scenarios -/

/-- A provider that answers every call with an empty payload, no response and no error. -/
def quietClient : APIClient :=
  { ImagesGet := fun _ _ => ({ Items := none }, none, none),
    DatacentersPost := fun _ _ dc => (dc, none, none),
    DatacentersDelete := fun _ _ _ => (none, none),
    LansPost := fun _ _ _ lan => (lan, none, none),
    ServersPost := fun _ _ _ server => (server, none, none),
    ServersFindById := fun _ _ _ _ =>
      ({ Id := none, Properties := none, Entities := none }, none, none),
    VolumesFindById := fun _ _ _ _ => ({ Id := none, Properties := none }, none, none),
    CreateSnapshotPost := fun _ _ _ _ => ({ Id := none }, none, none),
    WaitForRequest := fun _ _ _ => (none, none),
    WaitForState := fun _ _ _ => (true, none),
    WaitForDeletion := fun _ _ _ => (true, none) }

/-- Library functions on ASCII text, with a key parser that accepts every input. -/
def asciiExternals : Externals :=
  { unicodeToLower := Char.toLower,
    ReadSSHPrivateKeyFile := fun _ comm => Except.ok comm.SSHPrivateKeyFile,
    ParseRawPrivateKey := fun pem => Except.ok { repr := pem },
    NewSignerFromKey := fun key => Except.ok { repr := key.repr },
    MarshalPrivateKey := fun key _ => some { repr := key.repr },
    EncodeToMemory := fun block => some block.repr,
    MarshalAuthorizedKey := fun pub => pub.repr,
    CommStart := fun _ _ _ _ => (none, 0) }

/-- An accepted request with a location header. -/
def acceptedResponse (location : String) : APIResponse :=
  { StatusCode := 202, Message := "", Header := [("Location", [location])] }

/-- A successful read. -/
def okResponse : APIResponse := { StatusCode := 200, Message := "", Header := [] }

/-- The configuration of scenario A: image `ubuntu-22.04`, disk type `HDD`, region `us/las`. -/
def scenarioConfig : Config :=
  { PackerDebug := false,
    Comm :=
      { SSHPassword := "test1234", SSHPrivateKeyFile := "", SSHPrivateKey := none,
        SSHPublicKey := none },
    IonosUsername := "username", IonosPassword := "password",
    IonosApiUrl := "https://api.ionos.com", Region := "us/las", Image := "ubuntu-22.04",
    SnapshotName := "packer", DiskSize := { bits := 1112014848 }, DiskType := "HDD", Cores := 4,
    Ram := 2048, Retries := 0 }

/-- The image of scenario A. -/
def ubuntuImage : Image :=
  { Id := some "image-1",
    Properties := some
      { Name := some "Ubuntu-22.04-server", ImageType := some "HDD", Location := some "us/las",
        Public := some true } }

/-- The provider of scenario A: it lists the one image. -/
def scenarioAClient : APIClient :=
  { quietClient with
    ImagesGet := fun _ _ => ({ Items := some [ubuntuImage] }, some okResponse, none) }

/-- A provider for which everything succeeds: one image, datacenter `dc-1`, LAN `1`, server
`server-1` with boot volume `volume-1` of licence type `LINUX`, snapshot `snapshot-1`. -/
def happyClient : APIClient :=
  { ImagesGet := fun _ _ => ({ Items := some [ubuntuImage] }, some okResponse, none),
    DatacentersPost := fun _ _ dc =>
      ({ dc with Id := some "dc-1" }, some (acceptedResponse "/requests/dc"), none),
    DatacentersDelete := fun _ _ _ => (some (acceptedResponse "/requests/delete"), none),
    LansPost := fun _ _ _ lan =>
      ({ lan with Id := some "1" }, some (acceptedResponse "/requests/lan"), none),
    ServersPost := fun _ _ _ server =>
      ({ Id := some "server-1", Properties := server.Properties,
         Entities := some
           { Volumes := some { Items := some [{ Id := some "volume-1", Properties := none }] },
             Nics := none } },
        some (acceptedResponse "/requests/server"), none),
    ServersFindById := fun _ _ _ _ =>
      ({ Id := some "server-1",
         Properties := some
           { Name := some "packer", Cores := some 4, Ram := some 2048,
             BootVolume := some { Id := some "volume-1" } },
         Entities := some
           { Volumes := none,
             Nics := some
               { Items := some
                   [{ Id := some "nic-1",
                      Properties := some
                        { Name := some "packer", Ips := some ["203.0.113.7"], Dhcp := some true,
                          Lan := some 1 } }] } } },
        some okResponse, none),
    VolumesFindById := fun _ _ _ _ =>
      ({ Id := some "volume-1",
         Properties := some
           { Name := some "packer", Type_ := some "HDD", Size := none, Image := none,
             ImagePassword := none, SshKeys := none, LicenceType := some "LINUX" } },
        some okResponse, none),
    CreateSnapshotPost := fun _ _ _ _ =>
      ({ Id := some "snapshot-1" }, some (acceptedResponse "/requests/snapshot"), none),
    WaitForRequest := fun _ _ _ => (some okResponse, none),
    WaitForState := fun _ _ _ => (true, none),
    WaitForDeletion := fun _ _ _ => (true, none) }

/-- The provider of scenario B: like `happyClient`, but the poll of the server creation ends in
the failed state. -/
def scenarioBClient : APIClient :=
  { happyClient with
    WaitForRequest := fun _ _ path =>
      if path = "/requests/server" then (none, some { msg := "Request failed: FAILED" })
      else (some okResponse, none) }

/-- A provider like `happyClient` whose boot volume has licence type `WINDOWS`. -/
def windowsClient : APIClient :=
  { happyClient with
    VolumesFindById := fun _ _ _ _ =>
      ({ Id := some "volume-1",
         Properties := some
           { Name := some "packer", Type_ := some "HDD", Size := none, Image := none,
             ImagePassword := none, SshKeys := none, LicenceType := some "WINDOWS" } },
        some okResponse, none) }

/-- A provider like `happyClient` that refuses to delete datacenters. -/
def undeletableClient : APIClient :=
  { happyClient with
    DatacentersDelete := fun _ _ _ => (none, some { msg := "403 Forbidden" }) }

/-- A provider whose image listing fails in transport. -/
def unreachableClient : APIClient :=
  { happyClient with
    ImagesGet := fun _ _ => ({ Items := none }, none, some { msg := "connection refused" }) }

/-- Library functions like `asciiExternals`, with a key parser that rejects every input. -/
def rejectingExternals : Externals :=
  { asciiExternals with
    ParseRawPrivateKey := fun _ => Except.error { msg := "ssh: no key found" } }

/-- The scenario configuration with a private key file instead of a password. -/
def keyFileConfig : Config :=
  { scenarioConfig with
    Comm :=
      { SSHPassword := "", SSHPrivateKeyFile := "id_rsa", SSHPrivateKey := none,
        SSHPublicKey := none } }

/-- Collaborator steps that succeed at once: the connect step stores a communicator. -/
def simpleSdk (client : APIClient) : PackerSdk :=
  { NewAPIClient := fun _ _ => client,
    StepConnect :=
      { Run := fun _ => do
          statePut "communicator" (Value.communicator { id := 0 })
          return StepAction.ActionContinue,
        Cleanup := pure () },
    StepProvision := { Run := fun _ => pure StepAction.ActionContinue, Cleanup := pure () },
    StepCleanupTempKeys :=
      { Run := fun _ => pure StepAction.ActionContinue, Cleanup := pure () },
    NewRunner := fun steps _ _ ctx => BasicRunner.Run steps ctx }

/-- Library functions like `asciiExternals`, with a key file that cannot be read. -/
def unreadableExternals : Externals :=
  { asciiExternals with
    ReadSSHPrivateKeyFile := fun _ _ => Except.error { msg := "open id_rsa: no such file" } }

/-- The caller context of the scenarios. -/
def buildContext : Context := Context.Caller "build" false

/-- The state bag as `Builder.Run` hands it to the runner. -/
def initialBag : StateBag :=
  [("ui", Value.ui { id := 0 }), ("hook", Value.hook { id := 0 }), ("config", Value.config)]

/-- The world at the start of a build with the scenario configuration. -/
def scenarioWorld : World := { bag := initialBag, config := scenarioConfig, trace := [] }

/-- The scenario configuration with disk type `SSD`. -/
def ssdConfig : Config := { scenarioConfig with DiskType := "SSD" }

/-- An image like the one of scenario A, but of type `SSD`. -/
def ubuntuSsdImage : Image :=
  { Id := some "image-ssd",
    Properties := some
      { Name := some "Ubuntu-22.04-server", ImageType := some "SSD", Location := some "us/las",
        Public := some true } }

/-- A provider that lists the `SSD` image before the `HDD` image. -/
def ssdScenarioClient : APIClient :=
  { quietClient with
    ImagesGet := fun _ _ =>
      ({ Items := some [ubuntuSsdImage, ubuntuImage] }, some okResponse, none) }

/-- The state bag after the server step recorded the datacenter `dc-1`. -/
def recordedBag : StateBag := StateBag.Put initialBag "datacenter_id" (Value.str "dc-1")

/-- A world in which the datacenter `dc-1` is recorded. -/
def recordedWorld : World := { bag := recordedBag, config := scenarioConfig, trace := [] }

/-- The state bag as the snapshot step finds it after a successful provisioning. -/
def provisionedBag : StateBag :=
  [("communicator", Value.communicator { id := 0 }), ("server_ip", Value.str "203.0.113.7"),
    ("instance_id", Value.str "server-1"), ("volume_id", Value.str "volume-1"),
    ("datacenter_id", Value.str "dc-1"), ("ui", Value.ui { id := 0 }),
    ("hook", Value.hook { id := 0 }), ("config", Value.config)]

/-- A world in which the server is provisioned. -/
def provisionedWorld : World := { bag := provisionedBag, config := scenarioConfig, trace := [] }

/-- The world in which the runner of scenario D ends. -/
def scenarioDEnd : World :=
  (((simpleSdk happyClient).NewRunner
    (Builder.steps asciiExternals (simpleSdk happyClient) { config := scenarioConfig }
      ((simpleSdk happyClient).NewAPIClient scenarioConfig.IonosUsername
        scenarioConfig.IonosPassword))
    scenarioConfig.PackerDebug { id := 0 } buildContext).run
    { bag := [("ui", Value.ui { id := 0 }), ("hook", Value.hook { id := 0 }),
        ("config", Value.config)],
      config := scenarioConfig, trace := [] }).2

/-- The world in which the runner ends when the key file cannot be read. -/
def unreadableEnd : World :=
  (((simpleSdk happyClient).NewRunner
    (Builder.steps unreadableExternals (simpleSdk happyClient) { config := keyFileConfig }
      ((simpleSdk happyClient).NewAPIClient keyFileConfig.IonosUsername
        keyFileConfig.IonosPassword))
    keyFileConfig.PackerDebug { id := 0 } buildContext).run
    { bag := [("ui", Value.ui { id := 0 }), ("hook", Value.hook { id := 0 }),
        ("config", Value.config)],
      config := keyFileConfig, trace := [] }).2

/-! ## Further notions and collaborators -/

/-- The state bag of a provisioned server on which no communicator was stored. -/
def unconnectedBag : StateBag :=
  [("server_ip", Value.str "203.0.113.7"), ("instance_id", Value.str "server-1"),
    ("volume_id", Value.str "volume-1"), ("datacenter_id", Value.str "dc-1"),
    ("ui", Value.ui { id := 0 }), ("hook", Value.hook { id := 0 }), ("config", Value.config)]

/-- A world in which the server is provisioned and no communicator is present. -/
def unconnectedWorld : World := { bag := unconnectedBag, config := scenarioConfig, trace := [] }

/-- A provider like `happyClient` whose readiness poll fails on a context that is done. -/
def cancelAwareClient : APIClient :=
  { happyClient with
    WaitForState := fun _ ctx _ =>
      match ctx with
      | Context.Caller _ true => (false, some { msg := "context canceled" })
      | _ => (true, none) }

/-- A caller context that is already cancelled. -/
def cancelledContext : Context := Context.Caller "build" true

/-- Whether a rune is a decimal digit. -/
def isDecimalDigit (c : Char) : Bool := decide ('0' ≤ c ∧ c ≤ '9')

/-- The number that a string of decimal digits denotes, the most significant digit first,
continuing from `n`. -/
def digitsValue (cs : List Char) (n : Nat) : Nat :=
  cs.foldl (fun acc c => acc * 10 + (c.toNat - 48)) n

/-- The natural number that a string of one or more decimal digits denotes, if it is one. -/
def decimalDigits (cs : List Char) : Option Nat :=
  if cs ≠ [] ∧ cs.all isDecimalDigit = true then some (digitsValue cs 0) else none

/-- The integer that a string denotes in decimal notation, as the specification speaks of it,
if the string is a decimal integer: an optional sign and then one or more decimal digits. This
definition does not follow `strconv.Atoi`; it is what `strconvAtoi` is compared with. -/
def decimalValue (s : String) : Option Int :=
  match s.data with
  | [] => none
  | c :: t =>
    if c = '-' then (decimalDigits t).map (fun n => - Int.ofNat n)
    else if c = '+' then (decimalDigits t).map Int.ofNat
    else (decimalDigits (c :: t)).map Int.ofNat

/-- Whether an event is the submission of a server request. -/
def Event.isServersPost : Event → Bool
  | Event.ServersPost _ _ _ => true
  | _ => false

/-- A provider like `happyClient` that numbers the new LAN `4294967297`. -/
def bigLanClient : APIClient :=
  { happyClient with
    LansPost := fun _ _ _ lan =>
      ({ lan with Id := some "4294967297" }, some (acceptedResponse "/requests/lan"), none) }

/-- A provider like `happyClient` that names the new LAN `lan-1`. -/
def namedLanClient : APIClient :=
  { happyClient with
    LansPost := fun _ _ _ lan =>
      ({ lan with Id := some "lan-1" }, some (acceptedResponse "/requests/lan"), none) }

/-- The fields that the loop of `getImageId` reads at an image exist. The conjunction is
evaluated from left to right and stops at the first operand that is false: the properties and
the name are always read, the image type when the name passes, the location when the type
passes too, the public flag when the location passes too, and the identifier when the image is
selected. -/
def Image.Readable (X : Externals) (imageName : String) (c : Config) (img : Image) : Prop :=
  ∃ props name, img.Properties = some props ∧ props.Name = some name ∧
    (name ≠ "" →
      stringsContains (stringsToLower X.unicodeToLower name)
        (stringsToLower X.unicodeToLower imageName) = true →
      ∃ ty, props.ImageType = some ty ∧
        (ty = filterDiskType c →
          ∃ loc, props.Location = some loc ∧
            (loc = c.Region →
              ∃ pub, props.Public = some pub ∧ (pub = true → img.Id ≠ none))))

/-- An image without a name. -/
def namelessImage : Image :=
  { Id := some "image-0",
    Properties := some
      { Name := none, ImageType := some "HDD", Location := some "us/las", Public := some true } }

/-- An image without properties and without an identifier. -/
def blankImage : Image := { Id := none, Properties := none }

/-- A provider that lists the image without a name before the image of scenario A. -/
def namelessFirstClient : APIClient :=
  { quietClient with
    ImagesGet := fun _ _ =>
      ({ Items := some [namelessImage, ubuntuImage] }, some okResponse, none) }

/-- A provider that lists the image of scenario A before the blank image. -/
def blankLastClient : APIClient :=
  { quietClient with
    ImagesGet := fun _ _ =>
      ({ Items := some [ubuntuImage, blankImage] }, some okResponse, none) }

/-- What the `Execute` methods of the provider SDK guarantee about an answer: a response with a
status code of 300 or more comes with an error that is not nil. -/
def executeReportsStatus (resp : Option APIResponse) (err : Option GoError) : Prop :=
  ∀ r, resp = some r → r.StatusCode ≥ 300 → err ≠ none

/-- A provider like `happyClient` that does not find the server: status 404, reported as an
error as well. -/
def missingServerClient : APIClient :=
  { happyClient with
    ServersFindById := fun _ _ _ _ =>
      ({ Id := none, Properties := none, Entities := none },
        some { StatusCode := 404, Message := "Resource does not exist", Header := [] },
        some { msg := "404 Not Found" }) }

/-! ## Theorems -/
/-! ### The monad of effects -/

theorem M.run_pure {α : Type} (a : α) (w : World) : (pure a : M α).run w = (Result.ok a, w) := rfl

theorem M.run_bind {α β : Type} (m : M α) (f : α → M β) (w : World) :
    (m >>= f).run w =
      match m.run w with
      | (Result.ok a, w1) => (f a).run w1
      | (Result.panic r, w1) => (Result.panic r, w1) := rfl

theorem M.run_perform {α : Type} (e : Event) (answer : List Event → α) (w : World) :
    (perform e answer).run w = (Result.ok (answer w.trace), { w with trace := w.trace ++ [e] }) :=
  rfl

theorem M.run_liftR {α : Type} (r : Result α) (w : World) : (liftR r).run w = (r, w) := rfl

theorem M.run_stateGet (k : String) (w : World) :
    (stateGet k).run w = (Result.ok (w.bag.Get k), w) := rfl

theorem M.run_stateGetOk (k : String) (w : World) :
    (stateGetOk k).run w = (Result.ok (w.bag.GetOk k), w) := rfl

theorem M.run_statePut (k : String) (v : Value) (w : World) :
    (statePut k v).run w = (Result.ok (), { w with bag := w.bag.Put k v }) := rfl

theorem M.run_readConfig (w : World) : readConfig.run w = (Result.ok w.config, w) := rfl

theorem M.run_writeConfig (c : Config) (w : World) :
    (writeConfig c).run w = (Result.ok (), { w with config := c }) := rfl

theorem M.run_Say (u : Ui) (msg : String) (w : World) :
    (u.Say msg).run w = (Result.ok (), { w with trace := w.trace ++ [Event.Say msg] }) := rfl

theorem M.run_Error (u : Ui) (msg : String) (w : World) :
    (u.Error msg).run w = (Result.ok (), { w with trace := w.trace ++ [Event.Error msg] }) := rfl

theorem M.run_logPrintf (msg : String) (w : World) :
    (logPrintf msg).run w = (Result.ok (), { w with trace := w.trace ++ [Event.Log msg] }) := rfl

/-! ### Image selection -/

theorem getImageId_loop_hit (X : Externals) (imageName : String) (c : Config) (img : Image)
    (rest : List Image) (id : String) (hid : img.Id = some id)
    (hm : img.Matches X imageName c) :
    stepCreateServer.getImageId.loop X imageName c (img :: rest) = Result.ok (Except.ok id) := by
  obtain ⟨props, name, hp, hn, hne, hc, ht, hl, hpub⟩ := hm
  have hb : (name != "") = true := by simpa using hne
  simp [stepCreateServer.getImageId.loop, hp, hn, hne, hb, hc, ht, hl, hpub, hid, deref,
    Result.and, bind, pure, filterDiskType]

theorem getImageId_loop_skip (X : Externals) (imageName : String) (c : Config) (img : Image)
    (rest : List Image) (hpop : img.Populated) (hm : ¬ img.Matches X imageName c) :
    stepCreateServer.getImageId.loop X imageName c (img :: rest) =
      stepCreateServer.getImageId.loop X imageName c rest := by
  obtain ⟨_, props, hp, hn, ht, hl, hpub⟩ := hpop
  obtain ⟨name, hn⟩ := Option.ne_none_iff_exists'.mp hn
  obtain ⟨ty, ht⟩ := Option.ne_none_iff_exists'.mp ht
  obtain ⟨loc, hl⟩ := Option.ne_none_iff_exists'.mp hl
  obtain ⟨pub, hpub⟩ := Option.ne_none_iff_exists'.mp hpub
  simp only [stepCreateServer.getImageId.loop, hp, hn, ht, hl, hpub, deref, Result.and, bind, pure]
  by_cases h1 : name = ""
  · simp [h1]
  · have hb : (name != "") = true := by simpa using h1
    by_cases h2 : stringsContains (stringsToLower X.unicodeToLower name)
        (stringsToLower X.unicodeToLower imageName) = true
    · by_cases h3 : ty = filterDiskType c
      · by_cases h4 : loc = c.Region
        · cases pub
          · simp [h1, hb, h2, h3, h4, filterDiskType]
          · exact absurd ⟨props, name, hp, hn, h1, h2, by rw [ht, h3], by rw [hl, h4], hpub⟩ hm
        · have h4b : (loc == c.Region) = false := by simpa using h4
          simp [h1, hb, h2, h3, h4b, filterDiskType]
      · have h3b : (ty == if c.DiskType = "SSD" then "HDD" else c.DiskType) = false := by
          simpa [filterDiskType] using h3
        simp [h1, hb, h2, h3b]
    · simp [h1, hb, h2]

theorem getImageId_loop_first (X : Externals) (imageName : String) (c : Config) (img : Image)
    (id : String) (hid : img.Id = some id) (hm : img.Matches X imageName c) :
    ∀ (pre post : List Image), (∀ x ∈ pre, x.Populated) →
      (∀ x ∈ pre, ¬ x.Matches X imageName c) →
      stepCreateServer.getImageId.loop X imageName c (pre ++ img :: post) =
        Result.ok (Except.ok id) := by
  intro pre
  induction pre with
  | nil => intro post _ _; exact getImageId_loop_hit X imageName c img post id hid hm
  | cons x pre ih =>
    intro post hpop hno
    rw [List.cons_append, getImageId_loop_skip X imageName c x _ (hpop x (by simp))
      (hno x (by simp))]
    exact ih post (fun y hy => hpop y (by simp [hy])) (fun y hy => hno y (by simp [hy]))

theorem getImageId_loop_none (X : Externals) (imageName : String) (c : Config) :
    ∀ (items : List Image), (∀ x ∈ items, x.Populated) →
      (∀ x ∈ items, ¬ x.Matches X imageName c) →
      stepCreateServer.getImageId.loop X imageName c items = Result.ok (Except.ok "") := by
  intro items
  induction items with
  | nil => intro _ _; rfl
  | cons x items ih =>
    intro hpop hno
    rw [getImageId_loop_skip X imageName c x _ (hpop x (by simp)) (hno x (by simp))]
    exact ih (fun y hy => hpop y (by simp [hy])) (fun y hy => hno y (by simp [hy]))

theorem getImageId_run (X : Externals) (s : stepCreateServer) (imageName : String) (c : Config)
    (w : World) (images : Images) (resp : APIResponse) (items : List Image)
    (hcall : s.client.ImagesGet w.trace Context.Background = (images, some resp, none))
    (hstatus : resp.StatusCode ≤ 299) (hitems : images.Items = some items) :
    (s.getImageId X imageName c).run w =
      (stepCreateServer.getImageId.loop X imageName c items,
        { w with trace := w.trace ++ [Event.ImagesGet Context.Background] }) := by
  have hs : ¬ resp.StatusCode > 299 := not_lt.mpr hstatus
  simp [stepCreateServer.getImageId, M.run_bind, M.run_perform, M.run_liftR, M.run_pure, hcall,
    deref, hs, hitems]

theorem getImageId_loop_pass (X : Externals) (imageName : String) (c : Config) (img : Image)
    (rest : List Image) (hr : img.Readable X imageName c) (hm : ¬ img.Matches X imageName c) :
    stepCreateServer.getImageId.loop X imageName c (img :: rest) =
      stepCreateServer.getImageId.loop X imageName c rest := by
  obtain ⟨props, name, hp, hn, hrest⟩ := hr
  simp only [stepCreateServer.getImageId.loop, hp, hn, deref, Result.and, bind, pure]
  by_cases h1 : name = ""
  · simp [h1]
  · have hb : (name != "") = true := by simpa using h1
    by_cases h2 : stringsContains (stringsToLower X.unicodeToLower name)
        (stringsToLower X.unicodeToLower imageName) = true
    · obtain ⟨ty, ht, hrest⟩ := hrest h1 h2
      by_cases h3 : ty = filterDiskType c
      · obtain ⟨loc, hl, hrest⟩ := hrest h3
        by_cases h4 : loc = c.Region
        · obtain ⟨pub, hpub, _⟩ := hrest h4
          cases pub
          · simp [h1, hb, h2, ht, h3, hl, h4, hpub, filterDiskType]
          · exact absurd ⟨props, name, hp, hn, h1, h2, by rw [ht, h3], by rw [hl, h4], hpub⟩ hm
        · have h4b : (loc == c.Region) = false := by simpa using h4
          simp [h1, hb, h2, ht, h3, hl, h4b, filterDiskType]
      · have h3b : (ty == if c.DiskType = "SSD" then "HDD" else c.DiskType) = false := by
          simpa [filterDiskType] using h3
        simp [h1, hb, h2, ht, h3b]
    · simp [h1, hb, h2]

theorem getImageId_loop_panics (X : Externals) (imageName : String) (c : Config) (img : Image)
    (rest : List Image) (hr : ¬ img.Readable X imageName c) :
    stepCreateServer.getImageId.loop X imageName c (img :: rest) =
      Result.panic "invalid memory address or nil pointer dereference" := by
  cases hp : img.Properties with
  | none => simp [stepCreateServer.getImageId.loop, hp, deref, bind]
  | some props =>
    cases hn : props.Name with
    | none => simp [stepCreateServer.getImageId.loop, hp, hn, deref, bind]
    | some name =>
      by_cases h1 : name = ""
      · exact absurd ⟨props, name, hp, hn, fun h => absurd h1 h⟩ hr
      have hb : (name != "") = true := by simpa using h1
      by_cases h2 : stringsContains (stringsToLower X.unicodeToLower name)
          (stringsToLower X.unicodeToLower imageName) = true
      swap
      · exact absurd ⟨props, name, hp, hn, fun _ h => absurd h h2⟩ hr
      cases ht : props.ImageType with
      | none =>
        simp [stepCreateServer.getImageId.loop, hp, hn, ht, deref, bind, Result.and, h1, hb, h2]
      | some ty =>
        by_cases h3 : ty = filterDiskType c
        swap
        · exact absurd ⟨props, name, hp, hn, fun _ _ => ⟨ty, ht, fun h => absurd h h3⟩⟩ hr
        cases hl : props.Location with
        | none =>
          simp [stepCreateServer.getImageId.loop, hp, hn, ht, hl, deref, bind, pure, Result.and,
            h1, hb, h2, h3, filterDiskType]
        | some loc =>
          by_cases h4 : loc = c.Region
          swap
          · exact absurd ⟨props, name, hp, hn, fun _ _ => ⟨ty, ht, fun _ =>
              ⟨loc, hl, fun h => absurd h h4⟩⟩⟩ hr
          cases hpub : props.Public with
          | none =>
            simp [stepCreateServer.getImageId.loop, hp, hn, ht, hl, hpub, deref, bind, pure,
              Result.and, h1, hb, h2, h3, h4, filterDiskType]
          | some pub =>
            cases pub with
            | false =>
              exact absurd ⟨props, name, hp, hn, fun _ _ => ⟨ty, ht, fun _ =>
                ⟨loc, hl, fun _ => ⟨false, hpub, fun h => absurd h (by simp)⟩⟩⟩⟩ hr
            | true =>
              cases hid : img.Id with
              | some id =>
                exact absurd ⟨props, name, hp, hn, fun _ _ => ⟨ty, ht, fun _ =>
                  ⟨loc, hl, fun _ => ⟨true, hpub, fun _ => by simp [hid]⟩⟩⟩⟩ hr
              | none =>
                simp [stepCreateServer.getImageId.loop, hp, hn, ht, hl, hpub, hid, deref, bind,
                  pure, Result.and, h1, hb, h2, h3, h4, filterDiskType]

theorem getImageId_loop_passes (X : Externals) (imageName : String) (c : Config) :
    ∀ (pre rest : List Image),
      (∀ x ∈ pre, x.Readable X imageName c ∧ ¬ x.Matches X imageName c) →
      stepCreateServer.getImageId.loop X imageName c (pre ++ rest) =
        stepCreateServer.getImageId.loop X imageName c rest := by
  intro pre
  induction pre with
  | nil => intro rest _; rfl
  | cons x pre ih =>
    intro rest h
    rw [List.cons_append, getImageId_loop_pass X imageName c x _ (h x (by simp)).1
      (h x (by simp)).2]
    exact ih rest (fun y hy => h y (by simp [hy]))

/-- C1, amended: when the provider lists the images successfully (no transport error, status
code at most 299), `getImageId` returns with a nil error the identifier of the first image in
list order that satisfies the selection rule (non-empty name containing the wanted name
case-insensitively, image type equal to the filter disk type, location equal to the region,
public), provided that the fields read at the images before it exist and that it has an
identifier, whatever follows it in the list; and it returns the empty string with a nil error
when no image satisfies the rule and the fields read at every image exist. At the first image at
which a field that is read is nil, before any image was selected, it panics. -/
theorem getImageId_selects_first_match (X : Externals) (s : stepCreateServer)
    (imageName : String) (c : Config) (w : World) (images : Images) (resp : APIResponse)
    (items : List Image)
    (hcall : s.client.ImagesGet w.trace Context.Background = (images, some resp, none))
    (hstatus : resp.StatusCode ≤ 299) (hitems : images.Items = some items) :
    (∀ (pre post : List Image) (img : Image) (id : String), items = pre ++ img :: post →
        (∀ x ∈ pre, x.Readable X imageName c ∧ ¬ x.Matches X imageName c) →
        img.Matches X imageName c → img.Id = some id →
        ((s.getImageId X imageName c).run w).1 = Result.ok (Except.ok id)) ∧
    ((∀ x ∈ items, x.Readable X imageName c ∧ ¬ x.Matches X imageName c) →
        ((s.getImageId X imageName c).run w).1 = Result.ok (Except.ok "")) ∧
    (∀ (pre post : List Image) (img : Image), items = pre ++ img :: post →
        (∀ x ∈ pre, x.Readable X imageName c ∧ ¬ x.Matches X imageName c) →
        ¬ img.Readable X imageName c →
        ((s.getImageId X imageName c).run w).1 =
          Result.panic "invalid memory address or nil pointer dereference") := by
  rw [getImageId_run X s imageName c w images resp items hcall hstatus hitems]
  refine ⟨?_, ?_, ?_⟩
  · intro pre post img id hsplit hpre hm hid
    subst hsplit
    show stepCreateServer.getImageId.loop X imageName c (pre ++ img :: post) = _
    rw [getImageId_loop_passes X imageName c pre _ hpre]
    exact getImageId_loop_hit X imageName c img post id hid hm
  · intro hall
    show stepCreateServer.getImageId.loop X imageName c items = _
    have h := getImageId_loop_passes X imageName c items [] hall
    rw [List.append_nil] at h
    rw [h]
    rfl
  · intro pre post img hsplit hpre hr
    subst hsplit
    show stepCreateServer.getImageId.loop X imageName c (pre ++ img :: post) = _
    rw [getImageId_loop_passes X imageName c pre _ hpre]
    exact getImageId_loop_panics X imageName c img post hr

/-- Scenario A: image name `ubuntu-22.04`, disk type `HDD`, region `us/las`, and a provider that
lists the one public image `Ubuntu-22.04-server` of type `HDD` in `us/las`: the identifier of that
image is returned. It is returned as well when a blank image follows it in the list. -/
theorem getImageId_selects_first_match_witness :
    (((newStepCreateServer scenarioAClient).getImageId asciiExternals "ubuntu-22.04"
        scenarioConfig).run scenarioWorld).1 = Result.ok (Except.ok "image-1") ∧
    (((newStepCreateServer blankLastClient).getImageId asciiExternals "ubuntu-22.04"
        scenarioConfig).run scenarioWorld).1 = Result.ok (Except.ok "image-1") :=
  ⟨(getImageId_selects_first_match asciiExternals (newStepCreateServer scenarioAClient)
      "ubuntu-22.04" scenarioConfig scenarioWorld { Items := some [ubuntuImage] } okResponse
      [ubuntuImage] rfl (by decide) rfl).1
      [] [] ubuntuImage "image-1" rfl (by simp)
      ⟨_, _, rfl, rfl, by decide, by decide, by decide, by decide, rfl⟩ rfl,
    (getImageId_selects_first_match asciiExternals (newStepCreateServer blankLastClient)
      "ubuntu-22.04" scenarioConfig scenarioWorld { Items := some [ubuntuImage, blankImage] }
      okResponse [ubuntuImage, blankImage] rfl (by decide) rfl).1
      [] [blankImage] ubuntuImage "image-1" rfl (by simp)
      ⟨_, _, rfl, rfl, by decide, by decide, by decide, by decide, rfl⟩ rfl⟩

/-- C1, as stated, fails: the provider lists successfully an image without a name and then the
image of scenario A. The second image is the first one in list order that satisfies the selection
rule, and its identifier is `image-1`; yet `getImageId` does not return it: it panics at the
first image. -/
theorem getImageId_nameless_image_panics :
    namelessFirstClient.ImagesGet scenarioWorld.trace Context.Background =
      ({ Items := some [namelessImage, ubuntuImage] }, some okResponse, none) ∧
    okResponse.StatusCode ≤ 299 ∧
    ¬ namelessImage.Matches asciiExternals "ubuntu-22.04" scenarioConfig ∧
    ubuntuImage.Matches asciiExternals "ubuntu-22.04" scenarioConfig ∧
    ubuntuImage.Id = some "image-1" ∧
    (((newStepCreateServer namelessFirstClient).getImageId asciiExternals "ubuntu-22.04"
        scenarioConfig).run scenarioWorld).1 =
      Result.panic "invalid memory address or nil pointer dereference" := by
  refine ⟨rfl, by decide, ?_, ⟨_, _, rfl, rfl, by decide, by decide, by decide, by decide, rfl⟩,
    rfl, rfl⟩
  rintro ⟨props, name, hp, hn, _⟩
  simp only [namelessImage, Option.some.injEq] at hp
  subst hp
  simp at hn

theorem Image.matches_iff (X : Externals) (imageName : String) (c : Config) (oid : Option String)
    (name : String) (oty oloc : Option String) (opub : Option Bool) :
    Image.Matches X imageName c
        { Id := oid,
          Properties := some
            { Name := some name, ImageType := oty, Location := oloc, Public := opub } } ↔
      name ≠ "" ∧
        stringsContains (stringsToLower X.unicodeToLower name)
          (stringsToLower X.unicodeToLower imageName) = true ∧
        oty = some (filterDiskType c) ∧ oloc = some c.Region ∧ opub = some true := by
  constructor
  · rintro ⟨props, n, hp, hn, hne, hc, ht, hl, hpub⟩
    simp only [Option.some.injEq] at hp
    subst hp
    simp only [Option.some.injEq] at hn
    subst hn
    exact ⟨hne, hc, ht, hl, hpub⟩
  · rintro ⟨hne, hc, ht, hl, hpub⟩
    exact ⟨_, name, rfl, rfl, hne, hc, ht, hl, hpub⟩

theorem getImageId_loop_ok_cons (X : Externals) (imageName : String) (c : Config) (img : Image)
    (rest : List Image) (r : Except GoError String)
    (h : stepCreateServer.getImageId.loop X imageName c (img :: rest) = Result.ok r) :
    (img.Matches X imageName c ∧ ∃ id, img.Id = some id ∧ r = Except.ok id) ∨
    (¬ img.Matches X imageName c ∧ stepCreateServer.getImageId.loop X imageName c rest =
      Result.ok r) := by
  obtain ⟨oid, oprops⟩ := img
  cases oprops with
  | none => simp [stepCreateServer.getImageId.loop, deref, bind] at h
  | some props =>
    obtain ⟨oname, oty, oloc, opub⟩ := props
    cases oname with
    | none => simp [stepCreateServer.getImageId.loop, deref, bind] at h
    | some name =>
      simp only [stepCreateServer.getImageId.loop, deref, Result.and, bind, pure] at h
      rw [Image.matches_iff]
      by_cases h1 : name = ""
      · right
        exact ⟨fun hm => hm.1 h1, by simpa [h1] using h⟩
      · have hb : (name != "") = true := by simpa using h1
        cases hc : stringsContains (stringsToLower X.unicodeToLower name)
            (stringsToLower X.unicodeToLower imageName) with
        | false =>
          right
          exact ⟨fun hm => by simp [hc] at hm, by simpa [h1, hb, hc] using h⟩
        | true =>
          cases oty with
          | none => simp [h1, hb, hc] at h
          | some ty =>
            by_cases h3 : ty = filterDiskType c
            · have h3b : (ty == if c.DiskType = "SSD" then "HDD" else c.DiskType) = true := by
                simpa [filterDiskType] using h3
              cases oloc with
              | none => simp [h1, hb, hc, h3b] at h
              | some loc =>
                by_cases h4 : loc = c.Region
                · cases opub with
                  | none => simp [h1, hb, hc, h3b, h4] at h
                  | some pub =>
                    cases pub with
                    | false =>
                      right
                      exact ⟨fun hm => by simp at hm, by simpa [h1, hb, hc, h3b, h4] using h⟩
                    | true =>
                      left
                      cases oid with
                      | none => simp [h1, hb, hc, h3b, h4] at h
                      | some id =>
                        refine ⟨⟨h1, rfl, by rw [h3], by rw [h4], rfl⟩, id, rfl, ?_⟩
                        simp [h1, hb, hc, h3b, h4] at h
                        exact h.symm
                · have h4b : (loc == c.Region) = false := by simpa using h4
                  right
                  exact ⟨fun hm => by simp [h4] at hm, by simpa [h1, hb, hc, h3b, h4b] using h⟩
            · have h3b : (ty == if c.DiskType = "SSD" then "HDD" else c.DiskType) = false := by
                simpa [filterDiskType] using h3
              right
              exact ⟨fun hm => by simp [h3] at hm, by simpa [h1, hb, hc, h3b] using h⟩

theorem getImageId_loop_ok_inv (X : Externals) (imageName : String) (c : Config) :
    ∀ (items : List Image) (id : String),
      stepCreateServer.getImageId.loop X imageName c items = Result.ok (Except.ok id) →
      (id = "" ∧ ∀ x ∈ items, ¬ x.Matches X imageName c) ∨
      ∃ pre img post, items = pre ++ img :: post ∧ (∀ x ∈ pre, ¬ x.Matches X imageName c) ∧
        img.Id = some id ∧ img.Matches X imageName c := by
  intro items
  induction items with
  | nil =>
    intro id h
    left
    simp only [stepCreateServer.getImageId.loop, Result.ok.injEq, Except.ok.injEq] at h
    exact ⟨h.symm, by simp⟩
  | cons x items ih =>
    intro id h
    rcases getImageId_loop_ok_cons X imageName c x items _ h with ⟨hm, id1, hid, hr⟩ | ⟨hm, hrest⟩
    · right
      simp only [Except.ok.injEq] at hr
      subst hr
      exact ⟨[], x, items, rfl, by simp, hid, hm⟩
    · rcases ih id hrest with ⟨hid, hno⟩ | ⟨pre, img, post, hsplit, hno, hid, himg⟩
      · left
        refine ⟨hid, ?_⟩
        intro y hy
        rcases List.mem_cons.mp hy with rfl | hy
        · exact hm
        · exact hno y hy
      · right
        refine ⟨x :: pre, img, post, by simp [hsplit], ?_, hid, himg⟩
        intro y hy
        rcases List.mem_cons.mp hy with rfl | hy
        · exact hm
        · exact hno y hy

theorem getImageId_run_ok_inv (X : Externals) (s : stepCreateServer) (imageName : String)
    (c : Config) (w w1 : World) (id : String)
    (h : (s.getImageId X imageName c).run w = (Result.ok (Except.ok id), w1)) :
    ∃ items, (s.client.ImagesGet w.trace Context.Background).1.Items = some items ∧
      stepCreateServer.getImageId.loop X imageName c items = Result.ok (Except.ok id) := by
  simp only [stepCreateServer.getImageId, M.run_bind, M.run_perform] at h
  rcases hcall : s.client.ImagesGet w.trace Context.Background with ⟨images, oresp, oerr⟩
  rw [hcall] at h
  cases oerr with
  | some e => simp [M.run_pure] at h
  | none =>
    cases oresp with
    | none => simp [M.run_bind, M.run_liftR, deref] at h
    | some resp =>
      by_cases hs : resp.StatusCode > 299
      · simp [M.run_bind, M.run_liftR, M.run_pure, deref, hs] at h
      · cases hitems : images.Items with
        | none => simp [M.run_bind, M.run_liftR, M.run_pure, deref, hs, hitems] at h
        | some items =>
          refine ⟨items, rfl, ?_⟩
          simp [M.run_bind, M.run_liftR, M.run_pure, deref, hs, hitems] at h
          exact h.1

/-- C8: the disk-type filter of `getImageId` maps a configured `SSD` onto images of type `HDD`.
With `SSD` configured an image of type `SSD` is passed over, and whatever identifier `getImageId`
returns from a selected image, that image is the first to satisfy the selection rule and its type
is `HDD`; with any other configured disk type its type is the configured one. -/
theorem getImageId_disk_type_filter (X : Externals) (s : stepCreateServer) (imageName : String)
    (c : Config) (w : World) :
    (c.DiskType = "SSD" → ∀ (img : Image) (rest : List Image) (props : ImageProperties),
        img.Populated → img.Properties = some props → props.ImageType = some "SSD" →
        stepCreateServer.getImageId.loop X imageName c (img :: rest) =
          stepCreateServer.getImageId.loop X imageName c rest) ∧
    (∀ (id : String) (w1 : World),
        (s.getImageId X imageName c).run w = (Result.ok (Except.ok id), w1) →
        ∃ items, (s.client.ImagesGet w.trace Context.Background).1.Items = some items ∧
          ((id = "" ∧ ∀ x ∈ items, ¬ x.Matches X imageName c) ∨
            ∃ pre img post props, items = pre ++ img :: post ∧
              (∀ x ∈ pre, ¬ x.Matches X imageName c) ∧ img.Id = some id ∧
              img.Matches X imageName c ∧ img.Properties = some props ∧
              (c.DiskType = "SSD" → props.ImageType = some "HDD") ∧
              (c.DiskType ≠ "SSD" → props.ImageType = some c.DiskType))) := by
  refine ⟨?_, ?_⟩
  · intro hssd img rest props hpop hp hty
    apply getImageId_loop_skip X imageName c img rest hpop
    rintro ⟨p, n, hp1, -, -, -, ht, -, -⟩
    rw [hp] at hp1
    simp only [Option.some.injEq] at hp1
    subst hp1
    rw [hty] at ht
    simp [filterDiskType, hssd] at ht
  · intro id w1 hrun
    obtain ⟨items, hitems, hloop⟩ := getImageId_run_ok_inv X s imageName c w w1 id hrun
    refine ⟨items, hitems, ?_⟩
    rcases getImageId_loop_ok_inv X imageName c items id hloop with hnone | hsome
    · exact Or.inl hnone
    · obtain ⟨pre, img, post, hsplit, hno, hid, hm⟩ := hsome
      obtain ⟨props, n, hp, hn, hne, hc, ht, hl, hpub⟩ := hm
      refine Or.inr ⟨pre, img, post, props, hsplit, hno, hid,
        ⟨props, n, hp, hn, hne, hc, ht, hl, hpub⟩, hp, ?_, ?_⟩
      · intro hssd
        simpa [filterDiskType, hssd] using ht
      · intro hssd
        simpa [filterDiskType, hssd] using ht

/-- With `SSD` configured and a provider that lists an `SSD` image before an `HDD` image of the
same name, region and visibility, the `HDD` image is the one returned. -/
theorem getImageId_disk_type_filter_witness :
    ∃ items, (ssdScenarioClient.ImagesGet [] Context.Background).1.Items = some items ∧
      (("image-1" = "" ∧ ∀ x ∈ items, ¬ x.Matches asciiExternals "ubuntu-22.04" ssdConfig) ∨
        ∃ pre img post props, items = pre ++ img :: post ∧
          (∀ x ∈ pre, ¬ x.Matches asciiExternals "ubuntu-22.04" ssdConfig) ∧
          img.Id = some "image-1" ∧ img.Matches asciiExternals "ubuntu-22.04" ssdConfig ∧
          img.Properties = some props ∧
          (ssdConfig.DiskType = "SSD" → props.ImageType = some "HDD") ∧
          (ssdConfig.DiskType ≠ "SSD" → props.ImageType = some ssdConfig.DiskType)) :=
  (getImageId_disk_type_filter asciiExternals (newStepCreateServer ssdScenarioClient)
    "ubuntu-22.04" ssdConfig { bag := initialBag, config := ssdConfig, trace := [] }).2
    "image-1"
    { bag := initialBag, config := ssdConfig, trace := [Event.ImagesGet Context.Background] }
    rfl

/-! ### Cleanup of the server step -/

theorem deleteDatacenter_run (s : stepCreateServer) (cl : APIClient) (id : String) (w : World) :
    (s.deleteDatacenter cl id).run w =
      match (cl.DatacentersDelete w.trace Context.Background id).2 with
      | some e =>
        (Result.ok (false, some (fmtErrorf
            ("error occurred when executing the api get resource operation: " ++ e.msg))),
          { w with trace := w.trace ++ [Event.DatacentersDelete Context.Background id] })
      | none =>
        (Result.ok (cl.WaitForDeletion
            (w.trace ++ [Event.DatacentersDelete Context.Background id]) Context.Background id),
          { w with trace := w.trace ++ [Event.DatacentersDelete Context.Background id,
              Event.WaitForDeletion Context.Background id] }) := by
  cases hd : (cl.DatacentersDelete w.trace Context.Background id).2 <;>
    simp [stepCreateServer.deleteDatacenter, M.run_bind, M.run_perform, M.run_pure, hd]

theorem Cleanup_run_absent (s : stepCreateServer) (w : World) (u : Ui)
    (hu : w.bag.Get "ui" = Value.ui u) (hv : w.bag.GetOk "datacenter_id" = none) :
    s.Cleanup.run w =
      (Result.ok (),
        { w with trace := w.trace ++ [Event.Say "Removing Virtual Data Center..."] }) := by
  simp [stepCreateServer.Cleanup, M.run_bind, M.run_stateGet, M.run_liftR, hu, Value.assertUi,
    M.run_Say, M.run_stateGetOk, hv, M.run_pure]

theorem Cleanup_run_present (s : stepCreateServer) (w : World) (u : Ui) (id : String)
    (hu : w.bag.Get "ui" = Value.ui u)
    (hv : w.bag.GetOk "datacenter_id" = some (Value.str id)) :
    s.Cleanup.run w =
      (Result.ok (),
        { w with trace := w.trace ++
            (Event.Say "Removing Virtual Data Center..." ::
              Event.DatacentersDelete Context.Background id ::
              match (s.client.DatacentersDelete
                  (w.trace ++ [Event.Say "Removing Virtual Data Center..."])
                  Context.Background id).2 with
              | some e =>
                [Event.Error ("Error deleting Virtual Data Center. Please destroy it manually: "
                  ++ ("error occurred when executing the api get resource operation: "
                  ++ e.msg))]
              | none =>
                Event.WaitForDeletion Context.Background id ::
                  ((match (s.client.WaitForDeletion
                      (w.trace ++ [Event.Say "Removing Virtual Data Center...",
                        Event.DatacentersDelete Context.Background id])
                      Context.Background id).2 with
                    | some e =>
                      [Event.Error
                        ("Error deleting Virtual Data Center. Please destroy it manually: "
                          ++ e.msg)]
                    | none => []) ++
                  if (s.client.WaitForDeletion
                      (w.trace ++ [Event.Say "Removing Virtual Data Center...",
                        Event.DatacentersDelete Context.Background id])
                      Context.Background id).1 = true
                  then [Event.Say "Virtual Data Center deleted..."] else [])) }) := by
  simp only [stepCreateServer.Cleanup, M.run_bind, M.run_stateGet, M.run_liftR, hu,
    Value.assertUi, M.run_Say, M.run_stateGetOk, hv, M.run_pure, Value.assertString,
    deleteDatacenter_run]
  cases hd : (s.client.DatacentersDelete
      (w.trace ++ [Event.Say "Removing Virtual Data Center..."]) Context.Background id).2 with
  | some e => simp [M.run_bind, M.run_Error, M.run_Say, M.run_pure, fmtErrorf]
  | none =>
    simp only [List.append_assoc, List.singleton_append]
    cases hw : (s.client.WaitForDeletion
        (w.trace ++ [Event.Say "Removing Virtual Data Center...",
          Event.DatacentersDelete Context.Background id]) Context.Background id) with
    | mk deleted err =>
      cases deleted <;> cases err <;> simp [M.run_bind, M.run_Error, M.run_Say, M.run_pure]

theorem Cleanup_frame (s : stepCreateServer) (w : World) :
    (s.Cleanup.run w).2.bag = w.bag ∧ (s.Cleanup.run w).2.config = w.config := by
  cases hu : Value.assertUi (w.bag.Get "ui") with
  | panic m =>
    simp [stepCreateServer.Cleanup, M.run_bind, M.run_stateGet, M.run_liftR, hu]
  | ok u =>
    cases hv : w.bag.GetOk "datacenter_id" with
    | none =>
      simp [stepCreateServer.Cleanup, M.run_bind, M.run_stateGet, M.run_liftR, hu, M.run_Say,
        M.run_stateGetOk, hv, M.run_pure]
    | some v =>
      cases hs : Value.assertString v with
      | panic m =>
        simp [stepCreateServer.Cleanup, M.run_bind, M.run_stateGet, M.run_liftR, hu, M.run_Say,
          M.run_stateGetOk, hv, M.run_pure, hs]
      | ok id =>
        have hu1 : w.bag.Get "ui" = Value.ui u := by
          cases hg : w.bag.Get "ui" <;> simp_all [Value.assertUi]
        have hv1 : v = Value.str id := by
          cases v <;> simp_all [Value.assertString]
        rw [Cleanup_run_present s w u id hu1 (hv1 ▸ hv)]
        exact ⟨rfl, rfl⟩

/-- The outcome of `Cleanup`, a value or a panic, is decided by the state bag alone. -/
theorem Cleanup_result (s : stepCreateServer) (w : World) :
    (s.Cleanup.run w).1 =
      match Value.assertUi (w.bag.Get "ui") with
      | Result.panic m => Result.panic m
      | Result.ok _ =>
        match w.bag.GetOk "datacenter_id" with
        | none => Result.ok ()
        | some v =>
          match Value.assertString v with
          | Result.panic m => Result.panic m
          | Result.ok _ => Result.ok () := by
  cases hu : Value.assertUi (w.bag.Get "ui") with
  | panic m =>
    simp [stepCreateServer.Cleanup, M.run_bind, M.run_stateGet, M.run_liftR, hu]
  | ok u =>
    cases hv : w.bag.GetOk "datacenter_id" with
    | none =>
      simp [stepCreateServer.Cleanup, M.run_bind, M.run_stateGet, M.run_liftR, hu, M.run_Say,
        M.run_stateGetOk, hv, M.run_pure]
    | some v =>
      cases hs : Value.assertString v with
      | panic m =>
        simp [stepCreateServer.Cleanup, M.run_bind, M.run_stateGet, M.run_liftR, hu, M.run_Say,
          M.run_stateGetOk, hv, M.run_pure, hs]
      | ok id =>
        have hu1 : w.bag.Get "ui" = Value.ui u := by
          cases hg : w.bag.Get "ui" <;> simp_all [Value.assertUi]
        have hv1 : v = Value.str id := by
          cases v <;> simp_all [Value.assertString]
        rw [Cleanup_run_present s w u id hu1 (hv1 ▸ hv)]
        simp [hs]

theorem events_of_run {α : Type} (m : M α) (w : World) (r : Result α) (new : List Event)
    (h : m.run w = (r, { w with trace := w.trace ++ new })) : m.events w = new := by
  simp [M.events, h]

/-- C3: `Cleanup` of the server step, run on a state bag that holds the UI, issues a
delete-datacenter call exactly when a datacenter identifier is recorded under `datacenter_id`:
with the identifier recorded, the delete calls it issues are exactly one, for that identifier;
with the key absent it issues no remote call at all. -/
theorem Cleanup_deletes_iff_recorded (s : stepCreateServer) (w : World) (u : Ui)
    (hu : w.bag.Get "ui" = Value.ui u) :
    (∀ id, w.bag.GetOk "datacenter_id" = some (Value.str id) →
        (s.Cleanup.events w).filter Event.isDatacentersDelete =
          [Event.DatacentersDelete Context.Background id]) ∧
    (w.bag.GetOk "datacenter_id" = none →
        (s.Cleanup.events w).filter Event.isRemote = []) := by
  refine ⟨?_, ?_⟩
  · intro id hv
    rw [events_of_run _ _ _ _ (Cleanup_run_present s w u id hu hv)]
    cases hd : (s.client.DatacentersDelete
        (w.trace ++ [Event.Say "Removing Virtual Data Center..."]) Context.Background id).2 with
    | some e => simp [Event.isDatacentersDelete]
    | none =>
      cases hw : (s.client.WaitForDeletion
          (w.trace ++ [Event.Say "Removing Virtual Data Center...",
            Event.DatacentersDelete Context.Background id]) Context.Background id) with
      | mk deleted err =>
        cases deleted <;> cases err <;> simp [Event.isDatacentersDelete]
  · intro hv
    rw [events_of_run _ _ _ _ (Cleanup_run_absent s w u hu hv)]
    simp [Event.isRemote]

/-! ### The builder -/

theorem Builder_Run_eq (X : Externals) (K : PackerSdk) (b : Builder) (ctx : Context) (ui : Ui)
    (hook : Hook) :
    Builder.Run X K b ctx ui hook =
      match (K.NewRunner (b.steps X K (K.NewAPIClient b.config.IonosUsername
          b.config.IonosPassword)) b.config.PackerDebug ui ctx).run
          { bag := [("ui", Value.ui ui), ("hook", Value.hook hook), ("config", Value.config)],
            config := b.config, trace := [] } with
      | (Result.panic r, w1) => (Result.panic r, w1)
      | (Result.ok (), w1) =>
        match w1.bag.GetOk "error" with
        | some rawErr =>
          match Value.assertError rawErr with
          | Result.ok e => (Result.ok (none, some e), w1)
          | Result.panic m => (Result.panic m, w1)
        | none =>
          (Result.ok (some
              { snapshotData := w1.config.SnapshotName,
                StateData := [("generated_data", w1.bag.Get "generated_data")] }, none), w1) := by
  have hbag : StateBag.Put (StateBag.Put (StateBag.Put [] "config" Value.config) "hook"
      (Value.hook hook)) "ui" (Value.ui ui) =
      [("ui", Value.ui ui), ("hook", Value.hook hook), ("config", Value.config)] := by
    simp [StateBag.Put]
  have hget : StateBag.Get [("ui", Value.ui ui), ("hook", Value.hook hook),
      ("config", Value.config)] "config" = Value.config := by
    simp [StateBag.Get, List.lookup]
  rcases hr : (K.NewRunner (b.steps X K (K.NewAPIClient b.config.IonosUsername
      b.config.IonosPassword)) b.config.PackerDebug ui ctx).run
      { bag := [("ui", Value.ui ui), ("hook", Value.hook hook), ("config", Value.config)],
        config := b.config, trace := [] } with ⟨r, w1⟩
  cases r with
  | panic m =>
    simp [Builder.Run, Builder.Run.body, Builder.newAPIClient, M.run_bind, M.run_statePut,
      M.run_stateGet, M.run_liftR, M.run_readConfig, M.run_pure, hbag, hget, Value.assertConfig,
      hr]
  | ok a =>
    cases a
    cases he : w1.bag.GetOk "error" with
    | none =>
      simp [Builder.Run, Builder.Run.body, Builder.newAPIClient, M.run_bind, M.run_statePut,
        M.run_stateGet, M.run_liftR, M.run_readConfig, M.run_pure, hbag, hget,
        Value.assertConfig, hr, M.run_stateGetOk, he]
    | some v =>
      cases hv : Value.assertError v <;>
      simp [Builder.Run, Builder.Run.body, Builder.newAPIClient, M.run_bind, M.run_statePut,
        M.run_stateGet, M.run_liftR, M.run_readConfig, M.run_pure, hbag, hget,
        Value.assertConfig, hr, M.run_stateGetOk, he, hv]

theorem Cleanup_twice_outcome (X : Externals) (K : PackerSdk) (b : Builder) (ctx : Context)
    (ui : Ui) (hook : Hook) (s : stepCreateServer) :
    (Builder.Run X
        { K with NewRunner := fun steps debug u c => do
            K.NewRunner steps debug u c
            s.Cleanup
            s.Cleanup } b ctx ui hook).1 =
    (Builder.Run X
        { K with NewRunner := fun steps debug u c => do
            K.NewRunner steps debug u c
            s.Cleanup } b ctx ui hook).1 := by
  rw [Builder_Run_eq, Builder_Run_eq]
  simp only [Builder.steps, M.run_bind]
  rcases (K.NewRunner _ b.config.PackerDebug ui ctx).run
      { bag := [("ui", Value.ui ui), ("hook", Value.hook hook), ("config", Value.config)],
        config := b.config, trace := [] } with ⟨r, w1⟩
  cases r with
  | panic m => rfl
  | ok a =>
    have h1 := Cleanup_result s w1
    have f1 := Cleanup_frame s w1
    rcases hc1 : s.Cleanup.run w1 with ⟨r1, w2⟩
    rw [hc1] at h1 f1
    have h2 := Cleanup_result s w2
    have f2 := Cleanup_frame s w2
    rcases hc2 : s.Cleanup.run w2 with ⟨r2, w3⟩
    rw [hc2] at h2 f2
    simp only at h1 f1 h2 f2
    rw [f1.1, ← h1] at h2
    subst h2
    simp only [hc1]
    cases r2 with
    | panic m => rfl
    | ok a2 =>
      cases a2
      simp only [hc2, StateBag.GetOk, StateBag.Get, f2.1, f2.2]
      rcases List.lookup "error" w2.bag with _ | v
      · rfl
      · simp only
        cases Value.assertError v <;> rfl

/-! ### The two-phase protocol -/

theorem waitForRequestToBeDone_run (s : stepCreateServer) (ctx : Context) (path : String)
    (w : World) :
    (s.waitForRequestToBeDone ctx path).run w =
      match (s.client.WaitForRequest w.trace ctx path).2 with
      | some e =>
        (Result.ok (some (fmtErrorf
            ("error waiting for status for " ++ path ++ " : (" ++ e.msg ++ ")"))),
          { w with trace := w.trace ++ [Event.WaitForRequest ctx path] })
      | none =>
        (Result.ok none,
          { w with trace := w.trace ++ [Event.WaitForRequest ctx path,
              Event.Log ("resource created for path " ++ path)] }) := by
  cases h : (s.client.WaitForRequest w.trace ctx path).2 <;>
    simp [stepCreateServer.waitForRequestToBeDone, M.run_bind, M.run_perform, M.run_pure,
      M.run_logPrintf, h]

theorem snapshot_waitForRequestToBeDone_run (s : stepTakeSnapshot) (ctx : Context)
    (path : String) (w : World) :
    (s.waitForRequestToBeDone ctx path).run w =
      match (s.client.WaitForRequest w.trace ctx path).2 with
      | some e =>
        (Result.ok (some (fmtErrorf
            ("error waiting for status for " ++ path ++ " : (" ++ e.msg ++ ")"))),
          { w with trace := w.trace ++ [Event.WaitForRequest ctx path] })
      | none =>
        (Result.ok none,
          { w with trace := w.trace ++ [Event.WaitForRequest ctx path,
              Event.Log ("resource created for path " ++ path)] }) := by
  cases h : (s.client.WaitForRequest w.trace ctx path).2 <;>
    simp [stepTakeSnapshot.waitForRequestToBeDone, M.run_bind, M.run_perform, M.run_pure,
      M.run_logPrintf, h]

theorem createDc_twoPhase (s : stepCreateServer) (ctx : Context) (name loc : String)
    (w : World) :
    TwoPhase s.client.WaitForRequest ctx (s.createDcAndWaitUntilDone ctx name loc) w
      (Event.DatacentersPost ctx
        { Id := none,
          Properties := some
            { Name := some name, Description := some "this is the packer datacenter",
              Location := some loc } })
      (s.client.DatacentersPost w.trace ctx
        { Id := none,
          Properties := some
            { Name := some name, Description := some "this is the packer datacenter",
              Location := some loc } }) := by
  rcases hq : s.client.DatacentersPost w.trace ctx
      { Id := none,
        Properties := some
          { Name := some name, Description := some "this is the packer datacenter",
            Location := some loc } } with ⟨dc, resp, err⟩
  simp only [TwoPhase]
  cases err with
  | some e =>
    simp [stepCreateServer.createDcAndWaitUntilDone, stepCreateServer.createDatacenter,
      M.run_bind, M.run_perform, M.run_pure, hq]
  | none =>
    by_cases hp : getRequestPath resp = ""
    · simp [stepCreateServer.createDcAndWaitUntilDone, stepCreateServer.createDatacenter,
        M.run_bind, M.run_perform, M.run_pure, hq, hp]
    · cases hw : (s.client.WaitForRequest
          (w.trace ++ [Event.DatacentersPost ctx
            { Id := none,
              Properties := some
                { Name := some name, Description := some "this is the packer datacenter",
                  Location := some loc } }]) ctx (getRequestPath resp)).2 with
      | some e =>
        simp [stepCreateServer.createDcAndWaitUntilDone, stepCreateServer.createDatacenter,
          M.run_bind, M.run_perform, M.run_pure, hq, hp, waitForRequestToBeDone_run, hw]
      | none =>
        simp [stepCreateServer.createDcAndWaitUntilDone, stepCreateServer.createDatacenter,
          M.run_bind, M.run_perform, M.run_pure, hq, hp, waitForRequestToBeDone_run, hw]

theorem createLan_twoPhase (s : stepCreateServer) (ctx : Context) (dcId : String)
    (lanPost : LanPost) (w : World) :
    TwoPhase s.client.WaitForRequest ctx (s.createLanAndWaitUntilDone ctx dcId lanPost) w
      (Event.LansPost ctx dcId lanPost) (s.client.LansPost w.trace ctx dcId lanPost) := by
  rcases hq : s.client.LansPost w.trace ctx dcId lanPost with ⟨lan, resp, err⟩
  simp only [TwoPhase]
  cases err with
  | some e =>
    simp [stepCreateServer.createLanAndWaitUntilDone, M.run_bind, M.run_perform, M.run_pure, hq]
  | none =>
    by_cases hp : getRequestPath resp = ""
    · simp [stepCreateServer.createLanAndWaitUntilDone, M.run_bind, M.run_perform, M.run_pure,
        hq, hp]
    · cases hw : (s.client.WaitForRequest (w.trace ++ [Event.LansPost ctx dcId lanPost]) ctx
          (getRequestPath resp)).2 <;>
        simp [stepCreateServer.createLanAndWaitUntilDone, M.run_bind, M.run_perform, M.run_pure,
          hq, hp, waitForRequestToBeDone_run, hw]

theorem createServer_twoPhase (s : stepCreateServer) (ctx : Context) (dcId : String)
    (server : Server) (w : World) :
    TwoPhase s.client.WaitForRequest ctx (s.createServerAndWaitUntilDone ctx dcId server) w
      (Event.ServersPost ctx dcId server) (s.client.ServersPost w.trace ctx dcId server) := by
  rcases hq : s.client.ServersPost w.trace ctx dcId server with ⟨srv, resp, err⟩
  simp only [TwoPhase]
  cases err with
  | some e =>
    simp [stepCreateServer.createServerAndWaitUntilDone, stepCreateServer.createServer,
      M.run_bind, M.run_perform, M.run_pure, hq]
  | none =>
    by_cases hp : getRequestPath resp = ""
    · simp [stepCreateServer.createServerAndWaitUntilDone, stepCreateServer.createServer,
        M.run_bind, M.run_perform, M.run_pure, hq, hp]
    · cases hw : (s.client.WaitForRequest (w.trace ++ [Event.ServersPost ctx dcId server]) ctx
          (getRequestPath resp)).2 <;>
        simp [stepCreateServer.createServerAndWaitUntilDone, stepCreateServer.createServer,
          M.run_bind, M.run_perform, M.run_pure, hq, hp, waitForRequestToBeDone_run, hw]

theorem createSnapshot_twoPhase (s : stepTakeSnapshot) (ctx : Context) (dcId volumeId : String)
    (w : World) :
    TwoPhase s.client.WaitForRequest ctx (s.createSnapshot ctx dcId volumeId) w
      (Event.CreateSnapshotPost ctx dcId volumeId)
      (s.client.CreateSnapshotPost w.trace ctx dcId volumeId) := by
  rcases hq : s.client.CreateSnapshotPost w.trace ctx dcId volumeId with ⟨snap, resp, err⟩
  simp only [TwoPhase]
  cases err with
  | some e =>
    simp [stepTakeSnapshot.createSnapshot, M.run_bind, M.run_perform, M.run_pure, hq]
  | none =>
    by_cases hp : getRequestPath resp = ""
    · simp [stepTakeSnapshot.createSnapshot, M.run_bind, M.run_perform, M.run_pure, hq, hp]
    · cases hw : (s.client.WaitForRequest
          (w.trace ++ [Event.CreateSnapshotPost ctx dcId volumeId]) ctx
          (getRequestPath resp)).2 <;>
        simp [stepTakeSnapshot.createSnapshot, M.run_bind, M.run_perform, M.run_pure, hq, hp,
          snapshot_waitForRequestToBeDone_run, hw]

/-- C5: each of the four create-and-wait operations (`createDcAndWaitUntilDone`,
`createLanAndWaitUntilDone`, `createServerAndWaitUntilDone`, `createSnapshot`) follows the
two-phase protocol. If the submit call succeeds but no tracking handle can be extracted from the
response (it is nil or its location header is empty), the operation returns an error and no
resource, having made the one submit call and no call of the poller. If it returns a resource
with a nil error, the poller was called exactly once, with the handle of that submit response,
and returned success. -/
theorem create_and_wait_two_phase (s : stepCreateServer) (t : stepTakeSnapshot) (ctx : Context)
    (name loc dcId volumeId : String) (lanPost : LanPost) (server : Server) (w : World) :
    TwoPhase s.client.WaitForRequest ctx (s.createDcAndWaitUntilDone ctx name loc) w
      (Event.DatacentersPost ctx
        { Id := none,
          Properties := some
            { Name := some name, Description := some "this is the packer datacenter",
              Location := some loc } })
      (s.client.DatacentersPost w.trace ctx
        { Id := none,
          Properties := some
            { Name := some name, Description := some "this is the packer datacenter",
              Location := some loc } }) ∧
    TwoPhase s.client.WaitForRequest ctx (s.createLanAndWaitUntilDone ctx dcId lanPost) w
      (Event.LansPost ctx dcId lanPost) (s.client.LansPost w.trace ctx dcId lanPost) ∧
    TwoPhase s.client.WaitForRequest ctx (s.createServerAndWaitUntilDone ctx dcId server) w
      (Event.ServersPost ctx dcId server) (s.client.ServersPost w.trace ctx dcId server) ∧
    TwoPhase t.client.WaitForRequest ctx (t.createSnapshot ctx dcId volumeId) w
      (Event.CreateSnapshotPost ctx dcId volumeId)
      (t.client.CreateSnapshotPost w.trace ctx dcId volumeId) :=
  ⟨createDc_twoPhase s ctx name loc w, createLan_twoPhase s ctx dcId lanPost w,
    createServer_twoPhase s ctx dcId server w, createSnapshot_twoPhase t ctx dcId volumeId w⟩

/-! ### Properties that the steps never destroy -/

theorem M.keeps_pure {α : Type} (I : World → Prop) (a : α) : M.Keeps I (pure a : M α) :=
  ⟨fun _ h => h⟩

theorem M.keeps_bind {α β : Type} (I : World → Prop) (m : M α) (f : α → M β)
    (hm : M.Keeps I m) (hf : ∀ a, M.Keeps I (f a)) : M.Keeps I (m >>= f) := by
  constructor
  intro w hw
  rw [M.run_bind]
  have h1 := hm.keep w hw
  rcases hr : m.run w with ⟨r, w1⟩
  rw [hr] at h1
  cases r with
  | ok a => exact (hf a).keep w1 h1
  | panic msg => exact h1

theorem M.keeps_liftR {α : Type} (I : World → Prop) (r : Result α) : M.Keeps I (liftR r) :=
  ⟨fun _ h => h⟩

theorem M.keeps_stateGet (I : World → Prop) (k : String) : M.Keeps I (stateGet k) :=
  ⟨fun _ h => h⟩

theorem M.keeps_stateGetOk (I : World → Prop) (k : String) : M.Keeps I (stateGetOk k) :=
  ⟨fun _ h => h⟩

theorem M.keeps_readConfig (I : World → Prop) : M.Keeps I readConfig :=
  ⟨fun _ h => h⟩

theorem M.keeps_perform {α : Type} (I : World → Prop)
    (hI : ∀ w tr, I w → I { w with trace := tr }) (e : Event) (answer : List Event → α) :
    M.Keeps I (perform e answer) :=
  ⟨fun w h => hI w _ h⟩

theorem M.keeps_Say (I : World → Prop) (hI : ∀ w tr, I w → I { w with trace := tr }) (u : Ui)
    (msg : String) : M.Keeps I (u.Say msg) :=
  ⟨fun w h => hI w _ h⟩

theorem M.keeps_Error (I : World → Prop) (hI : ∀ w tr, I w → I { w with trace := tr }) (u : Ui)
    (msg : String) : M.Keeps I (u.Error msg) :=
  ⟨fun w h => hI w _ h⟩

theorem M.keeps_logPrintf (I : World → Prop) (hI : ∀ w tr, I w → I { w with trace := tr })
    (msg : String) : M.Keeps I (logPrintf msg) :=
  ⟨fun w h => hI w _ h⟩

theorem M.keeps_statePut (I : World → Prop) (k : String) (v : Value)
    (hI : ∀ w, I w → I { w with bag := w.bag.Put k v }) : M.Keeps I (statePut k v) :=
  ⟨fun w h => hI w h⟩

theorem getImageId_keeps (I : World → Prop) (hI : ∀ w tr, I w → I { w with trace := tr })
    (X : Externals) (s : stepCreateServer) (imageName : String) (c : Config) :
    M.Keeps I (s.getImageId X imageName c) := by
  unfold stepCreateServer.getImageId
  repeat' first
    | exact M.keeps_perform I hI _ _
    | apply M.keeps_bind
    | apply M.keeps_pure
    | apply M.keeps_liftR
    | split
    | intro _

theorem waitForRequestToBeDone_keeps (I : World → Prop)
    (hT : ∀ w tr, I w → I { w with trace := tr }) (s : stepCreateServer) (ctx : Context)
    (path : String) : M.Keeps I (s.waitForRequestToBeDone ctx path) := by
  unfold stepCreateServer.waitForRequestToBeDone
  repeat' first
    | exact M.keeps_perform I hT _ _
    | exact M.keeps_logPrintf I hT _
    | apply M.keeps_bind
    | apply M.keeps_pure
    | split
    | intro _

theorem createDc_keeps (I : World → Prop) (hT : ∀ w tr, I w → I { w with trace := tr })
    (s : stepCreateServer) (ctx : Context) (name loc : String) :
    M.Keeps I (s.createDcAndWaitUntilDone ctx name loc) := by
  unfold stepCreateServer.createDcAndWaitUntilDone stepCreateServer.createDatacenter
  repeat' first
    | exact M.keeps_perform I hT _ _
    | exact waitForRequestToBeDone_keeps I hT _ _ _
    | apply M.keeps_bind
    | apply M.keeps_pure
    | split
    | intro _
    | dsimp only

theorem createLan_keeps (I : World → Prop) (hT : ∀ w tr, I w → I { w with trace := tr })
    (s : stepCreateServer) (ctx : Context) (dcId : String) (lanPost : LanPost) :
    M.Keeps I (s.createLanAndWaitUntilDone ctx dcId lanPost) := by
  unfold stepCreateServer.createLanAndWaitUntilDone
  repeat' first
    | exact M.keeps_perform I hT _ _
    | exact waitForRequestToBeDone_keeps I hT _ _ _
    | apply M.keeps_bind
    | apply M.keeps_pure
    | split
    | intro _
    | dsimp only

theorem createServer_keeps (I : World → Prop) (hT : ∀ w tr, I w → I { w with trace := tr })
    (s : stepCreateServer) (ctx : Context) (dcId : String) (server : Server) :
    M.Keeps I (s.createServerAndWaitUntilDone ctx dcId server) := by
  unfold stepCreateServer.createServerAndWaitUntilDone stepCreateServer.createServer
  repeat' first
    | exact M.keeps_perform I hT _ _
    | exact waitForRequestToBeDone_keeps I hT _ _ _
    | apply M.keeps_bind
    | apply M.keeps_pure
    | split
    | intro _
    | dsimp only

theorem findServerById_keeps (I : World → Prop) (hT : ∀ w tr, I w → I { w with trace := tr })
    (s : stepCreateServer) (ctx : Context) (dcId serverID : String) :
    M.Keeps I (s.findServerById ctx dcId serverID) := by
  unfold stepCreateServer.findServerById
  repeat' first
    | exact M.keeps_perform I hT _ _
    | apply M.keeps_bind
    | apply M.keeps_pure
    | split
    | intro _

/-- The second half of `Run` keeps every property of the world that does not depend on the
transcript nor on the keys `volume_id`, `instance_id` and `server_ip`. -/
theorem afterDatacenter_keeps (I : World → Prop) (hT : ∀ w tr, I w → I { w with trace := tr })
    (hP : ∀ w k v, k = "volume_id" ∨ k = "instance_id" ∨ k = "server_ip" → I w →
      I { w with bag := w.bag.Put k v })
    (s : stepCreateServer) (ctx : Context) (ui : Ui) (c : Config) (props : VolumeProperties)
    (nicProperties : NicProperties) (dcId : String) :
    M.Keeps I (stepCreateServer.Run.afterDatacenter s ctx ui c props nicProperties dcId) := by
  unfold stepCreateServer.Run.afterDatacenter
  repeat' first
    | exact M.keeps_Say I hT _ _
    | exact M.keeps_Error I hT _ _
    | exact createLan_keeps I hT _ _ _ _
    | exact createServer_keeps I hT _ _ _ _
    | exact findServerById_keeps I hT _ _ _ _
    | exact M.keeps_statePut I _ _ (fun w h => hP w _ _ (by simp) h)
    | apply M.keeps_bind
    | apply M.keeps_pure
    | apply M.keeps_liftR
    | split
    | intro _

/-- The whole of `Run` keeps every property of the world that does not depend on the transcript
nor on the keys `datacenter_id`, `volume_id`, `instance_id` and `server_ip`. -/
theorem stepCreateServer_Run_keeps (I : World → Prop)
    (hT : ∀ w tr, I w → I { w with trace := tr })
    (hP : ∀ w k v, k = "datacenter_id" ∨ k = "volume_id" ∨ k = "instance_id" ∨ k = "server_ip" →
      I w → I { w with bag := w.bag.Put k v })
    (X : Externals) (s : stepCreateServer) (ctx : Context) :
    M.Keeps I (s.Run X ctx) := by
  unfold stepCreateServer.Run
  repeat' first
    | exact M.keeps_Say I hT _ _
    | exact M.keeps_Error I hT _ _
    | exact getImageId_keeps I hT _ _ _ _
    | exact createDc_keeps I hT _ _ _ _
    | exact afterDatacenter_keeps I hT (fun w k v hk => hP w k v (Or.inr hk)) _ _ _ _ _ _ _
    | exact M.keeps_statePut I _ _ (fun w h => hP w _ _ (by simp) h)
    | apply M.keeps_bind
    | apply M.keeps_pure
    | apply M.keeps_liftR
    | apply M.keeps_stateGet
    | apply M.keeps_readConfig
    | split
    | intro _

/-! ### The state bag -/

theorem StateBag.GetOk_Put_self (b : StateBag) (k : String) (v : Value) :
    (b.Put k v).GetOk k = some v := by
  simp [StateBag.Put, StateBag.GetOk, List.lookup]

theorem StateBag.lookup_filter_ne (k k1 : String) (h : k ≠ k1) :
    ∀ (b : StateBag), List.lookup k (b.filter (fun e => e.1 != k1)) = List.lookup k b := by
  intro b
  induction b with
  | nil => rfl
  | cons e b ih =>
    obtain ⟨k2, v2⟩ := e
    by_cases h2 : k2 = k1
    · subst h2
      have hne : (k == k2) = false := by simpa using h
      simp [List.filter, List.lookup, hne, ih]
    · have hb : (k2 != k1) = true := by simpa using h2
      simp only [List.filter, hb, List.lookup]
      cases (k == k2) <;> simp [ih]

theorem StateBag.GetOk_Put_ne (b : StateBag) (k k1 : String) (v : Value) (h : k ≠ k1) :
    (b.Put k1 v).GetOk k = b.GetOk k := by
  have hne : (k == k1) = false := by simpa using h
  simp [StateBag.Put, StateBag.GetOk, List.lookup, hne, StateBag.lookup_filter_ne k k1 h b]

/-! ### The run of the server step -/

theorem getImageId_bag (X : Externals) (s : stepCreateServer) (imageName : String) (c : Config)
    (w : World) : ((s.getImageId X imageName c).run w).2.bag = w.bag :=
  (getImageId_keeps (fun w1 => w1.bag = w.bag) (fun _ _ h => h) X s imageName c).keep w rfl

theorem createDc_bag (s : stepCreateServer) (ctx : Context) (name loc : String) (w : World) :
    ((s.createDcAndWaitUntilDone ctx name loc).run w).2.bag = w.bag :=
  (createDc_keeps (fun w1 => w1.bag = w.bag) (fun _ _ h => h) s ctx name loc).keep w rfl

theorem Run_image_error (X : Externals) (s : stepCreateServer) (ctx : Context) (w : World)
    (u : Ui) (hu : w.bag.Get "ui" = Value.ui u) (hc : w.bag.Get "config" = Value.config)
    (e : GoError) (w2 : World)
    (himg : (s.getImageId X w.config.Image w.config).run
      { w with trace := w.trace ++ [Event.Say "Creating Virtual Data Center..."] } =
        (Result.ok (Except.error e), w2)) :
    (s.Run X ctx).run w =
      (Result.ok StepAction.ActionHalt,
        { w2 with trace := w2.trace ++
          [Event.Error ("Error occurred while getting image " ++ e.msg)] }) := by
  simp [stepCreateServer.Run, M.run_bind, M.run_stateGet, M.run_liftR, hu, hc, Value.assertUi,
    Value.assertConfig, M.run_readConfig, M.run_Say, himg, M.run_Error, M.run_pure]

theorem Run_dc_error (X : Externals) (s : stepCreateServer) (ctx : Context) (w : World)
    (u : Ui) (hu : w.bag.Get "ui" = Value.ui u) (hc : w.bag.Get "config" = Value.config)
    (img : String) (w2 : World) (e : GoError) (w3 : World)
    (himg : (s.getImageId X w.config.Image w.config).run
      { w with trace := w.trace ++ [Event.Say "Creating Virtual Data Center..."] } =
        (Result.ok (Except.ok img), w2))
    (hdc : (s.createDcAndWaitUntilDone ctx w.config.SnapshotName w.config.Region).run w2 =
      (Result.ok (Except.error e), w3)) :
    (s.Run X ctx).run w =
      (Result.ok StepAction.ActionHalt,
        { w3 with trace := w3.trace ++
          [Event.Error ("Error occurred while creating a datacenter " ++ e.msg)] }) := by
  simp [stepCreateServer.Run, M.run_bind, M.run_stateGet, M.run_liftR, hu, hc, Value.assertUi,
    Value.assertConfig, M.run_readConfig, M.run_Say, himg, hdc, M.run_Error, M.run_pure]

theorem Run_dc_ok (X : Externals) (s : stepCreateServer) (ctx : Context) (w : World)
    (u : Ui) (hu : w.bag.Get "ui" = Value.ui u) (hc : w.bag.Get "config" = Value.config)
    (img : String) (w2 : World) (dc : Datacenter) (w3 : World) (id : String)
    (himg : (s.getImageId X w.config.Image w.config).run
      { w with trace := w.trace ++ [Event.Say "Creating Virtual Data Center..."] } =
        (Result.ok (Except.ok img), w2))
    (hdc : (s.createDcAndWaitUntilDone ctx w.config.SnapshotName w.config.Region).run w2 =
      (Result.ok (Except.ok dc), w3))
    (hid : dc.Id = some id) :
    (s.Run X ctx).run w =
      (stepCreateServer.Run.afterDatacenter s ctx u w.config
        (stepCreateServer.Run.props w.config img) (stepCreateServer.Run.nicProperties w.config)
        id).run { w3 with bag := w3.bag.Put "datacenter_id" (Value.str id) } := by
  simp [stepCreateServer.Run, M.run_bind, M.run_stateGet, M.run_liftR, hu, hc, Value.assertUi,
    Value.assertConfig, M.run_readConfig, M.run_Say, himg, hdc, M.run_statePut, deref, hid]


theorem Result.ok_bind {α β : Type} (a : α) (f : α → Result β) : (Result.ok a >>= f) = f a := rfl

theorem Result.panic_bind {α β : Type} (m : String) (f : α → Result β) :
    (Result.panic m >>= f) = Result.panic m := rfl

theorem Result.pure_eq {α : Type} (a : α) : (pure a : Result α) = Result.ok a := rfl

theorem afterDatacenter_lan_error (s : stepCreateServer) (ctx : Context) (u : Ui) (c : Config)
    (props : VolumeProperties) (nic : NicProperties) (id : String) (w e w5)
    (hlan : (s.createLanAndWaitUntilDone ctx id
        { Id := none, Properties := some { Public := some true, Name := some c.SnapshotName } }).run
        { w with trace := w.trace ++ [Event.Say "Creating LAN..."] } =
          (Result.ok (Except.error e), w5)) :
    ((stepCreateServer.Run.afterDatacenter s ctx u c props nic id).run w).1 =
      Result.ok StepAction.ActionHalt := by
  simp [stepCreateServer.Run.afterDatacenter, M.run_bind, M.run_Say, hlan, M.run_Error,
    M.run_pure]

theorem afterDatacenter_atoi_error (s : stepCreateServer) (ctx : Context) (u : Ui) (c : Config)
    (props : VolumeProperties) (nic : NicProperties) (id : String) (w lan w5 lid e)
    (hlan : (s.createLanAndWaitUntilDone ctx id
        { Id := none, Properties := some { Public := some true, Name := some c.SnapshotName } }).run
        { w with trace := w.trace ++ [Event.Say "Creating LAN..."] } =
          (Result.ok (Except.ok lan), w5))
    (hlid : lan.Id = some lid) (hatoi : strconvAtoi lid = Except.error e) :
    ((stepCreateServer.Run.afterDatacenter s ctx u c props nic id).run w).1 =
      Result.ok StepAction.ActionHalt := by
  simp [stepCreateServer.Run.afterDatacenter, M.run_bind, M.run_Say, hlan, M.run_Error,
    M.run_pure, M.run_liftR, deref, hlid, hatoi]

theorem afterDatacenter_server_error (s : stepCreateServer) (ctx : Context) (u : Ui)
    (c : Config) (props : VolumeProperties) (nic : NicProperties) (id : String)
    (w lan w5 lid n e w7)
    (hlan : (s.createLanAndWaitUntilDone ctx id
        { Id := none, Properties := some { Public := some true, Name := some c.SnapshotName } }).run
        { w with trace := w.trace ++ [Event.Say "Creating LAN..."] } =
          (Result.ok (Except.ok lan), w5))
    (hlid : lan.Id = some lid) (hatoi : strconvAtoi lid = Except.ok n)
    (hsrv : (s.createServerAndWaitUntilDone ctx id
        (stepCreateServer.serverReq c props { nic with Lan := some (toInt32 n) })).run
        { w5 with trace := w5.trace ++ [Event.Say "Creating Server..."] } =
          (Result.ok (Except.error e), w7)) :
    ((stepCreateServer.Run.afterDatacenter s ctx u c props nic id).run w).1 =
      Result.ok StepAction.ActionHalt := by
  simp [stepCreateServer.Run.afterDatacenter, M.run_bind, M.run_Say, hlan, M.run_Error,
    M.run_pure, M.run_liftR, deref, hlid, hatoi, hsrv]

theorem afterDatacenter_find_error (s : stepCreateServer) (ctx : Context) (u : Ui)
    (c : Config) (props : VolumeProperties) (nic : NicProperties) (id : String)
    (w lan w5 lid n server w7 entities attached volume volumes vid sid e w9)
    (hlan : (s.createLanAndWaitUntilDone ctx id
        { Id := none, Properties := some { Public := some true, Name := some c.SnapshotName } }).run
        { w with trace := w.trace ++ [Event.Say "Creating LAN..."] } =
          (Result.ok (Except.ok lan), w5))
    (hlid : lan.Id = some lid) (hatoi : strconvAtoi lid = Except.ok n)
    (hsrv : (s.createServerAndWaitUntilDone ctx id
        (stepCreateServer.serverReq c props { nic with Lan := some (toInt32 n) })).run
        { w5 with trace := w5.trace ++ [Event.Say "Creating Server..."] } =
          (Result.ok (Except.ok server), w7))
    (hent : server.Entities = some entities) (hvol : entities.Volumes = some attached)
    (hitems : attached.Items = some (volume :: volumes)) (hvid : volume.Id = some vid)
    (hsid : server.Id = some sid)
    (hfind : (s.findServerById ctx id sid).run
        { w7 with bag := w7.bag.Put "volume_id" (Value.str vid) } =
          (Result.ok (Except.error e), w9)) :
    ((stepCreateServer.Run.afterDatacenter s ctx u c props nic id).run w).1 =
      Result.ok StepAction.ActionHalt := by
  simp [stepCreateServer.Run.afterDatacenter, M.run_bind, M.run_Say, hlan, M.run_Error,
    M.run_pure, M.run_liftR, deref, hlid, hatoi, hsrv, hent, hvol, hitems, hvid, hsid, index,
    Result.ok_bind, M.run_statePut, hfind]

theorem StateBag.Get_Put_ne (b : StateBag) (k k1 : String) (v : Value) (h : k ≠ k1) :
    (b.Put k1 v).Get k = b.Get k := by
  have h1 := StateBag.GetOk_Put_ne b k k1 v h
  simp only [StateBag.GetOk] at h1
  simp only [StateBag.Get, h1]

theorem Cleanup_delete_calls (s : stepCreateServer) (w : World) (u : Ui) (id : String)
    (hu : w.bag.Get "ui" = Value.ui u)
    (hv : w.bag.GetOk "datacenter_id" = some (Value.str id)) :
    (s.Cleanup.events w).filter Event.isDatacentersDelete =
      [Event.DatacentersDelete Context.Background id] := by
  rw [events_of_run _ _ _ _ (Cleanup_run_present s w u id hu hv)]
  cases hd : (s.client.DatacentersDelete
      (w.trace ++ [Event.Say "Removing Virtual Data Center..."]) Context.Background id).2 with
  | some e => simp [Event.isDatacentersDelete]
  | none =>
    cases hw : (s.client.WaitForDeletion
        (w.trace ++ [Event.Say "Removing Virtual Data Center...",
          Event.DatacentersDelete Context.Background id]) Context.Background id) with
    | mk deleted err =>
      cases deleted <;> cases err <;> simp [Event.isDatacentersDelete]

/-- C4: in `Run` of the server step, started on a state bag that holds the UI and the
configuration. If the image lookup or the datacenter creation (submit, handle, poll) fails, `Run`
returns `ActionHalt` and leaves the state bag as it was, so no `datacenter_id` is recorded. If
the datacenter `dc` with identifier `id` was created and its poll succeeded, the state bag holds
`id` under `datacenter_id` when `Run` ends, however it ends, and a following `Cleanup` issues
exactly one delete call, for `id`; and `Run` returns `ActionHalt` when afterwards the LAN
creation fails, the LAN identifier is not an integer, the server creation fails, or the server
cannot be fetched again. -/
theorem Run_records_datacenter_before_later_failure (X : Externals) (s : stepCreateServer)
    (ctx : Context) (w : World) (u : Ui) (hu : w.bag.Get "ui" = Value.ui u)
    (hc : w.bag.Get "config" = Value.config) :
    (∀ e w2,
      (s.getImageId X w.config.Image w.config).run
        { w with trace := w.trace ++ [Event.Say "Creating Virtual Data Center..."] } =
          (Result.ok (Except.error e), w2) →
      ((s.Run X ctx).run w).1 = Result.ok StepAction.ActionHalt ∧
        ((s.Run X ctx).run w).2.bag = w.bag) ∧
    (∀ img w2 e w3,
      (s.getImageId X w.config.Image w.config).run
        { w with trace := w.trace ++ [Event.Say "Creating Virtual Data Center..."] } =
          (Result.ok (Except.ok img), w2) →
      (s.createDcAndWaitUntilDone ctx w.config.SnapshotName w.config.Region).run w2 =
        (Result.ok (Except.error e), w3) →
      ((s.Run X ctx).run w).1 = Result.ok StepAction.ActionHalt ∧
        ((s.Run X ctx).run w).2.bag = w.bag) ∧
    (∀ img w2 dc w3 id,
      (s.getImageId X w.config.Image w.config).run
        { w with trace := w.trace ++ [Event.Say "Creating Virtual Data Center..."] } =
          (Result.ok (Except.ok img), w2) →
      (s.createDcAndWaitUntilDone ctx w.config.SnapshotName w.config.Region).run w2 =
        (Result.ok (Except.ok dc), w3) →
      dc.Id = some id →
      ((s.Run X ctx).run w).2.bag.GetOk "datacenter_id" = some (Value.str id) ∧
      (s.Cleanup.events ((s.Run X ctx).run w).2).filter Event.isDatacentersDelete =
        [Event.DatacentersDelete Context.Background id] ∧
      (∀ e w5,
        (s.createLanAndWaitUntilDone ctx id
          { Id := none,
            Properties := some { Public := some true, Name := some w.config.SnapshotName } }).run
          { bag := w3.bag.Put "datacenter_id" (Value.str id), config := w3.config,
            trace := w3.trace ++ [Event.Say "Creating LAN..."] } =
            (Result.ok (Except.error e), w5) →
        ((s.Run X ctx).run w).1 = Result.ok StepAction.ActionHalt) ∧
      (∀ lan w5 lid,
        (s.createLanAndWaitUntilDone ctx id
          { Id := none,
            Properties := some { Public := some true, Name := some w.config.SnapshotName } }).run
          { bag := w3.bag.Put "datacenter_id" (Value.str id), config := w3.config,
            trace := w3.trace ++ [Event.Say "Creating LAN..."] } =
            (Result.ok (Except.ok lan), w5) →
        lan.Id = some lid →
        (∀ e, strconvAtoi lid = Except.error e →
          ((s.Run X ctx).run w).1 = Result.ok StepAction.ActionHalt) ∧
        (∀ n, strconvAtoi lid = Except.ok n →
          (∀ e w7,
            (s.createServerAndWaitUntilDone ctx id
              (stepCreateServer.serverReq w.config (stepCreateServer.Run.props w.config img)
                { stepCreateServer.Run.nicProperties w.config with
                  Lan := some (toInt32 n) })).run
              { w5 with trace := w5.trace ++ [Event.Say "Creating Server..."] } =
                (Result.ok (Except.error e), w7) →
            ((s.Run X ctx).run w).1 = Result.ok StepAction.ActionHalt) ∧
          (∀ server w7 entities attached volume volumes vid sid e w9,
            (s.createServerAndWaitUntilDone ctx id
              (stepCreateServer.serverReq w.config (stepCreateServer.Run.props w.config img)
                { stepCreateServer.Run.nicProperties w.config with
                  Lan := some (toInt32 n) })).run
              { w5 with trace := w5.trace ++ [Event.Say "Creating Server..."] } =
                (Result.ok (Except.ok server), w7) →
            server.Entities = some entities → entities.Volumes = some attached →
            attached.Items = some (volume :: volumes) → volume.Id = some vid →
            server.Id = some sid →
            (s.findServerById ctx id sid).run
              { w7 with bag := w7.bag.Put "volume_id" (Value.str vid) } =
                (Result.ok (Except.error e), w9) →
            ((s.Run X ctx).run w).1 = Result.ok StepAction.ActionHalt)))) := by
  refine ⟨?_, ?_, ?_⟩
  · intro e w2 himg
    have hb := getImageId_bag X s w.config.Image w.config
      { w with trace := w.trace ++ [Event.Say "Creating Virtual Data Center..."] }
    rw [himg] at hb
    rw [Run_image_error X s ctx w u hu hc e w2 himg]
    exact ⟨rfl, hb⟩
  · intro img w2 e w3 himg hdc
    have hb := getImageId_bag X s w.config.Image w.config
      { w with trace := w.trace ++ [Event.Say "Creating Virtual Data Center..."] }
    rw [himg] at hb
    have hb2 := createDc_bag s ctx w.config.SnapshotName w.config.Region w2
    rw [hdc] at hb2
    rw [Run_dc_error X s ctx w u hu hc img w2 e w3 himg hdc]
    exact ⟨rfl, hb2.trans hb⟩
  · intro img w2 dc w3 id himg hdc hid
    have hb := getImageId_bag X s w.config.Image w.config
      { w with trace := w.trace ++ [Event.Say "Creating Virtual Data Center..."] }
    rw [himg] at hb
    have hb2 := createDc_bag s ctx w.config.SnapshotName w.config.Region w2
    rw [hdc] at hb2
    rw [Run_dc_ok X s ctx w u hu hc img w2 dc w3 id himg hdc hid]
    have hkeep := (afterDatacenter_keeps
      (fun w1 => w1.bag.GetOk "datacenter_id" = some (Value.str id) ∧
        w1.bag.Get "ui" = Value.ui u)
      (fun _ _ h => h)
      (fun w1 k v hk h => by
        have hk1 : ("datacenter_id" : String) ≠ k := by
          rcases hk with rfl | rfl | rfl <;> decide
        have hk2 : ("ui" : String) ≠ k := by
          rcases hk with rfl | rfl | rfl <;> decide
        exact ⟨by simpa [StateBag.GetOk_Put_ne _ _ _ _ hk1] using h.1,
          by simpa [StateBag.Get_Put_ne _ _ _ _ hk2] using h.2⟩)
      s ctx u w.config (stepCreateServer.Run.props w.config img)
      (stepCreateServer.Run.nicProperties w.config) id).keep
      { w3 with bag := w3.bag.Put "datacenter_id" (Value.str id) }
      ⟨StateBag.GetOk_Put_self _ _ _, by
        show (w3.bag.Put "datacenter_id" (Value.str id)).Get "ui" = Value.ui u
        rw [StateBag.Get_Put_ne _ _ _ _ (by decide), hb2, hb, hu]⟩
    refine ⟨hkeep.1, Cleanup_delete_calls s _ u id hkeep.2 hkeep.1, ?_, ?_⟩
    · intro e w5 hlan
      exact afterDatacenter_lan_error s ctx u w.config _ _ id _ e w5 hlan
    · intro lan w5 lid hlan hlid
      refine ⟨?_, ?_⟩
      · intro e hatoi
        exact afterDatacenter_atoi_error s ctx u w.config _ _ id _ lan w5 lid e hlan hlid hatoi
      · intro n hatoi
        refine ⟨?_, ?_⟩
        · intro e w7 hsrv
          exact afterDatacenter_server_error s ctx u w.config _ _ id _ lan w5 lid n e w7 hlan
            hlid hatoi hsrv
        · intro server w7 entities attached volume volumes vid sid e w9 hsrv hent hvol hitems
            hvid hsid hfind
          exact afterDatacenter_find_error s ctx u w.config _ _ id _ lan w5 lid n server w7
            entities attached volume volumes vid sid e w9 hlan hlid hatoi hsrv hent hvol hitems
            hvid hsid hfind


/-! ### The run of the snapshot step -/

theorem M.keeps_event {α : Type} (I : World → Prop) (e : Event) (answer : List Event → α)
    (hE : ∀ w, I w → I { w with trace := w.trace ++ [e] }) : M.Keeps I (perform e answer) :=
  ⟨fun w h => hE w h⟩

theorem M.keeps_Say_event (I : World → Prop) (u : Ui) (msg : String)
    (hE : ∀ w, I w → I { w with trace := w.trace ++ [Event.Say msg] }) :
    M.Keeps I (u.Say msg) :=
  ⟨fun w h => hE w h⟩

theorem M.keeps_Error_event (I : World → Prop) (u : Ui) (msg : String)
    (hE : ∀ w, I w → I { w with trace := w.trace ++ [Event.Error msg] }) :
    M.Keeps I (u.Error msg) :=
  ⟨fun w h => hE w h⟩

theorem M.keeps_logPrintf_event (I : World → Prop) (msg : String)
    (hE : ∀ w, I w → I { w with trace := w.trace ++ [Event.Log msg] }) :
    M.Keeps I (logPrintf msg) :=
  ⟨fun w h => hE w h⟩

/-- The events that `getOs` adds are no command starts and no create-snapshot requests. -/
theorem getOs_keeps (I : World → Prop)
    (hE : ∀ e : Event, e.isCommStart = false → e.isCreateSnapshotPost = false →
      ∀ w, I w → I { w with trace := w.trace ++ [e] })
    (s : stepTakeSnapshot) (ctx : Context) (dcId serverId : String) :
    M.Keeps I (s.getOs ctx dcId serverId) := by
  unfold stepTakeSnapshot.getOs
  repeat' first
    | exact M.keeps_event I _ _ (hE _ rfl rfl)
    | apply M.keeps_bind
    | apply M.keeps_pure
    | apply M.keeps_liftR
    | split
    | intro _

theorem snapshot_waitForRequestToBeDone_keeps (I : World → Prop)
    (hE : ∀ e : Event, e.isCommStart = false → ∀ w, I w → I { w with trace := w.trace ++ [e] })
    (s : stepTakeSnapshot) (ctx : Context) (path : String) :
    M.Keeps I (s.waitForRequestToBeDone ctx path) := by
  unfold stepTakeSnapshot.waitForRequestToBeDone
  repeat' first
    | exact M.keeps_event I _ _ (hE _ rfl)
    | exact M.keeps_logPrintf_event I _ (hE _ rfl)
    | apply M.keeps_bind
    | apply M.keeps_pure
    | split
    | intro _

theorem waitTillSnapshotAvailable_keeps (I : World → Prop)
    (hE : ∀ e : Event, e.isCommStart = false → ∀ w, I w → I { w with trace := w.trace ++ [e] })
    (s : stepTakeSnapshot) (id : String) (ui : Ui) :
    M.Keeps I (s.waitTillSnapshotAvailable id ui) := by
  unfold stepTakeSnapshot.waitTillSnapshotAvailable
  repeat' first
    | exact M.keeps_event I _ _ (hE _ rfl)
    | exact M.keeps_Say_event I _ _ (hE _ rfl)
    | apply M.keeps_bind
    | apply M.keeps_pure
    | split
    | intro _

theorem M.bind_assoc {α β γ : Type} (m : M α) (f : α → M β) (g : β → M γ) :
    (m >>= f) >>= g = m >>= fun a => f a >>= g := by
  funext w
  show ((m >>= f) >>= g).run w = (m >>= fun a => f a >>= g).run w
  simp only [M.run_bind]
  rcases m.run w with ⟨r, w1⟩
  cases r <;> rfl

theorem M.run_bind_perform {α β : Type} (e : Event) (answer : List Event → α) (f : α → M β)
    (w : World) :
    (perform e answer >>= f).run w =
      (f (answer w.trace)).run { w with trace := w.trace ++ [e] } := rfl

theorem M.run_bind_Say {β : Type} (u : Ui) (msg : String) (f : Unit → M β) (w : World) :
    (u.Say msg >>= f).run w = (f ()).run { w with trace := w.trace ++ [Event.Say msg] } := rfl

/-- The second half of `Run` of the snapshot step first announces and submits the
create-snapshot request, and starts no command on the communicator. -/
theorem afterSync_trace (s : stepTakeSnapshot) (ctx : Context) (u : Ui) (c : Config)
    (dcId volumeId : String) (w : World) :
    ∃ rest, ((stepTakeSnapshot.Run.afterSync s ctx u c dcId volumeId).run w).2.trace =
        w.trace ++ (Event.Say ("Creating a snapshot for " ++ dcId ++ "/volumes/" ++ volumeId) ::
          Event.CreateSnapshotPost ctx dcId volumeId :: rest) ∧
      rest.filter Event.isCommStart = [] := by
  unfold stepTakeSnapshot.Run.afterSync stepTakeSnapshot.createSnapshot
  simp only [M.bind_assoc, M.run_bind_Say, M.run_bind_perform]
  refine (M.Keeps.keep (I := fun w1 => ∃ rest, w1.trace =
        w.trace ++ (Event.Say ("Creating a snapshot for " ++ dcId ++ "/volumes/" ++ volumeId) ::
          Event.CreateSnapshotPost ctx dcId volumeId :: rest) ∧
      rest.filter Event.isCommStart = []) ?_ _ ⟨[], by simp, rfl⟩)
  have hE : ∀ e : Event, e.isCommStart = false → ∀ w1 : World,
      (∃ rest, w1.trace =
        w.trace ++ (Event.Say ("Creating a snapshot for " ++ dcId ++ "/volumes/" ++ volumeId) ::
          Event.CreateSnapshotPost ctx dcId volumeId :: rest) ∧
        rest.filter Event.isCommStart = []) →
      ∃ rest, ({ w1 with trace := w1.trace ++ [e] } : World).trace =
        w.trace ++ (Event.Say ("Creating a snapshot for " ++ dcId ++ "/volumes/" ++ volumeId) ::
          Event.CreateSnapshotPost ctx dcId volumeId :: rest) ∧
        rest.filter Event.isCommStart = [] := by
    rintro e he w1 ⟨rest, h1, h2⟩
    exact ⟨rest ++ [e], by simp [h1], by simp [List.filter_append, h2, he]⟩
  repeat' first
    | exact M.keeps_Say_event _ _ _ (hE _ rfl)
    | exact M.keeps_Error_event _ _ _ (hE _ rfl)
    | exact snapshot_waitForRequestToBeDone_keeps _ hE _ _ _
    | exact waitTillSnapshotAvailable_keeps _ hE _ _ _
    | exact M.keeps_statePut _ _ _ (fun _ h => h)
    | apply M.keeps_bind
    | apply M.keeps_pure
    | apply M.keeps_liftR
    | split
    | intro _

theorem syncFs_run (X : Externals) (s : stepTakeSnapshot) (ctx : Context) (comm : Communicator)
    (w : World) :
    (s.syncFs X ctx comm).run w =
      (Result.ok
        (match (X.CommStart comm w.trace ctx { Command := "sync" }).1 with
          | some e => some e
          | none =>
            if (X.CommStart comm w.trace ctx { Command := "sync" }).2 ≠ 0 then
              some (fmtErrorf ("sync command exited with code " ++
                toString (X.CommStart comm w.trace ctx { Command := "sync" }).2))
            else none),
        { w with trace := w.trace ++ [Event.CommStart comm ctx { Command := "sync" }] }) := by
  rcases h : X.CommStart comm w.trace ctx { Command := "sync" } with ⟨err, exit⟩
  cases err with
  | some e => simp [stepTakeSnapshot.syncFs, M.run_bind, M.run_perform, M.run_pure, h]
  | none =>
    by_cases hx : exit = 0 <;>
      simp [stepTakeSnapshot.syncFs, M.run_bind, M.run_perform, M.run_pure, h, hx]

theorem getOs_trace (s : stepTakeSnapshot) (ctx : Context) (dcId serverId : String)
    (w : World) :
    ∃ new, ((s.getOs ctx dcId serverId).run w).2.trace = w.trace ++ new ∧
      new.filter Event.isCommStart = [] ∧ new.filter Event.isCreateSnapshotPost = [] := by
  refine (getOs_keeps (fun w1 => ∃ new, w1.trace = w.trace ++ new ∧
      new.filter Event.isCommStart = [] ∧ new.filter Event.isCreateSnapshotPost = [])
    ?_ s ctx dcId serverId).keep w ⟨[], by simp, rfl, rfl⟩
  rintro e he1 he2 w1 ⟨new, h1, h2, h3⟩
  exact ⟨new ++ [e], by simp [h1], by simp [List.filter_append, h2, he1],
    by simp [List.filter_append, h3, he2]⟩

theorem snapshot_Run_other (X : Externals) (s : stepTakeSnapshot) (ctx : Context) (w : World)
    (u : Ui) (d v i : String) (comm : Communicator) (os : String) (w2 : World)
    (hu : w.bag.Get "ui" = Value.ui u) (hc : w.bag.Get "config" = Value.config)
    (hd : w.bag.Get "datacenter_id" = Value.str d) (hv : w.bag.Get "volume_id" = Value.str v)
    (hi : w.bag.Get "instance_id" = Value.str i)
    (hcomm : w.bag.Get "communicator" = Value.communicator comm)
    (hos : (s.getOs ctx d i).run
      { w with trace := w.trace ++ [Event.Say "Creating IONOS snapshot..."] } =
        (Result.ok (Except.ok os), w2))
    (hl : stringsToLower X.unicodeToLower os ≠ "linux") :
    (s.Run X ctx).run w =
      (stepTakeSnapshot.Run.afterSync s ctx u w.config d v).run
        { w2 with trace := w2.trace ++ [Event.Say ("Server OS is " ++ os)] } := by
  simp [stepTakeSnapshot.Run, M.run_bind, M.run_stateGet, M.run_liftR, hu, hc, hd, hv, hi,
    hcomm, Value.assertUi, Value.assertConfig, Value.assertString, Value.asCommunicator,
    M.run_readConfig, M.run_Say, hos, hl, M.run_pure]

theorem snapshot_Run_linux (X : Externals) (s : stepTakeSnapshot) (ctx : Context) (w : World)
    (u : Ui) (d v i : String) (comm : Communicator) (os : String) (w2 : World)
    (hu : w.bag.Get "ui" = Value.ui u) (hc : w.bag.Get "config" = Value.config)
    (hd : w.bag.Get "datacenter_id" = Value.str d) (hv : w.bag.Get "volume_id" = Value.str v)
    (hi : w.bag.Get "instance_id" = Value.str i)
    (hcomm : w.bag.Get "communicator" = Value.communicator comm)
    (hos : (s.getOs ctx d i).run
      { w with trace := w.trace ++ [Event.Say "Creating IONOS snapshot..."] } =
        (Result.ok (Except.ok os), w2))
    (hl : stringsToLower X.unicodeToLower os = "linux") :
    (s.Run X ctx).run w =
      match (s.syncFs X ctx comm).run
          { w2 with trace := w2.trace ++ [Event.Say ("Server OS is " ++ os),
            Event.Say "syncing file system changes"] } with
      | (Result.ok (some err), w3) =>
        (Result.ok StepAction.ActionHalt,
          { w3 with trace := w3.trace ++
            [Event.Error ("error syncing fs changes: " ++ err.msg)] })
      | (Result.ok none, w3) => (stepTakeSnapshot.Run.afterSync s ctx u w.config d v).run w3
      | (Result.panic r, w3) => (Result.panic r, w3) := by
  simp only [stepTakeSnapshot.Run, M.run_bind, M.run_stateGet, M.run_liftR, hu, hc, hd, hv, hi,
    hcomm, Value.assertUi, Value.assertConfig, Value.assertString, Value.asCommunicator,
    M.run_readConfig, M.run_Say, hos, hl, M.run_pure, if_true, List.append_assoc,
    List.singleton_append]
  rcases (s.syncFs X ctx comm).run
      { bag := w2.bag, config := w2.config,
        trace := w2.trace ++ [Event.Say ("Server OS is " ++ os),
          Event.Say "syncing file system changes"] } with ⟨r, w3⟩
  cases r with
  | panic m => rfl
  | ok e => cases e <;> simp [M.run_bind, M.run_Error, M.run_pure]

theorem events_of_trace {α : Type} (m : M α) (w : World) (new : List Event)
    (h : (m.run w).2.trace = w.trace ++ new) : m.events w = new := by
  simp [M.events, h]

/-- C6: in `Run` of the snapshot step, started on a state bag that holds the UI, the
configuration, the three identifiers and a communicator, when `getOs` returns the family `os`.
If `os` lower-cased is `linux`, the sync command is started on the communicator, and no
create-snapshot request is submitted before it; if the command fails to start or exits with a
status other than zero, `Run` returns `ActionHalt` and no create-snapshot request is submitted at
all; if it starts and exits with zero, the create-snapshot request is submitted after it. If `os`
is any other family, the create-snapshot request is submitted and no command is started on the
communicator. -/
theorem Run_syncs_linux_before_snapshot (X : Externals) (s : stepTakeSnapshot) (ctx : Context)
    (w : World) (u : Ui) (d v i : String) (comm : Communicator) (os : String) (w2 : World)
    (hu : w.bag.Get "ui" = Value.ui u) (hc : w.bag.Get "config" = Value.config)
    (hd : w.bag.Get "datacenter_id" = Value.str d) (hv : w.bag.Get "volume_id" = Value.str v)
    (hi : w.bag.Get "instance_id" = Value.str i)
    (hcomm : w.bag.Get "communicator" = Value.communicator comm)
    (hos : (s.getOs ctx d i).run
      { w with trace := w.trace ++ [Event.Say "Creating IONOS snapshot..."] } =
        (Result.ok (Except.ok os), w2)) :
    (stringsToLower X.unicodeToLower os = "linux" →
      (∃ pre post, (s.Run X ctx).events w =
          pre ++ Event.CommStart comm ctx { Command := "sync" } :: post ∧
        pre.filter Event.isCreateSnapshotPost = [] ∧ pre.filter Event.isCommStart = []) ∧
      ((X.CommStart comm (w2.trace ++ [Event.Say ("Server OS is " ++ os),
            Event.Say "syncing file system changes"]) ctx { Command := "sync" }).1 ≠ none ∨
          (X.CommStart comm (w2.trace ++ [Event.Say ("Server OS is " ++ os),
            Event.Say "syncing file system changes"]) ctx { Command := "sync" }).2 ≠ 0 →
        ((s.Run X ctx).run w).1 = Result.ok StepAction.ActionHalt ∧
          ((s.Run X ctx).events w).filter Event.isCreateSnapshotPost = []) ∧
      ((X.CommStart comm (w2.trace ++ [Event.Say ("Server OS is " ++ os),
            Event.Say "syncing file system changes"]) ctx { Command := "sync" }).1 = none ∧
          (X.CommStart comm (w2.trace ++ [Event.Say ("Server OS is " ++ os),
            Event.Say "syncing file system changes"]) ctx { Command := "sync" }).2 = 0 →
        ∃ pre post, (s.Run X ctx).events w =
          pre ++ Event.CommStart comm ctx { Command := "sync" } ::
            Event.Say ("Creating a snapshot for " ++ d ++ "/volumes/" ++ v) ::
            Event.CreateSnapshotPost ctx d v :: post ∧
          pre.filter Event.isCreateSnapshotPost = [])) ∧
    (stringsToLower X.unicodeToLower os ≠ "linux" →
      ((s.Run X ctx).events w).filter Event.isCommStart = [] ∧
      ∃ pre post, (s.Run X ctx).events w = pre ++ Event.CreateSnapshotPost ctx d v :: post) := by
  obtain ⟨new, hnew, hnew1, hnew2⟩ := getOs_trace s ctx d i
    { w with trace := w.trace ++ [Event.Say "Creating IONOS snapshot..."] }
  rw [hos] at hnew
  simp only at hnew
  refine ⟨?_, ?_⟩
  · intro hl
    have hrun := snapshot_Run_linux X s ctx w u d v i comm os w2 hu hc hd hv hi hcomm hos hl
    rw [syncFs_run] at hrun
    rcases hq : X.CommStart comm (w2.trace ++ [Event.Say ("Server OS is " ++ os),
        Event.Say "syncing file system changes"]) ctx { Command := "sync" } with ⟨err, exit⟩
    rw [hq] at hrun
    cases err with
    | some e =>
      simp only at hrun
      have hev : (s.Run X ctx).events w =
          (Event.Say "Creating IONOS snapshot..." :: new ++ [Event.Say ("Server OS is " ++ os),
            Event.Say "syncing file system changes"]) ++
            Event.CommStart comm ctx { Command := "sync" } ::
            [Event.Error ("error syncing fs changes: " ++ e.msg)] := by
        apply events_of_trace
        rw [hrun]
        simp [hnew]
      refine ⟨⟨_, _, hev, ?_, ?_⟩, ?_, ?_⟩
      · simp [List.filter_append, hnew2, Event.isCreateSnapshotPost]
      · simp [List.filter_append, hnew1, Event.isCommStart]
      · intro _
        refine ⟨by rw [hrun], ?_⟩
        rw [hev]
        simp [List.filter_append, hnew2, Event.isCreateSnapshotPost]
      · rintro ⟨h1, _⟩
        simp at h1
    | none =>
      by_cases hx : exit = 0
      · subst hx
        simp only [ne_eq, not_true_eq_false, if_false] at hrun
        obtain ⟨rest, hrest, _⟩ := afterSync_trace s ctx u w.config d v
          { w2 with trace := w2.trace ++ [Event.Say ("Server OS is " ++ os),
            Event.Say "syncing file system changes"] ++
            [Event.CommStart comm ctx { Command := "sync" }] }
        rw [← hrun] at hrest
        have hev : (s.Run X ctx).events w =
            (Event.Say "Creating IONOS snapshot..." :: new ++
              [Event.Say ("Server OS is " ++ os), Event.Say "syncing file system changes"]) ++
              Event.CommStart comm ctx { Command := "sync" } ::
              Event.Say ("Creating a snapshot for " ++ d ++ "/volumes/" ++ v) ::
              Event.CreateSnapshotPost ctx d v :: rest := by
          apply events_of_trace
          rw [hrest]
          simp [hnew]
        refine ⟨⟨_, _, hev, ?_, ?_⟩, ?_, ?_⟩
        · simp [List.filter_append, hnew2, Event.isCreateSnapshotPost]
        · simp [List.filter_append, hnew1, Event.isCommStart]
        · rintro (h1 | h1)
          · simp at h1
          · simp at h1
        · intro _
          exact ⟨_, _, hev, by simp [List.filter_append, hnew2, Event.isCreateSnapshotPost]⟩
      · simp only [ne_eq, hx, not_false_eq_true, if_true] at hrun
        have hev : (s.Run X ctx).events w =
            (Event.Say "Creating IONOS snapshot..." :: new ++
              [Event.Say ("Server OS is " ++ os), Event.Say "syncing file system changes"]) ++
              Event.CommStart comm ctx { Command := "sync" } ::
              [Event.Error ("error syncing fs changes: " ++
                (fmtErrorf ("sync command exited with code " ++ toString exit)).msg)] := by
          apply events_of_trace
          rw [hrun]
          simp [hnew]
        refine ⟨⟨_, _, hev, ?_, ?_⟩, ?_, ?_⟩
        · simp [List.filter_append, hnew2, Event.isCreateSnapshotPost]
        · simp [List.filter_append, hnew1, Event.isCommStart]
        · intro _
          refine ⟨by rw [hrun], ?_⟩
          rw [hev]
          simp [List.filter_append, hnew2, Event.isCreateSnapshotPost]
        · rintro ⟨_, h2⟩
          exact absurd h2 hx
  · intro hl
    have hrun := snapshot_Run_other X s ctx w u d v i comm os w2 hu hc hd hv hi hcomm hos hl
    obtain ⟨rest, hrest, hrest1⟩ := afterSync_trace s ctx u w.config d v
      { w2 with trace := w2.trace ++ [Event.Say ("Server OS is " ++ os)] }
    rw [← hrun] at hrest
    have hev : (s.Run X ctx).events w =
        (Event.Say "Creating IONOS snapshot..." :: new ++
          [Event.Say ("Server OS is " ++ os),
            Event.Say ("Creating a snapshot for " ++ d ++ "/volumes/" ++ v)]) ++
          Event.CreateSnapshotPost ctx d v :: rest := by
      apply events_of_trace
      rw [hrest]
      simp [hnew]
    refine ⟨?_, _, _, hev⟩
    rw [hev]
    simp [List.filter_append, hnew1, hrest1, Event.isCommStart]


theorem syncFs_keeps (I : World → Prop) (hT : ∀ w tr, I w → I { w with trace := tr })
    (X : Externals) (s : stepTakeSnapshot) (ctx : Context) (comm : Communicator) :
    M.Keeps I (s.syncFs X ctx comm) := by
  unfold stepTakeSnapshot.syncFs
  repeat' first
    | exact M.keeps_perform I hT _ _
    | apply M.keeps_bind
    | apply M.keeps_pure
    | split
    | intro _

theorem createSnapshot_keeps (I : World → Prop) (hT : ∀ w tr, I w → I { w with trace := tr })
    (s : stepTakeSnapshot) (ctx : Context) (dcId volumeId : String) :
    M.Keeps I (s.createSnapshot ctx dcId volumeId) := by
  unfold stepTakeSnapshot.createSnapshot
  repeat' first
    | exact M.keeps_perform I hT _ _
    | exact snapshot_waitForRequestToBeDone_keeps I (fun _ _ w h => hT w _ h) _ _ _
    | apply M.keeps_bind
    | apply M.keeps_pure
    | split
    | intro _
    | dsimp only

/-- The whole of `Run` of the snapshot step keeps every property of the world that does not
depend on the transcript nor on the key `snapshotname`. -/
theorem stepTakeSnapshot_Run_keeps (I : World → Prop)
    (hT : ∀ w tr, I w → I { w with trace := tr })
    (hP : ∀ w v, I w → I { w with bag := w.bag.Put "snapshotname" v })
    (X : Externals) (s : stepTakeSnapshot) (ctx : Context) :
    M.Keeps I (s.Run X ctx) := by
  unfold stepTakeSnapshot.Run stepTakeSnapshot.Run.afterSync
  repeat' first
    | exact M.keeps_Say I hT _ _
    | exact M.keeps_Error I hT _ _
    | exact getOs_keeps I (fun _ _ _ w h => hT w _ h) _ _ _ _
    | exact syncFs_keeps I hT _ _ _ _
    | exact createSnapshot_keeps I hT _ _ _ _
    | exact waitTillSnapshotAvailable_keeps I (fun _ _ w h => hT w _ h) _ _ _
    | exact M.keeps_statePut I _ _ (fun w h => hP w _ h)
    | apply M.keeps_bind
    | apply M.keeps_pure
    | apply M.keeps_liftR
    | apply M.keeps_stateGet
    | apply M.keeps_readConfig
    | split
    | intro _

/-- C2, as the code behaves: neither `Run` of the server step nor `Run` of the snapshot step
ever writes the key `error`, whatever failure they meet. So when the image listing fails in
transport, `Run` of the server step returns `ActionHalt` with no error in the state bag, and
`Builder.Run` returns an artifact and a nil error for the failed build. -/
theorem Run_never_records_error (X : Externals) (s : stepCreateServer) (t : stepTakeSnapshot)
    (ctx : Context) (w : World) :
    ((s.Run X ctx).run w).2.bag.GetOk "error" = w.bag.GetOk "error" ∧
    ((t.Run X ctx).run w).2.bag.GetOk "error" = w.bag.GetOk "error" ∧
    (((newStepCreateServer unreachableClient).Run asciiExternals buildContext).run
      scenarioWorld).1 = Result.ok StepAction.ActionHalt ∧
    (((newStepCreateServer unreachableClient).Run asciiExternals buildContext).run
      scenarioWorld).2.bag.GetOk "error" = none ∧
    (Builder.Run asciiExternals (simpleSdk unreachableClient) { config := scenarioConfig }
      buildContext { id := 0 } { id := 0 }).1 =
      Result.ok
        (some { snapshotData := "packer", StateData := [("generated_data", Value.nil)] },
          none) := by
  refine ⟨?_, ?_, rfl, rfl, rfl⟩
  · exact (stepCreateServer_Run_keeps (fun w1 => w1.bag.GetOk "error" = w.bag.GetOk "error")
      (fun _ _ h => h)
      (fun w1 k v hk h => by
        have hk1 : ("error" : String) ≠ k := by
          rcases hk with rfl | rfl | rfl | rfl <;> decide
        simpa [StateBag.GetOk_Put_ne _ _ _ _ hk1] using h)
      X s ctx).keep w rfl
  · exact (stepTakeSnapshot_Run_keeps (fun w1 => w1.bag.GetOk "error" = w.bag.GetOk "error")
      (fun _ _ h => h)
      (fun w1 v h => by
        simpa [StateBag.GetOk_Put_ne _ "error" "snapshotname" _ (by decide)] using h)
      X t ctx).keep w rfl


/-! ### The key step and the outcome of the build -/

/-- C9, as the code behaves: when the private key file is read but its contents fail to parse,
`Run` of the key step returns `ActionHalt` and leaves the configuration as it was, but it records
the message of the failure as a string under `error`, not the error itself. The type assertion of
`Builder.Run` panics on a string, so `Builder.Run` does not return the parse error. `Cleanup` of
the key step changes nothing. -/
theorem Run_malformed_key_records_string (X : Externals) (s : StepCreateSSHKey) (ctx : Context)
    (w : World) (u : Ui) (pem : String) (err : GoError)
    (hu : w.bag.Get "ui" = Value.ui u) (hc : w.bag.Get "config" = Value.config)
    (hfile : w.config.Comm.SSHPrivateKeyFile ≠ "")
    (hread : X.ReadSSHPrivateKeyFile (w.trace ++ [Event.Say "Creating ssh key..."])
      w.config.Comm = Except.ok pem)
    (hparse : parsePrivateKey X pem = Except.error err) :
    (s.Run X ctx).run w =
      (Result.ok StepAction.ActionHalt,
        { bag := w.bag.Put "error" (Value.str err.msg), config := w.config,
          trace := w.trace ++ [Event.Say "Creating ssh key...",
            Event.ReadSSHPrivateKeyFile w.config.Comm.SSHPrivateKeyFile,
            Event.Error err.msg] }) ∧
    ((s.Run X ctx).run w).2.bag.GetOk "error" = some (Value.str err.msg) ∧
    (∀ (K : PackerSdk) (b : Builder) (ui : Ui) (hook : Hook) (w1 : World),
      (K.NewRunner (b.steps X K (K.NewAPIClient b.config.IonosUsername b.config.IonosPassword))
        b.config.PackerDebug ui ctx).run
        { bag := [("ui", Value.ui ui), ("hook", Value.hook hook), ("config", Value.config)],
          config := b.config, trace := [] } = (Result.ok (), w1) →
      w1.bag.GetOk "error" = some (Value.str err.msg) →
      Builder.Run X K b ctx ui hook =
        (Result.panic "interface conversion: not an error", w1)) ∧
    (∀ w1, s.Cleanup.run w1 = (Result.ok (), w1)) := by
  have hrun : (s.Run X ctx).run w =
      (Result.ok StepAction.ActionHalt,
        { bag := w.bag.Put "error" (Value.str err.msg), config := w.config,
          trace := w.trace ++ [Event.Say "Creating ssh key...",
            Event.ReadSSHPrivateKeyFile w.config.Comm.SSHPrivateKeyFile,
            Event.Error err.msg] }) := by
    simp [StepCreateSSHKey.Run, M.run_bind, M.run_stateGet, M.run_liftR, hu, hc, Value.assertUi,
      Value.assertConfig, M.run_Say, M.run_readConfig, hfile, M.run_perform, hread, hparse,
      M.run_statePut, M.run_Error, M.run_pure]
  refine ⟨hrun, ?_, ?_, fun _ => rfl⟩
  · rw [hrun]
    exact StateBag.GetOk_Put_self _ _ _
  · intro K b ui hook w1 hr he
    rw [Builder_Run_eq, hr]
    simp [he, Value.assertError]

/-- A key file `id_rsa` whose contents the parser rejects: the failure is stored as the string
`failed to parse private key: ssh: no key found`. -/
theorem Run_malformed_key_records_string_witness :
    (({ Debug := false, DebugKeyPath := "ionos_packer" } : StepCreateSSHKey).Run
        rejectingExternals buildContext).run
        { bag := initialBag, config := keyFileConfig, trace := [] } =
      (Result.ok StepAction.ActionHalt,
        { bag := StateBag.Put initialBag "error"
            (Value.str "failed to parse private key: ssh: no key found"),
          config := keyFileConfig,
          trace := [Event.Say "Creating ssh key...", Event.ReadSSHPrivateKeyFile "id_rsa",
            Event.Error "failed to parse private key: ssh: no key found"] }) :=
  (Run_malformed_key_records_string rejectingExternals
    { Debug := false, DebugKeyPath := "ionos_packer" } buildContext
    { bag := initialBag, config := keyFileConfig, trace := [] } { id := 0 } "id_rsa"
    { msg := "failed to parse private key: ssh: no key found" } rfl rfl (by decide) rfl rfl).1

/-- C7, at the failing input: a build whose key file does not parse. When the runner returns,
the value recorded under `error` is the string that `StepCreateSSHKey.Run` stored, and
`Builder.Run` does not return it as its error: its type assertion to `error` panics. -/
theorem Builder_Run_recorded_string_panics :
    (Builder.Run rejectingExternals (simpleSdk happyClient) { config := keyFileConfig }
      buildContext { id := 0 } { id := 0 }).2.bag.GetOk "error" =
      some (Value.str "failed to parse private key: ssh: no key found") ∧
    (Builder.Run rejectingExternals (simpleSdk happyClient) { config := keyFileConfig }
      buildContext { id := 0 } { id := 0 }).1 =
      Result.panic "interface conversion: not an error" :=
  ⟨rfl, rfl⟩

/-- When the runner returns and no value is recorded under `error`, `Builder.Run` returns a nil
error and an artifact named after the snapshot name that the configuration holds at that moment;
when the runner returns and an error value is recorded under `error`, `Builder.Run` returns no
artifact and that error. -/
theorem Builder_Run_reports (X : Externals) (K : PackerSdk) (b : Builder) (ctx : Context)
    (ui : Ui) (hook : Hook) (w1 : World)
    (hrun : (K.NewRunner (b.steps X K (K.NewAPIClient b.config.IonosUsername
        b.config.IonosPassword)) b.config.PackerDebug ui ctx).run
      { bag := [("ui", Value.ui ui), ("hook", Value.hook hook), ("config", Value.config)],
        config := b.config, trace := [] } = (Result.ok (), w1)) :
    (w1.bag.GetOk "error" = none →
      Builder.Run X K b ctx ui hook =
        (Result.ok (some
            { snapshotData := w1.config.SnapshotName,
              StateData := [("generated_data", w1.bag.Get "generated_data")] }, none), w1)) ∧
    (∀ e, w1.bag.GetOk "error" = some (Value.error e) →
      Builder.Run X K b ctx ui hook = (Result.ok (none, some e), w1)) := by
  rw [Builder_Run_eq, hrun]
  refine ⟨?_, ?_⟩
  · intro he
    simp [he]
  · intro e he
    simp [he, Value.assertError]


/-- C10: `Cleanup` of the server step never modifies the state bag nor the configuration,
however it ends and whatever the provider answers. On a state bag that holds the UI and, under
`datacenter_id`, nothing or a string, it returns normally. A delete call that fails at submit, or
while waiting for the deletion, only shows as a UI error message. Running `Cleanup` twice at the
end of the runner gives the same outcome of `Builder.Run` as running it once. -/
theorem Cleanup_never_modifies_state (s : stepCreateServer) (w : World) :
    ((s.Cleanup.run w).2.bag = w.bag ∧ (s.Cleanup.run w).2.config = w.config) ∧
    (∀ u, w.bag.Get "ui" = Value.ui u →
      (w.bag.GetOk "datacenter_id" = none ∨
        ∃ id, w.bag.GetOk "datacenter_id" = some (Value.str id)) →
      (s.Cleanup.run w).1 = Result.ok ()) ∧
    (∀ u id e, w.bag.Get "ui" = Value.ui u →
      w.bag.GetOk "datacenter_id" = some (Value.str id) →
      (s.client.DatacentersDelete (w.trace ++ [Event.Say "Removing Virtual Data Center..."])
        Context.Background id).2 = some e →
      s.Cleanup.events w =
        [Event.Say "Removing Virtual Data Center...",
          Event.DatacentersDelete Context.Background id,
          Event.Error ("Error deleting Virtual Data Center. Please destroy it manually: " ++
            ("error occurred when executing the api get resource operation: " ++ e.msg))]) ∧
    (∀ u id e, w.bag.Get "ui" = Value.ui u →
      w.bag.GetOk "datacenter_id" = some (Value.str id) →
      (s.client.DatacentersDelete (w.trace ++ [Event.Say "Removing Virtual Data Center..."])
        Context.Background id).2 = none →
      (s.client.WaitForDeletion (w.trace ++ [Event.Say "Removing Virtual Data Center...",
        Event.DatacentersDelete Context.Background id]) Context.Background id).2 = some e →
      Event.Error ("Error deleting Virtual Data Center. Please destroy it manually: " ++ e.msg)
        ∈ s.Cleanup.events w) ∧
    (∀ (X : Externals) (K : PackerSdk) (b : Builder) (ctx : Context) (ui : Ui) (hook : Hook),
      (Builder.Run X
        { K with NewRunner := fun steps debug u c => do
            K.NewRunner steps debug u c
            s.Cleanup
            s.Cleanup } b ctx ui hook).1 =
      (Builder.Run X
        { K with NewRunner := fun steps debug u c => do
            K.NewRunner steps debug u c
            s.Cleanup } b ctx ui hook).1) := by
  refine ⟨Cleanup_frame s w, ?_, ?_, ?_, ?_⟩
  · intro u hu hv
    rcases hv with hv | ⟨id, hv⟩
    · rw [Cleanup_run_absent s w u hu hv]
    · rw [Cleanup_run_present s w u id hu hv]
  · intro u id e hu hv hd
    rw [events_of_run _ _ _ _ (Cleanup_run_present s w u id hu hv), hd]
  · intro u id e hu hv hd hw
    rw [events_of_run _ _ _ _ (Cleanup_run_present s w u id hu hv), hd, hw]
    simp
  · intro X K b ctx ui hook
    exact Cleanup_twice_outcome X K b ctx ui hook s

/-- With the datacenter `dc-1` recorded and a provider that refuses the delete call, `Cleanup`
says what it does, issues the one delete call and reports the failure to the UI. -/
theorem Cleanup_never_modifies_state_witness :
    (newStepCreateServer undeletableClient).Cleanup.events recordedWorld =
      [Event.Say "Removing Virtual Data Center...",
        Event.DatacentersDelete Context.Background "dc-1",
        Event.Error ("Error deleting Virtual Data Center. Please destroy it manually: " ++
          ("error occurred when executing the api get resource operation: " ++
            "403 Forbidden"))] :=
  (Cleanup_never_modifies_state (newStepCreateServer undeletableClient) recordedWorld).2.2.1
    { id := 0 } "dc-1" { msg := "403 Forbidden" } rfl rfl rfl

/-- With the datacenter `dc-1` recorded, `Cleanup` issues one delete call, for `dc-1`. -/
theorem Cleanup_deletes_iff_recorded_witness :
    ((newStepCreateServer happyClient).Cleanup.events recordedWorld).filter
        Event.isDatacentersDelete =
      [Event.DatacentersDelete Context.Background "dc-1"] :=
  (Cleanup_deletes_iff_recorded (newStepCreateServer happyClient) recordedWorld { id := 0 }
    rfl).1 "dc-1" rfl

/-- Scenario B: the poll of the server creation ends in the failed state. `Run` halts, the
datacenter `dc-1` is recorded, and the following `Cleanup` issues one delete call, for `dc-1`. -/
theorem Run_records_datacenter_before_later_failure_witness :
    (((newStepCreateServer scenarioBClient).Run asciiExternals buildContext).run
        scenarioWorld).1 = Result.ok StepAction.ActionHalt ∧
    (((newStepCreateServer scenarioBClient).Run asciiExternals buildContext).run
        scenarioWorld).2.bag.GetOk "datacenter_id" = some (Value.str "dc-1") ∧
    ((newStepCreateServer scenarioBClient).Cleanup.events
        (((newStepCreateServer scenarioBClient).Run asciiExternals buildContext).run
          scenarioWorld).2).filter Event.isDatacentersDelete =
      [Event.DatacentersDelete Context.Background "dc-1"] :=
  have h := (Run_records_datacenter_before_later_failure asciiExternals
    (newStepCreateServer scenarioBClient) buildContext scenarioWorld { id := 0 } rfl rfl).2.2
    "image-1" _ _ _ "dc-1" rfl rfl rfl
  ⟨((h.2.2.2 _ _ "1" rfl rfl).2 1 rfl).1 _ _ rfl, h.1, h.2.1⟩


/-- The datacenter creation against a provider for which everything succeeds: the poller is
called once, with the handle `/requests/dc` of the submit response, and succeeds. -/
theorem create_and_wait_two_phase_witness :
    (happyClient.WaitForRequest
      (scenarioWorld.trace ++ [Event.DatacentersPost buildContext
        { Id := none,
          Properties := some
            { Name := some "packer", Description := some "this is the packer datacenter",
              Location := some "us/las" } }]) buildContext "/requests/dc").2 = none ∧
    (((newStepCreateServer happyClient).createDcAndWaitUntilDone buildContext "packer"
      "us/las").run scenarioWorld).2 =
      { scenarioWorld with trace := scenarioWorld.trace ++
        [Event.DatacentersPost buildContext
          { Id := none,
            Properties := some
              { Name := some "packer", Description := some "this is the packer datacenter",
                Location := some "us/las" } },
          Event.WaitForRequest buildContext "/requests/dc",
          Event.Log ("resource created for path " ++ "/requests/dc")] } :=
  have h := (create_and_wait_two_phase (newStepCreateServer happyClient)
    (newStepTakeSnapshot happyClient) buildContext "packer" "us/las" "dc-1" "volume-1"
    { Id := none, Properties := none } { Id := none, Properties := none, Entities := none }
    scenarioWorld).1.2 _ _ rfl
  ⟨h.2.2.2.1, h.2.2.2.2⟩

/-- Scenario C: when the boot volume has licence type `LINUX` and the sync command exits with
zero, the create-snapshot request follows the start of the sync command; when it has licence type
`WINDOWS`, no command is started on the communicator. -/
theorem Run_syncs_linux_before_snapshot_witness :
    (∃ pre post, ((newStepTakeSnapshot happyClient).Run asciiExternals buildContext).events
        provisionedWorld =
      pre ++ Event.CommStart { id := 0 } buildContext { Command := "sync" } ::
        Event.Say ("Creating a snapshot for " ++ "dc-1" ++ "/volumes/" ++ "volume-1") ::
        Event.CreateSnapshotPost buildContext "dc-1" "volume-1" :: post ∧
      pre.filter Event.isCreateSnapshotPost = []) ∧
    (((newStepTakeSnapshot windowsClient).Run asciiExternals buildContext).events
      provisionedWorld).filter Event.isCommStart = [] :=
  ⟨((Run_syncs_linux_before_snapshot asciiExternals (newStepTakeSnapshot happyClient)
      buildContext provisionedWorld { id := 0 } "dc-1" "volume-1" "server-1" { id := 0 } "LINUX"
      _ rfl rfl rfl rfl rfl rfl rfl).1 (by decide)).2.2 ⟨rfl, rfl⟩,
    ((Run_syncs_linux_before_snapshot asciiExternals (newStepTakeSnapshot windowsClient)
      buildContext provisionedWorld { id := 0 } "dc-1" "volume-1" "server-1" { id := 0 }
      "WINDOWS" _ rfl rfl rfl rfl rfl rfl rfl).2 (by decide)).1⟩

/-- Scenario D: all steps succeed and the artifact is named after the configured snapshot name
`packer`; and a build whose key file cannot be read returns that error and no artifact. -/
theorem Builder_Run_reports_witness :
    Builder.Run asciiExternals (simpleSdk happyClient) { config := scenarioConfig }
        buildContext { id := 0 } { id := 0 } =
      (Result.ok (some
        { snapshotData := scenarioDEnd.config.SnapshotName,
          StateData := [("generated_data", scenarioDEnd.bag.Get "generated_data")] }, none),
        scenarioDEnd) ∧
    scenarioDEnd.config.SnapshotName = "packer" ∧
    Builder.Run unreadableExternals (simpleSdk happyClient) { config := keyFileConfig }
        buildContext { id := 0 } { id := 0 } =
      (Result.ok (none, some { msg := "open id_rsa: no such file" }), unreadableEnd) :=
  ⟨(Builder_Run_reports asciiExternals (simpleSdk happyClient) { config := scenarioConfig }
      buildContext { id := 0 } { id := 0 } scenarioDEnd
      (Prod.ext (by decide!) (by decide!))).1 (by decide!),
    by decide!,
    (Builder_Run_reports unreadableExternals (simpleSdk happyClient) { config := keyFileConfig }
      buildContext { id := 0 } { id := 0 } unreadableEnd
      (Prod.ext (by decide!) (by decide!))).2 { msg := "open id_rsa: no such file" }
      (by decide!)⟩

/-! ### The snapshot step without a communicator -/

/-- C14: in `Run` of the snapshot step, started on a state bag that holds the UI, the
configuration and the three identifiers, and in which `communicator` is absent or holds a value
that is not a communicator. `Run` returns `ActionHalt` after announcing the snapshot and
reporting `no communicator found`; its transcript holds no remote call (no lookup, no command,
no create-snapshot request, no poll), and the state bag is left as it was, so that no
`snapshotname` is written. -/
theorem Run_halts_without_communicator (X : Externals) (s : stepTakeSnapshot) (ctx : Context)
    (w : World) (u : Ui) (d v i : String)
    (hu : w.bag.Get "ui" = Value.ui u) (hc : w.bag.Get "config" = Value.config)
    (hd : w.bag.Get "datacenter_id" = Value.str d) (hv : w.bag.Get "volume_id" = Value.str v)
    (hi : w.bag.Get "instance_id" = Value.str i)
    (hcomm : w.bag.GetOk "communicator" = none ∨
      ∃ x, w.bag.GetOk "communicator" = some x ∧ x.asCommunicator = none) :
    (s.Run X ctx).run w =
      (Result.ok StepAction.ActionHalt,
        { w with trace := w.trace ++
          [Event.Say "Creating IONOS snapshot...", Event.Error "no communicator found"] }) ∧
    ((s.Run X ctx).events w).filter Event.isRemote = [] ∧
    ((s.Run X ctx).run w).2.bag = w.bag ∧
    (w.bag.GetOk "snapshotname" = none →
      ((s.Run X ctx).run w).2.bag.GetOk "snapshotname" = none) := by
  have hnone : (w.bag.Get "communicator").asCommunicator = none := by
    rcases hcomm with h | ⟨x, h, hx⟩
    · simp only [StateBag.GetOk] at h
      simp [StateBag.Get, h, Value.asCommunicator]
    · simp only [StateBag.GetOk] at h
      simpa [StateBag.Get, h] using hx
  have hrun : (s.Run X ctx).run w =
      (Result.ok StepAction.ActionHalt,
        { w with trace := w.trace ++
          [Event.Say "Creating IONOS snapshot...", Event.Error "no communicator found"] }) := by
    simp [stepTakeSnapshot.Run, M.run_bind, M.run_stateGet, M.run_liftR, hu, hc, hd, hv, hi,
      hnone, Value.assertUi, Value.assertConfig, Value.assertString, M.run_readConfig,
      M.run_Say, M.run_Error, M.run_pure]
  refine ⟨hrun, ?_, ?_, ?_⟩
  · rw [events_of_run _ _ _ _ hrun]
    simp [Event.isRemote]
  · rw [hrun]
  · intro h
    rw [hrun]
    exact h

/-- A provisioned server without a communicator: `Run` halts after two messages. -/
theorem Run_halts_without_communicator_witness :
    ((newStepTakeSnapshot happyClient).Run asciiExternals buildContext).run unconnectedWorld =
      (Result.ok StepAction.ActionHalt,
        { unconnectedWorld with trace := unconnectedWorld.trace ++
          [Event.Say "Creating IONOS snapshot...", Event.Error "no communicator found"] }) :=
  (Run_halts_without_communicator asciiExternals (newStepTakeSnapshot happyClient) buildContext
    unconnectedWorld { id := 0 } "dc-1" "volume-1" "server-1" rfl rfl rfl rfl rfl
    (Or.inl rfl)).1

/-! ### The context of the calls and the status of the reads -/

theorem getImageId_events (X : Externals) (s : stepCreateServer) (imageName : String)
    (c : Config) (w : World) :
    (s.getImageId X imageName c).events w = [Event.ImagesGet Context.Background] := by
  apply events_of_trace
  rcases hq : s.client.ImagesGet w.trace Context.Background with ⟨images, resp, err⟩
  cases err with
  | some e =>
    simp [stepCreateServer.getImageId, M.run_bind, M.run_perform, M.run_pure, hq]
  | none =>
    cases resp with
    | none =>
      simp [stepCreateServer.getImageId, M.run_bind, M.run_perform, M.run_liftR, hq, deref]
    | some r =>
      by_cases hs : r.StatusCode > 299
      · simp [stepCreateServer.getImageId, M.run_bind, M.run_perform, M.run_liftR, M.run_pure,
          hq, deref, hs]
      · cases hi : images.Items <;>
          simp [stepCreateServer.getImageId, M.run_bind, M.run_perform, M.run_liftR,
            M.run_pure, hq, deref, hs, hi]

theorem waitTillSnapshotAvailable_events (s : stepTakeSnapshot) (id : String) (u : Ui)
    (w : World) :
    ∃ rest, (s.waitTillSnapshotAvailable id u).events w =
      Event.WaitForState Context.Background id :: rest := by
  rcases hq : s.client.WaitForState w.trace Context.Background id with ⟨available, err⟩
  cases err with
  | some e =>
    refine ⟨[], events_of_trace _ _ _ ?_⟩
    simp [stepTakeSnapshot.waitTillSnapshotAvailable, M.run_bind, M.run_perform, M.run_pure, hq]
  | none =>
    cases available with
    | true =>
      refine ⟨[Event.Say "snapshot available"], events_of_trace _ _ _ ?_⟩
      simp [stepTakeSnapshot.waitTillSnapshotAvailable, M.run_bind, M.run_perform, M.run_pure,
        M.run_Say, hq]
    | false =>
      refine ⟨[], events_of_trace _ _ _ ?_⟩
      simp [stepTakeSnapshot.waitTillSnapshotAvailable, M.run_bind, M.run_perform, M.run_pure,
        hq]

/-- C11, as the code behaves: the image listing of `getImageId` and the readiness poll of
`waitTillSnapshotAvailable` are given `context.Background()`, whatever context `Run` was called
with; neither function takes the caller context. So with a caller context that is already
cancelled and a provider whose readiness poll fails on a context that is done, `Run` of the
snapshot step polls with the background context and returns `ActionContinue`, and `Run` of the
server step still lists the images. -/
theorem Run_polls_with_background_context (X : Externals) (s : stepCreateServer)
    (t : stepTakeSnapshot) (imageName : String) (c : Config) (id : String) (u : Ui)
    (w : World) :
    (s.getImageId X imageName c).events w = [Event.ImagesGet Context.Background] ∧
    (∃ rest, (t.waitTillSnapshotAvailable id u).events w =
      Event.WaitForState Context.Background id :: rest) ∧
    (((newStepTakeSnapshot cancelAwareClient).Run asciiExternals cancelledContext).run
      provisionedWorld).1 = Result.ok StepAction.ActionContinue ∧
    Event.WaitForState Context.Background "snapshot-1" ∈
      ((newStepTakeSnapshot cancelAwareClient).Run asciiExternals cancelledContext).events
        provisionedWorld ∧
    Event.WaitForState cancelledContext "snapshot-1" ∉
      ((newStepTakeSnapshot cancelAwareClient).Run asciiExternals cancelledContext).events
        provisionedWorld ∧
    Event.ImagesGet Context.Background ∈
      ((newStepCreateServer happyClient).Run asciiExternals cancelledContext).events
        scenarioWorld :=
  ⟨getImageId_events X s imageName c w, waitTillSnapshotAvailable_events t id u w, rfl,
    by decide, by decide, by decide⟩

/-- C12: every read call of the steps returns an error when the response has a status code of
300 or more, whatever the payload. `getImageId` and both lookups of `getOs` return the error of
the client if there is one and an error of their own if there is none. `findServerById` returns
the error of the client, wrapped, which the SDK reports for every such response. -/
theorem read_calls_check_status (X : Externals) (s : stepCreateServer) (t : stepTakeSnapshot)
    (ctx : Context) (w : World) :
    (∀ imageName c images resp err,
      s.client.ImagesGet w.trace Context.Background = (images, some resp, err) →
      resp.StatusCode ≥ 300 →
      ((s.getImageId X imageName c).run w).1 =
        Result.ok (Except.error
          (err.getD (errorsNew "error occurred while getting images")))) ∧
    (∀ d i server resp err,
      t.client.ServersFindById w.trace ctx d i = (server, some resp, err) →
      resp.StatusCode ≥ 300 →
      ((t.getOs ctx d i).run w).1 =
        Result.ok (Except.error (err.getD (errorsNew resp.Message)))) ∧
    (∀ d i server resp props bv vid volume resp2 err2,
      t.client.ServersFindById w.trace ctx d i = (server, some resp, none) →
      resp.StatusCode = 200 → server.Properties = some props →
      props.BootVolume = some bv → bv.Id = some vid →
      t.client.VolumesFindById (w.trace ++ [Event.ServersFindById ctx d i]) ctx d vid =
        (volume, some resp2, err2) →
      resp2.StatusCode ≥ 300 →
      ((t.getOs ctx d i).run w).1 =
        Result.ok (Except.error (err2.getD (errorsNew resp2.Message)))) ∧
    (∀ d i server resp err,
      s.client.ServersFindById w.trace ctx d i = (server, some resp, err) →
      executeReportsStatus (some resp) err →
      resp.StatusCode ≥ 300 →
      ∃ e, err = some e ∧
        ((s.findServerById ctx d i).run w).1 =
          Result.ok (Except.error (fmtErrorf ("error attaching NIC (" ++ e.msg ++ ")")))) := by
  refine ⟨?_, ?_, ?_, ?_⟩
  · intro imageName c images resp err hq hs
    have hs1 : resp.StatusCode > 299 := by omega
    cases err <;>
      simp [stepCreateServer.getImageId, M.run_bind, M.run_perform, M.run_liftR, M.run_pure, hq,
        deref, hs1]
  · intro d i server resp err hq hs
    have hs1 : resp.StatusCode ≠ 200 := by omega
    cases err <;>
      simp [stepTakeSnapshot.getOs, M.run_bind, M.run_perform, M.run_liftR, M.run_pure, hq,
        deref, hs1]
  · intro d i server resp props bv vid volume resp2 err2 hq hs hp hb hv hq2 hs2
    have hs1 : resp2.StatusCode ≠ 200 := by omega
    cases err2 <;>
      simp [stepTakeSnapshot.getOs, M.run_bind, M.run_perform, M.run_liftR, M.run_pure, hq,
        deref, hs, hp, hb, hv, hq2, hs1]
  · intro d i server resp err hq hsdk hs
    cases err with
    | none => exact absurd rfl (hsdk resp rfl hs)
    | some e =>
      exact ⟨e, rfl, by
        simp [stepCreateServer.findServerById, M.run_bind, M.run_perform, M.run_pure, hq]⟩

/-- A server lookup answered with status 404, which the SDK reports as the error
`404 Not Found`: `findServerById` returns that error, wrapped. -/
theorem read_calls_check_status_witness :
    ∃ e, some ({ msg := "404 Not Found" } : GoError) = some e ∧
      (((newStepCreateServer missingServerClient).findServerById buildContext "dc-1"
        "server-1").run scenarioWorld).1 =
        Result.ok (Except.error (fmtErrorf ("error attaching NIC (" ++ e.msg ++ ")"))) :=
  (read_calls_check_status asciiExternals (newStepCreateServer missingServerClient)
    (newStepTakeSnapshot missingServerClient) buildContext scenarioWorld).2.2.2 "dc-1"
    "server-1" _ _ _ rfl (fun _ _ _ => by simp) (by decide)

/-! ### The server request -/

theorem parseUintLoop_ok (s0 : String) :
    ∀ (cs : List Char) (acc n : Nat), parseUintLoop s0 cs acc = Except.ok n →
      cs.all isDecimalDigit = true ∧ n = digitsValue cs acc := by
  intro cs
  induction cs with
  | nil =>
    intro acc n h
    simp only [parseUintLoop, Except.ok.injEq] at h
    simp [digitsValue, h]
  | cons ch rest ih =>
    intro acc n h
    simp only [parseUintLoop] at h
    split at h
    · rename_i hd
      split at h
      · exact absurd h (by simp)
      · obtain ⟨h1, h2⟩ := ih _ _ h
        refine ⟨?_, ?_⟩
        · simp [List.all_cons, h1, isDecimalDigit, hd]
        · simpa [digitsValue] using h2
    · exact absurd h (by simp)

theorem strconvAtoi_unsigned (s : String) (neg : Bool) (cs : List Char) (n : Int)
    (h : (if cs = [] then
        (Except.error ⟨"strconv.Atoi: parsing \"" ++ s ++ "\": invalid syntax"⟩ :
          Except GoError Int)
      else
        match parseUintLoop s cs 0 with
        | Except.error e => Except.error e
        | Except.ok m =>
          if neg then
            if m > 2 ^ 63 then
              Except.error ⟨"strconv.Atoi: parsing \"" ++ s ++ "\": value out of range"⟩
            else Except.ok (- (m : Int))
          else
            if m ≥ 2 ^ 63 then
              Except.error ⟨"strconv.Atoi: parsing \"" ++ s ++ "\": value out of range"⟩
            else Except.ok (m : Int)) = Except.ok n) :
    cs ≠ [] ∧ cs.all isDecimalDigit = true ∧
      n = if neg then - (digitsValue cs 0 : Int) else (digitsValue cs 0 : Int) := by
  split at h
  · exact absurd h (by simp)
  · rename_i hne
    split at h
    · exact absurd h (by simp)
    · rename_i m hm
      obtain ⟨h1, h2⟩ := parseUintLoop_ok s cs 0 m hm
      subst h2
      cases neg with
      | true =>
        simp only [if_true] at h
        split at h
        · exact absurd h (by simp)
        · simp only [Except.ok.injEq] at h
          exact ⟨hne, h1, by simp [h]⟩
      | false =>
        simp only [Bool.false_eq_true, if_false] at h
        split at h
        · exact absurd h (by simp)
        · simp only [Except.ok.injEq] at h
          exact ⟨hne, h1, by simp [h]⟩

theorem strconvAtoi_ok (s : String) (n : Int) (h : strconvAtoi s = Except.ok n) :
    decimalValue s = some n := by
  unfold strconvAtoi at h
  split at h <;> rename_i hs
  · obtain ⟨h1, h2, h3⟩ := strconvAtoi_unsigned s true _ n h
    simp [decimalValue, decimalDigits, hs, h1, h2, h3]
  · obtain ⟨h1, h2, h3⟩ := strconvAtoi_unsigned s false _ n h
    simp [decimalValue, decimalDigits, hs, h1, h2, h3]
  · rename_i hm
    obtain ⟨h1, h2, h3⟩ := strconvAtoi_unsigned s false _ n h
    cases hd : s.data with
    | nil => exact absurd hd h1
    | cons c t =>
      have hc1 : c ≠ '-' := fun hc => hm t (by rw [hd, hc])
      have hc2 : c ≠ '+' := fun hc => hs t (by rw [hd, hc])
      have h2a : (c :: t).all isDecimalDigit = true := by rw [← hd]; exact h2
      have h3a : n = Int.ofNat (digitsValue (c :: t) 0) := by rw [← hd]; simpa using h3
      simp only [decimalValue, decimalDigits, hd, if_neg hc1, if_neg hc2, h2a, h3a]
      simp

theorem M.run_bind_of_ok {α β : Type} (m : M α) (f : α → M β) (w w1 : World) (a : α)
    (h : m.run w = (Result.ok a, w1)) : (m >>= f).run w = (f a).run w1 := by
  rw [M.run_bind, h]

theorem getImageId_keeps_event (I : World → Prop)
    (hE : ∀ e : Event, e.isServersPost = false → ∀ w, I w → I { w with trace := w.trace ++ [e] })
    (X : Externals) (s : stepCreateServer) (imageName : String) (c : Config) :
    M.Keeps I (s.getImageId X imageName c) := by
  unfold stepCreateServer.getImageId
  repeat' first
    | exact M.keeps_event I _ _ (hE _ rfl)
    | apply M.keeps_bind
    | apply M.keeps_pure
    | apply M.keeps_liftR
    | split
    | intro _

theorem waitForRequestToBeDone_keeps_event (I : World → Prop)
    (hE : ∀ e : Event, e.isServersPost = false → ∀ w, I w → I { w with trace := w.trace ++ [e] })
    (s : stepCreateServer) (ctx : Context) (path : String) :
    M.Keeps I (s.waitForRequestToBeDone ctx path) := by
  unfold stepCreateServer.waitForRequestToBeDone
  repeat' first
    | exact M.keeps_event I _ _ (hE _ rfl)
    | exact M.keeps_logPrintf_event I _ (hE _ rfl)
    | apply M.keeps_bind
    | apply M.keeps_pure
    | split
    | intro _

theorem createDc_keeps_event (I : World → Prop)
    (hE : ∀ e : Event, e.isServersPost = false → ∀ w, I w → I { w with trace := w.trace ++ [e] })
    (s : stepCreateServer) (ctx : Context) (name loc : String) :
    M.Keeps I (s.createDcAndWaitUntilDone ctx name loc) := by
  unfold stepCreateServer.createDcAndWaitUntilDone stepCreateServer.createDatacenter
  repeat' first
    | exact M.keeps_event I _ _ (hE _ rfl)
    | exact waitForRequestToBeDone_keeps_event I hE _ _ _
    | apply M.keeps_bind
    | apply M.keeps_pure
    | split
    | intro _
    | dsimp only

theorem createLan_keeps_event (I : World → Prop)
    (hE : ∀ e : Event, e.isServersPost = false → ∀ w, I w → I { w with trace := w.trace ++ [e] })
    (s : stepCreateServer) (ctx : Context) (dcId : String) (lanPost : LanPost) :
    M.Keeps I (s.createLanAndWaitUntilDone ctx dcId lanPost) := by
  unfold stepCreateServer.createLanAndWaitUntilDone
  repeat' first
    | exact M.keeps_event I _ _ (hE _ rfl)
    | exact waitForRequestToBeDone_keeps_event I hE _ _ _
    | apply M.keeps_bind
    | apply M.keeps_pure
    | split
    | intro _
    | dsimp only

theorem findServerById_keeps_event (I : World → Prop)
    (hE : ∀ e : Event, e.isServersPost = false → ∀ w, I w → I { w with trace := w.trace ++ [e] })
    (s : stepCreateServer) (ctx : Context) (dcId serverID : String) :
    M.Keeps I (s.findServerById ctx dcId serverID) := by
  unfold stepCreateServer.findServerById
  repeat' first
    | exact M.keeps_event I _ _ (hE _ rfl)
    | apply M.keeps_bind
    | apply M.keeps_pure
    | split
    | intro _

/-- A computation that only adds events other than server requests. -/
theorem trace_of_keeps_event {α : Type} (m : M α)
    (hk : ∀ I : World → Prop,
      (∀ e : Event, e.isServersPost = false →
        ∀ w, I w → I { w with trace := w.trace ++ [e] }) → M.Keeps I m)
    (w : World) :
    ∃ new, (m.run w).2.trace = w.trace ++ new ∧ new.filter Event.isServersPost = [] := by
  refine (hk (fun w1 => ∃ new, w1.trace = w.trace ++ new ∧
    new.filter Event.isServersPost = []) ?_).keep w ⟨[], by simp, rfl⟩
  rintro e he w1 ⟨new, h1, h2⟩
  exact ⟨new ++ [e], by simp [h1], by simp [List.filter_append, h2, he]⟩

/-- Once the LAN exists and its identifier is an integer, the second half of `Run` announces
and submits the server request, with the LAN reference in it, and submits no other. -/
theorem afterDatacenter_server_trace (s : stepCreateServer) (ctx : Context) (u : Ui)
    (c : Config) (props : VolumeProperties) (nic : NicProperties) (id : String)
    (w : World) (lan : LanPost) (w5 : World) (lid : String) (n : Int)
    (hlan : (s.createLanAndWaitUntilDone ctx id
        { Id := none, Properties := some { Public := some true, Name := some c.SnapshotName } }).run
        { w with trace := w.trace ++ [Event.Say "Creating LAN..."] } =
          (Result.ok (Except.ok lan), w5))
    (hlid : lan.Id = some lid) (hatoi : strconvAtoi lid = Except.ok n) :
    ∃ rest, ((stepCreateServer.Run.afterDatacenter s ctx u c props nic id).run w).2.trace =
        w5.trace ++ (Event.Say "Creating Server..." ::
          Event.ServersPost ctx id
            (stepCreateServer.serverReq c props { nic with Lan := some (toInt32 n) }) :: rest) ∧
      rest.filter Event.isServersPost = [] := by
  unfold stepCreateServer.Run.afterDatacenter
  dsimp only
  rw [M.run_bind_Say, M.run_bind_of_ok _ _ _ _ _ hlan]
  dsimp only
  rw [hlid, M.run_bind_of_ok _ _ _ _ _ (M.run_liftR (deref (some lid)) w5)]
  rw [hatoi]
  dsimp only
  rw [M.run_bind_Say]
  unfold stepCreateServer.createServerAndWaitUntilDone stepCreateServer.createServer
  simp only [M.bind_assoc, M.run_bind_perform]
  refine (M.Keeps.keep (I := fun w1 => ∃ rest, w1.trace =
        w5.trace ++ (Event.Say "Creating Server..." ::
          Event.ServersPost ctx id
            (stepCreateServer.serverReq c props { nic with Lan := some (toInt32 n) }) :: rest) ∧
      rest.filter Event.isServersPost = []) ?_ _ ⟨[], by simp, rfl⟩)
  have hE : ∀ e : Event, e.isServersPost = false → ∀ w1 : World,
      (∃ rest, w1.trace =
        w5.trace ++ (Event.Say "Creating Server..." ::
          Event.ServersPost ctx id
            (stepCreateServer.serverReq c props { nic with Lan := some (toInt32 n) }) :: rest) ∧
        rest.filter Event.isServersPost = []) →
      ∃ rest, ({ w1 with trace := w1.trace ++ [e] } : World).trace =
        w5.trace ++ (Event.Say "Creating Server..." ::
          Event.ServersPost ctx id
            (stepCreateServer.serverReq c props { nic with Lan := some (toInt32 n) }) :: rest) ∧
        rest.filter Event.isServersPost = [] := by
    rintro e he w1 ⟨rest, h1, h2⟩
    exact ⟨rest ++ [e], by simp [h1], by simp [List.filter_append, h2, he]⟩
  repeat' first
    | exact M.keeps_Say_event _ _ _ (hE _ rfl)
    | exact M.keeps_Error_event _ _ _ (hE _ rfl)
    | exact waitForRequestToBeDone_keeps_event _ hE _ _ _
    | exact findServerById_keeps_event _ hE _ _ _ _
    | exact M.keeps_statePut _ _ _ (fun _ h => h)
    | apply M.keeps_bind
    | apply M.keeps_pure
    | apply M.keeps_liftR
    | split
    | intro _

theorem afterDatacenter_atoi_error_run (s : stepCreateServer) (ctx : Context) (u : Ui)
    (c : Config) (props : VolumeProperties) (nic : NicProperties) (id : String)
    (w : World) (lan : LanPost) (w5 : World) (lid : String) (e : GoError)
    (hlan : (s.createLanAndWaitUntilDone ctx id
        { Id := none, Properties := some { Public := some true, Name := some c.SnapshotName } }).run
        { w with trace := w.trace ++ [Event.Say "Creating LAN..."] } =
          (Result.ok (Except.ok lan), w5))
    (hlid : lan.Id = some lid) (hatoi : strconvAtoi lid = Except.error e) :
    (stepCreateServer.Run.afterDatacenter s ctx u c props nic id).run w =
      (Result.ok StepAction.ActionHalt,
        { w5 with trace := w5.trace ++
          [Event.Error ("Error occurred while creating a server " ++ e.msg)] }) := by
  simp [stepCreateServer.Run.afterDatacenter, M.run_bind, M.run_Say, hlan, M.run_Error,
    M.run_pure, M.run_liftR, deref, hlid, hatoi]

theorem toInt32_of_range (n : Int) (h1 : -2 ^ 31 ≤ n) (h2 : n < 2 ^ 31) : toInt32 n = n := by
  unfold toInt32
  omega

/-- C13, amended: in `Run` of the server step, started on a state bag that holds the UI and the
configuration, when the image `img` was found, the datacenter `id` was created and the LAN was
created in it with the identifier string `lid`. If `strconv.Atoi` accepts `lid` with value `n`,
then `lid` denotes `n` in decimal notation and `Run` submits exactly one server request, in the
datacenter `id`: it asks for the configured cores and RAM, for exactly one volume, built from
the image, and for exactly one network interface, with DHCP enabled and the LAN reference
`int32(n)`, which is `n` itself when `n` lies between `-2^31` and `2^31 - 1`. If `lid` does not
denote an integer in decimal notation, `Run` returns `ActionHalt` and submits no server
request. -/
theorem Run_submits_server_request (X : Externals) (s : stepCreateServer) (ctx : Context)
    (w : World) (u : Ui) (img : String) (w2 : World) (dc : Datacenter) (w3 : World)
    (id : String) (lan : LanPost) (w5 : World) (lid : String)
    (hu : w.bag.Get "ui" = Value.ui u) (hc : w.bag.Get "config" = Value.config)
    (himg : (s.getImageId X w.config.Image w.config).run
      { w with trace := w.trace ++ [Event.Say "Creating Virtual Data Center..."] } =
        (Result.ok (Except.ok img), w2))
    (hdc : (s.createDcAndWaitUntilDone ctx w.config.SnapshotName w.config.Region).run w2 =
      (Result.ok (Except.ok dc), w3))
    (hid : dc.Id = some id)
    (hlan : (s.createLanAndWaitUntilDone ctx id
        { Id := none,
          Properties := some { Public := some true, Name := some w.config.SnapshotName } }).run
        { bag := w3.bag.Put "datacenter_id" (Value.str id), config := w3.config,
          trace := w3.trace ++ [Event.Say "Creating LAN..."] } =
          (Result.ok (Except.ok lan), w5))
    (hlid : lan.Id = some lid) :
    (∀ n, strconvAtoi lid = Except.ok n →
      decimalValue lid = some n ∧
      (∃ req, ((s.Run X ctx).events w).filter Event.isServersPost =
          [Event.ServersPost ctx id req] ∧
        req.Properties = some
          { Name := some w.config.SnapshotName, Ram := some w.config.Ram,
            Cores := some w.config.Cores, BootVolume := none } ∧
        req.Entities = some
          { Volumes := some
              { Items := some
                  [{ Id := none,
                     Properties := some (stepCreateServer.Run.props w.config img) }] },
            Nics := some
              { Items := some
                  [{ Id := none,
                     Properties := some
                       { Name := some w.config.SnapshotName, Dhcp := some true, Ips := none,
                         Lan := some (toInt32 n) } }] } }) ∧
      (-2 ^ 31 ≤ n → n < 2 ^ 31 → toInt32 n = n)) ∧
    (decimalValue lid = none →
      ((s.Run X ctx).run w).1 = Result.ok StepAction.ActionHalt ∧
      ((s.Run X ctx).events w).filter Event.isServersPost = []) := by
  obtain ⟨new1, ht1, hf1⟩ := trace_of_keeps_event _
    (fun I hE => getImageId_keeps_event I hE X s w.config.Image w.config)
    { w with trace := w.trace ++ [Event.Say "Creating Virtual Data Center..."] }
  rw [himg] at ht1
  obtain ⟨new2, ht2, hf2⟩ := trace_of_keeps_event _
    (fun I hE => createDc_keeps_event I hE s ctx w.config.SnapshotName w.config.Region) w2
  rw [hdc] at ht2
  obtain ⟨new3, ht3, hf3⟩ := trace_of_keeps_event _
    (fun I hE => createLan_keeps_event I hE s ctx id
      { Id := none,
        Properties := some { Public := some true, Name := some w.config.SnapshotName } })
    { bag := w3.bag.Put "datacenter_id" (Value.str id), config := w3.config,
      trace := w3.trace ++ [Event.Say "Creating LAN..."] }
  rw [hlan] at ht3
  have hrun := Run_dc_ok X s ctx w u hu hc img w2 dc w3 id himg hdc hid
  have ht5 : w5.trace = w.trace ++ (Event.Say "Creating Virtual Data Center..." :: new1 ++
      new2 ++ Event.Say "Creating LAN..." :: new3) := by
    rw [ht3, ht2, ht1]
    simp
  refine ⟨?_, ?_⟩
  · intro n hatoi
    refine ⟨strconvAtoi_ok lid n hatoi, ?_, toInt32_of_range n⟩
    obtain ⟨rest, htr, hfr⟩ := afterDatacenter_server_trace s ctx u w.config
      (stepCreateServer.Run.props w.config img) (stepCreateServer.Run.nicProperties w.config) id
      { w3 with bag := w3.bag.Put "datacenter_id" (Value.str id) } lan w5 lid n hlan hlid hatoi
    refine ⟨stepCreateServer.serverReq w.config (stepCreateServer.Run.props w.config img)
      { stepCreateServer.Run.nicProperties w.config with Lan := some (toInt32 n) },
      ?_, rfl, rfl⟩
    rw [← hrun, ht5] at htr
    rw [events_of_trace _ _ _ (by rw [htr, List.append_assoc])]
    simp [List.filter_append, List.filter_cons, hf1, hf2, hf3, hfr, Event.isServersPost]
  · intro hnone
    cases hatoi : strconvAtoi lid with
    | ok n =>
      have := strconvAtoi_ok lid n hatoi
      rw [hnone] at this
      exact absurd this (by simp)
    | error e =>
      have hend := afterDatacenter_atoi_error_run s ctx u w.config
        (stepCreateServer.Run.props w.config img) (stepCreateServer.Run.nicProperties w.config)
        id { w3 with bag := w3.bag.Put "datacenter_id" (Value.str id) } lan w5 lid e hlan hlid
        hatoi
      rw [← hrun] at hend
      refine ⟨by rw [hend], ?_⟩
      rw [events_of_trace _ _ _ (by rw [hend]; show w5.trace ++ _ = _; rw [ht5, List.append_assoc])]
      simp [List.filter_append, List.filter_cons, hf1, hf2, hf3, Event.isServersPost]

/-- A LAN numbered `1`: the one server request carries the LAN reference `1`, one volume and one
network interface; and a LAN named `lan-1`: `Run` halts and submits no server request. -/
theorem Run_submits_server_request_witness :
    (decimalValue "1" = some 1 ∧
      ∃ req, (((newStepCreateServer happyClient).Run asciiExternals buildContext).events
          scenarioWorld).filter Event.isServersPost =
          [Event.ServersPost buildContext "dc-1" req] ∧
        req.Properties = some
          { Name := some "packer", Ram := some 2048, Cores := some 4, BootVolume := none } ∧
        req.Entities = some
          { Volumes := some
              { Items := some
                  [{ Id := none,
                     Properties := some
                       (stepCreateServer.Run.props scenarioConfig "image-1") }] },
            Nics := some
              { Items := some
                  [{ Id := none,
                     Properties := some
                       { Name := some "packer", Dhcp := some true, Ips := none,
                         Lan := some 1 } }] } }) ∧
    ((((newStepCreateServer namedLanClient).Run asciiExternals buildContext).run
        scenarioWorld).1 = Result.ok StepAction.ActionHalt ∧
      (((newStepCreateServer namedLanClient).Run asciiExternals buildContext).events
        scenarioWorld).filter Event.isServersPost = []) :=
  have h := (Run_submits_server_request asciiExternals (newStepCreateServer happyClient)
    buildContext scenarioWorld { id := 0 } "image-1" _ _ _ "dc-1" _ _ "1" rfl rfl rfl rfl rfl
    rfl rfl).1 1 rfl
  ⟨⟨h.1, h.2.1⟩,
    (Run_submits_server_request asciiExternals (newStepCreateServer namedLanClient)
      buildContext scenarioWorld { id := 0 } "image-1" _ _ _ "dc-1" _ _ "lan-1" rfl rfl rfl rfl
      rfl rfl rfl).2 rfl⟩

/-- C13, as stated, fails: when the provider numbers the new LAN `4294967297`, the identifier
denotes that integer, and the one server request that `Run` submits carries the LAN reference
`1`. -/
theorem Run_lan_reference_wraps :
    (bigLanClient.LansPost [] buildContext "dc-1"
      { Id := none, Properties := some { Public := some true, Name := some "packer" } }).1.Id =
      some "4294967297" ∧
    decimalValue "4294967297" = some 4294967297 ∧
    (((newStepCreateServer bigLanClient).Run asciiExternals buildContext).events
        scenarioWorld).filter Event.isServersPost =
      [Event.ServersPost buildContext "dc-1"
        (stepCreateServer.serverReq scenarioConfig
          (stepCreateServer.Run.props scenarioConfig "image-1")
          { Name := some "packer", Dhcp := some true, Ips := none, Lan := some 1 })] ∧
    (((newStepCreateServer bigLanClient).Run asciiExternals buildContext).run
        scenarioWorld).1 = Result.ok StepAction.ActionContinue :=
  ⟨rfl, by decide, by decide, by decide⟩

end Ionoscloud
